import Mathlib

/-!
Verification of the multi-agent sequential workflow engine of the
agent_service repository (shared workflow state, the eight agents'
parse/fallback logic, the architecture-continuity resolver and the
sequential workflow driver).

The Python code is shallowly embedded:

* JSON-like Python dicts/lists ("open key/value maps") are modelled by
  the inductive type `Json`; Python numbers are modelled by `Rat`
  (the code only ever compares, averages and renders them).
* Python exceptions are modelled by `Except PyErr`; operations such as
  `x.get(k, d)` on a non-dict raise, as in CPython, via `pyGet` etc.
* The LLM completion client (`groq_service.query`), the search client
  (`tavily_service.search`) and the standard-library JSON
  deserializer (`json.loads`) are external collaborators; they enter
  the model as oracle parameters, collected in the `Oracles` record.
* `async`/`await` is cooperative and strictly sequential in this code,
  so every `async def` becomes a plain function.
* Logging calls (structlog) are pure observers and are not modelled.
-/

namespace AgentService

/-- A JSON-like Python value: the payloads the agents exchange. Objects
keep insertion order, as CPython dicts do. -/
inductive Json where
  | null : Json
  | bool : Bool → Json
  | num : Rat → Json
  | str : String → Json
  | arr : List Json → Json
  | obj : List (String × Json) → Json
  deriving Repr, Inhabited

namespace Json

/- Structural equality. The deriving handler cannot see through the
nested `List` positions, so the test is a mutual recursion, ordered
compound-first, and the `DecidableEq` instance is recovered from its
correctness. -/
mutual

def eqv : Json → Json → Bool
  | obj fs, obj gs => eqvF fs gs
  | arr xs, arr ys => eqvL xs ys
  | str a, str b => a == b
  | num a, num b => a == b
  | bool a, bool b => a == b
  | null, null => true
  | _, _ => false

def eqvL : List Json → List Json → Bool
  | x :: xs, y :: ys => eqv x y && eqvL xs ys
  | [], [] => true
  | _, _ => false

def eqvF : List (String × Json) → List (String × Json) → Bool
  | (k, v) :: xs, (l, w) :: ys => k == l && eqv v w && eqvF xs ys
  | [], [] => true
  | _, _ => false

end

mutual

def eqv_correct : ∀ a b : Json, a = b ↔ eqv a b = true
  | obj fs, obj gs => by simp [eqv, eqvF_correct fs gs]
  | arr xs, arr ys => by simp [eqv, eqvL_correct xs ys]
  | str a, str b => by simp [eqv]
  | num a, num b => by simp [eqv]
  | bool a, bool b => by simp [eqv]
  | null, null => by simp [eqv]
  | obj _, arr _ | obj _, str _ | obj _, num _ | obj _, bool _ | obj _, null
  | arr _, obj _ | arr _, str _ | arr _, num _ | arr _, bool _ | arr _, null
  | str _, obj _ | str _, arr _ | str _, num _ | str _, bool _ | str _, null
  | num _, obj _ | num _, arr _ | num _, str _ | num _, bool _ | num _, null
  | bool _, obj _ | bool _, arr _ | bool _, str _ | bool _, num _ | bool _, null
  | null, obj _ | null, arr _ | null, str _ | null, num _ | null, bool _ => by
    simp [eqv]

def eqvL_correct : ∀ xs ys : List Json, xs = ys ↔ eqvL xs ys = true
  | x :: xs, y :: ys => by
    simp [eqvL, eqv_correct x y, eqvL_correct xs ys]
  | [], [] => by simp [eqvL]
  | [], _ :: _ => by simp [eqvL]
  | _ :: _, [] => by simp [eqvL]

def eqvF_correct : ∀ xs ys : List (String × Json), xs = ys ↔ eqvF xs ys = true
  | (k, v) :: xs, (l, w) :: ys => by
    simp [eqvF, eqv_correct v w, eqvF_correct xs ys, and_assoc]
  | [], [] => by simp [eqvF]
  | [], _ :: _ => by simp [eqvF]
  | _ :: _, [] => by simp [eqvF]

end

instance : DecidableEq Json :=
  fun a b => decidable_of_iff (eqv a b = true) (eqv_correct a b).symm

/-- Python truthiness of a value (`if x:`): empty containers, empty
strings, zero and `None` are falsy. -/
def truthy : Json → Bool
  | null => false
  | bool b => b
  | num q => q != 0
  | str s => s != ""
  | arr xs => !xs.isEmpty
  | obj fs => !fs.isEmpty

def isObj : Json → Bool
  | obj _ => true
  | _ => false

end Json

/-- First binding of a key in an object's field list (CPython dicts
hold each key once; lookup of the sole occurrence). -/
def lookupField : List (String × Json) → String → Option Json
  | [], _ => none
  | (k, v) :: rest, key => if k == key then some v else lookupField rest key

/-- `d[k] = v` on a dict: updates in place, preserving insertion order,
appending at the end when the key is new. -/
def setField : List (String × Json) → String → Json → List (String × Json)
  | [], k, v => [(k, v)]
  | (k', v') :: rest, k, v =>
    if k' == k then (k, v) :: rest else (k', v') :: setField rest k v

/-- `d.setdefault(k, v)`: keeps an existing binding, else appends. -/
def setdefaultField (fs : List (String × Json)) (k : String) (v : Json) :
    List (String × Json) :=
  if (lookupField fs k).isSome then fs else fs ++ [(k, v)]

/-- A sequence of `setdefault` calls, in order. -/
def setdefaults (fs : List (String × Json)) (kvs : List (String × Json)) :
    List (String × Json) :=
  kvs.foldl (fun acc kv => setdefaultField acc kv.1 kv.2) fs

namespace Json

/-- `x.get(k)` when `x` is known to be a dict (`none` when it is not,
for use where the receiver is an object by construction). -/
def get? : Json → String → Option Json
  | obj fs, k => lookupField fs k
  | _, _ => none

/-- `x.get(k, d)` on a value that is an object by construction. -/
def getD (v : Json) (k : String) (d : Json) : Json := (v.get? k).getD d

/-- `d[k] = v` lifted to an object value (identity on non-objects;
only used where the receiver is an object by construction). -/
def setD (v : Json) (k : String) (x : Json) : Json :=
  match v with
  | obj fs => obj (setField fs k x)
  | _ => v

end Json

/-- The Python exceptions the modelled code can raise. -/
inductive PyErr where
  | valueError (msg : String)
  | attributeError
  | typeError
  | keyError
  | indexError
  deriving Repr, DecidableEq

/-- `str(e)` as used in the agents' error payloads. -/
def pyErrStr : PyErr → String
  | .valueError msg => msg
  | .attributeError => "attribute error"
  | .typeError => "type error"
  | .keyError => "key error"
  | .indexError => "index error"

/-- `x.get(k, d)`: dict lookup with default; `AttributeError` on any
non-dict receiver, as in CPython. -/
def pyGet (v : Json) (k : String) (d : Json) : Except PyErr Json :=
  match v with
  | .obj fs => .ok ((lookupField fs k).getD d)
  | _ => .error .attributeError

/-- `x[k]` for a string key: dict indexing (`KeyError` when absent,
`TypeError` on lists, `AttributeError`-like failures folded into
`TypeError` for the other receivers, as CPython raises `TypeError`). -/
def pyGetItem (v : Json) (k : String) : Except PyErr Json :=
  match v with
  | .obj fs =>
    match lookupField fs k with
    | some x => .ok x
    | none => .error .keyError
  | _ => .error .typeError

/-- `x[k] = v` for a string key: dict assignment; `TypeError` on any
other receiver. -/
def pySetItem (v : Json) (k : String) (x : Json) : Except PyErr Json :=
  match v with
  | .obj fs => .ok (.obj (setField fs k x))
  | _ => .error .typeError

/- ## Python string operations -/

/-- Index of the first occurrence of `sub` in the character list, if any. -/
def subFindAux : List Char → List Char → Option Nat
  | [], sub => if sub.isEmpty then some 0 else none
  | c :: rest, sub =>
    if List.isPrefixOf sub (c :: rest) then some 0
    else (subFindAux rest sub).map (· + 1)

/-- `sub in s` for strings: substring containment. -/
def strContains (s sub : String) : Bool := (subFindAux s.toList sub.toList).isSome

/-- `s.find(sub)`: index of the first occurrence, `-1` when absent. -/
def pyFind (s sub : String) : Int :=
  match subFindAux s.toList sub.toList with
  | some n => (n : Int)
  | none => -1

/-- `s.find(sub, start)` for a non-empty `sub`. -/
def pyFindFrom (s sub : String) (start : Nat) : Int :=
  match subFindAux (s.toList.drop start) sub.toList with
  | some n => ((n + start : Nat) : Int)
  | none => -1

/-- `s.rfind(sub)`: index of the last occurrence, `-1` when absent. -/
def pyRFind (s sub : String) : Int :=
  match (List.range (s.toList.length + 1)).reverse.find?
      (fun i => List.isPrefixOf sub.toList (s.toList.drop i)) with
  | some n => (n : Int)
  | none => -1

/-- `s[a : b]` for `0 ≤ a`; a negative `b` counts from the end (clamped
at 0), as in Python — the code hits `b = -1` when a closing code fence
is missing and `find` returns `-1`. -/
def pySlice (s : String) (a : Nat) (b : Int) : String :=
  let cs := s.toList
  let e : Nat := if b < 0 then cs.length - (-b).toNat else b.toNat
  String.mk ((cs.take e).drop a)

/-- The default whitespace set of `str.strip()`. -/
def pyIsSpace (c : Char) : Bool :=
  c == ' ' || c == '\t' || c == '\n' || c == '\x0d' || c == '\x0b' || c == '\x0c'

/-- `s.strip()`. -/
def pyStrip (s : String) : String :=
  String.mk (((s.toList.dropWhile pyIsSpace).reverse.dropWhile pyIsSpace).reverse)

/-- `s.lower()` (the code only lowercases ASCII keyword text). -/
def pyLower (s : String) : String := String.mk (s.toList.map Char.toLower)

/-- Worker for `pyTitle`: tracks whether the previous character was
alphabetic. -/
def pyTitleAux : Bool → List Char → List Char
  | _, [] => []
  | prevAlpha, c :: rest =>
    if c.isAlpha then
      (if prevAlpha then c.toLower else c.toUpper) :: pyTitleAux true rest
    else c :: pyTitleAux false rest

/-- `s.title()` (ASCII): first letter of each alphabetic run uppercased,
the rest lowercased. -/
def pyTitle (s : String) : String := String.mk (pyTitleAux false s.toList)

/-- Decimal-free rendering of a number; CPython float text is
approximated by `num/den` for non-integral values. No claim depends on
this text. -/
def ratStr (q : Rat) : String :=
  if q.den == 1 then toString q.num else toString q.num ++ "/" ++ toString q.den

mutual

/-- `repr(x)` of a payload value, as CPython renders containers. -/
def pyReprJ : Json → String
  | .null => "None"
  | .bool b => if b then "True" else "False"
  | .num q => ratStr q
  | .str s => "\x27" ++ s ++ "\x27"
  | .arr xs => "[" ++ reprListJ xs ++ "]"
  | .obj fs => "\x7b" ++ reprFieldsJ fs ++ "\x7d"

def reprListJ : List Json → String
  | [] => ""
  | [x] => pyReprJ x
  | x :: rest => pyReprJ x ++ ", " ++ reprListJ rest

def reprFieldsJ : List (String × Json) → String
  | [] => ""
  | [(k, v)] => "\x27" ++ k ++ "\x27: " ++ pyReprJ v
  | (k, v) :: rest => "\x27" ++ k ++ "\x27: " ++ pyReprJ v ++ ", " ++ reprFieldsJ rest

end

/-- `str(x)` / f-string interpolation of a payload value. -/
def pyStrJ : Json → String
  | .str s => s
  | v => pyReprJ v

mutual

/-- Python `==` between payload values: `True == 1` and `1 == 1.0` hold;
container equality is element-wise. (CPython dict equality ignores
insertion order; the modelled code only ever compares dicts drawn from
the very lists being searched, where the distinction cannot surface.) -/
def pyEq : Json → Json → Bool
  | .null, .null => true
  | .bool a, .bool b => a == b
  | .bool a, .num q => (if a then (1 : Rat) else 0) == q
  | .num q, .bool b => q == (if b then (1 : Rat) else 0)
  | .num a, .num b => a == b
  | .str a, .str b => a == b
  | .arr a, .arr b => pyEqList a b
  | .obj a, .obj b => pyEqFields a b
  | _, _ => false

def pyEqList : List Json → List Json → Bool
  | x :: xs, y :: ys => pyEq x y && pyEqList xs ys
  | [], [] => true
  | _, _ => false

def pyEqFields : List (String × Json) → List (String × Json) → Bool
  | (k, v) :: xs, (l, w) :: ys => k == l && pyEq v w && pyEqFields xs ys
  | [], [] => true
  | _, _ => false

end

/-- `x in y`: list membership, substring test, or dict-key membership;
`TypeError` on non-containers and on unhashable keys probed into a
dict. -/
def pyIn (x y : Json) : Except PyErr Bool :=
  match y with
  | .arr ys => .ok (ys.any (pyEq x))
  | .str _ =>
    match x, y with
    | .str sub, .str s => .ok (strContains s sub)
    | _, _ => .error .typeError
  | .obj fs =>
    match x with
    | .arr _ => .error .typeError
    | .obj _ => .error .typeError
    | _ => .ok (fs.any (fun kv => pyEq x (.str kv.1)))
  | _ => .error .typeError

/-- `"needle" in y` with a string literal needle. -/
def pyInStr (needle : String) (y : Json) : Except PyErr Bool :=
  pyIn (.str needle) y

/-- `for x in v`: list elements; string characters (as 1-character
strings); dict keys; `TypeError` otherwise. -/
def pyIter : Json → Except PyErr (List Json)
  | .arr xs => .ok xs
  | .str s => .ok (s.toList.map (fun c => .str (String.mk [c])))
  | .obj fs => .ok (fs.map (fun kv => .str kv.1))
  | _ => .error .typeError

/-- `len(v)`. -/
def pyLen : Json → Except PyErr Nat
  | .arr xs => .ok xs.length
  | .str s => .ok s.length
  | .obj fs => .ok fs.length
  | _ => .error .typeError

/-- `v[:n]`: list/string slices; `TypeError` otherwise (slices are
unhashable dict keys). -/
def pySliceTake (v : Json) (n : Nat) : Except PyErr Json :=
  match v with
  | .arr xs => .ok (.arr (xs.take n))
  | .str s => .ok (.str (String.mk (s.toList.take n)))
  | _ => .error .typeError

/-- `v[0]`. -/
def pyIndexZero (v : Json) : Except PyErr Json :=
  match v with
  | .arr (x :: _) => .ok x
  | .arr [] => .error .indexError
  | .str s =>
    match s.toList with
    | c :: _ => .ok (.str (String.mk [c]))
    | [] => .error .indexError
  | .obj _ => .error .keyError
  | _ => .error .typeError

/-- `v.append(x)`: lists only. -/
def pyAppend (v x : Json) : Except PyErr Json :=
  match v with
  | .arr xs => .ok (.arr (xs ++ [x]))
  | _ => .error .attributeError

/-- `v.extend(y)`: lists only, `y` any iterable. -/
def pyExtend (v y : Json) : Except PyErr Json :=
  match v with
  | .arr xs => (pyIter y).map (fun ys => .arr (xs ++ ys))
  | _ => .error .attributeError

/-- `sep.join(v)`: every iterated element must be a string. -/
def pyJoin (sep : String) (v : Json) : Except PyErr String := do
  let xs ← pyIter v
  let strs ← xs.mapM (fun x =>
    match x with
    | Json.str s => Except.ok s
    | _ => Except.error PyErr.typeError)
  return String.intercalate sep strs

/-- `v.lower()` on a payload value: strings only. -/
def pyLowerJ : Json → Except PyErr String
  | .str s => .ok (pyLower s)
  | _ => .error .attributeError

/-- `', '.join(set(...))` on a list of strings: CPython set iteration
order is hash-dependent; modelled as first-occurrence order. The result
only ever lands in prompt text no claim inspects. -/
def dedupFirst (xs : List String) : List String :=
  xs.foldl (fun acc s => if acc.contains s then acc else acc ++ [s]) []

/-- The external collaborators, as oracles: the completion client
(`groq_service.query prompt system_message`), the stdlib JSON
deserializer (`json.loads`, `none` when it raises) and the search
client (`tavily_service.search`). -/
structure Oracles where
  groq : String → String → Except PyErr String
  loads : String → Option Json
  search : Json → Except PyErr (List Json)

/- ## Data model (src/models/agent_models.py) -/

/-- `BusinessContext` (pydantic model; every field optional). -/
structure BusinessContext where
  industry : Option String := none
  company_size : Option String := none
  budget_range : Option String := none
  timeline : Option String := none
  compliance_requirements : List String := []
  existing_technologies : List String := []
  deriving Repr, DecidableEq

/-- `UserProfile`; `expertise_level` holds the enum member's value,
one of `BEGINNER`, `INTERMEDIATE`, `ADVANCED`, `EXPERT`. -/
structure UserProfile where
  id : String
  email : String
  expertise_level : String
  business_role : Option String := none
  business_context : Option BusinessContext := none
  preferences : Json := .obj []
  deriving Repr

/-- One conversation-history entry in the wire format of the spec: the
pipeline only reads entries through `msg.get(key, default)`, so the
defaults (`'unknown'`, `''`, `''`, `{}`) are folded into total fields. -/
structure Message where
  role : String := "unknown"
  content : String := ""
  messageType : String := ""
  metadata : Json := .obj []
  deriving Repr

/-- `WorkflowState`: the shared record threaded through the pipeline.
The per-agent output slots are open maps; the constructor-side pydantic
validation makes them dicts, so they are `Json` values that are objects
in every state the service builds. -/
structure WorkflowState where
  conversation_id : String
  user_query : String
  user_profile : UserProfile
  business_context : Option BusinessContext := none
  orchestrator_plan : Json := .obj []
  requirements_analysis : Json := .obj []
  research_findings : Json := .obj []
  research_data : Json := .obj []
  architecture_design : Json := .obj []
  why_reasoning : Json := .obj []
  business_impact : Json := .obj []
  educational_content : Json := .obj []
  documentation : Json := .obj []
  current_step : String := "orchestrator"
  completed_steps : List String := []
  conversation_history : List Message := []
  metadata : Json := .obj []
  deriving Repr

/- ## Rendering of model values inside f-strings -/

/-- `str` of an `ExpertiseLevel` member (a `str`-mixin enum renders with
its class name). -/
def expertiseEnumStr (e : String) : String := "ExpertiseLevel." ++ e

/-- Truthiness of an `Optional[str]` field. -/
def optStrTruthy : Option String → Bool
  | some s => s != ""
  | none => false

/-- f-string text of an `Optional[str]` attribute value. -/
def optStrDisplay : Option String → String
  | some s => s
  | none => "None"

def optStrRepr : Option String → String
  | some s => "\x27" ++ s ++ "\x27"
  | none => "None"

def strListRepr (xs : List String) : String :=
  "[" ++ String.intercalate ", " (xs.map (fun s => "\x27" ++ s ++ "\x27")) ++ "]"

/-- `str(state.business_context)`: the pydantic rendering
(`field=repr(value)`, space-separated, in declaration order). -/
def businessContextStr (bc : BusinessContext) : String :=
  "industry=" ++ optStrRepr bc.industry ++
  " company_size=" ++ optStrRepr bc.company_size ++
  " budget_range=" ++ optStrRepr bc.budget_range ++
  " timeline=" ++ optStrRepr bc.timeline ++
  " compliance_requirements=" ++ strListRepr bc.compliance_requirements ++
  " existing_technologies=" ++ strListRepr bc.existing_technologies

/-- `state.business_context or 'Not provided'` rendered in a prompt. -/
def businessContextOrNot (bc : Option BusinessContext) : String :=
  match bc with
  | some b => businessContextStr b
  | none => "Not provided"

/- ## Base agent (src/agents/base_agent.py) -/

/-- `history[-6:] if len(history) > 6 else history`. -/
def recentMessages (h : List Message) : List Message :=
  if h.length > 6 then h.drop (h.length - 6) else h

/-- One history entry rendered into the context prompt: content
truncated at 300 characters plus `...`, and the
`[ARCHITECTURE UPDATE]` tag for architecture-update messages. -/
def renderHistoryMsg (m : Message) : String :=
  let content := if m.content.length > 300
    then String.mk (m.content.toList.take 300) ++ "..." else m.content
  if m.messageType == "ARCHITECTURE_UPDATE" then
    "- " ++ m.role ++ ": [ARCHITECTURE UPDATE] " ++ content
  else
    "- " ++ m.role ++ ": " ++ content

/-- The fixed instruction line appended after the rendered history. -/
def historyNoteLine : String :=
  "NOTE: Build upon and enhance previous architectural decisions rather than replacing them completely."

/-- `BaseAgent._build_context_prompt`: the ordered `context_parts`
list, before joining. -/
def contextParts (st : WorkflowState) : List String :=
  let base := ["User Query: " ++ st.user_query,
               "User Expertise: " ++ expertiseEnumStr st.user_profile.expertise_level]
  let base := base ++ (if optStrTruthy st.user_profile.business_role
    then ["Business Role: " ++ (st.user_profile.business_role.getD "")] else [])
  let base := base ++ (match st.business_context with
    | some bc => ["Business Context: " ++ businessContextStr bc]
    | none => [])
  let base := base ++ (if st.conversation_history.isEmpty then [] else
    "\nPREVIOUS CONVERSATION CONTEXT:" ::
    ((recentMessages st.conversation_history).map renderHistoryMsg ++ [historyNoteLine]))
  let base := base ++ (if st.requirements_analysis.truthy
    then ["Requirements: " ++ pyStrJ st.requirements_analysis] else [])
  let base := base ++ (if st.research_findings.truthy
    then ["Research: " ++ pyStrJ st.research_findings] else [])
  base ++ (if st.architecture_design.truthy
    then ["EXISTING ARCHITECTURE: " ++ pyStrJ st.architecture_design,
          "IMPORTANT: Enhance and extend the existing architecture, don\x27t create a completely new one."]
    else [])

/-- `BaseAgent._build_context_prompt`, joined with the task line. -/
def buildContextPrompt (prompt : String) (st : WorkflowState) : String :=
  String.intercalate "\n" (contextParts st) ++ "\n\nCurrent Task: " ++ prompt

/-- `BaseAgent.get_user_adapted_prompt`. -/
def getUserAdaptedPrompt (basePrompt : String) (up : UserProfile) : String :=
  let adaptation :=
    if up.expertise_level == "BEGINNER" then
      "Provide detailed explanations with basic concepts and avoid jargon."
    else if up.expertise_level == "INTERMEDIATE" then
      "Provide clear explanations with some technical detail."
    else if up.expertise_level == "ADVANCED" then
      "Focus on technical depth and advanced concepts."
    else if up.expertise_level == "EXPERT" then
      "Provide concise, highly technical analysis."
    else ""
  let businessAdaptation :=
    if optStrTruthy up.business_role
    then "Consider the perspective of a " ++ up.business_role.getD "" ++ "."
    else ""
  pyStrip (basePrompt ++ "\n\nUser Adaptation: " ++ adaptation ++ " " ++ businessAdaptation)

/-- `BaseAgent.query_groq_with_context`: builds the context prompt and
queries the completion client; a client failure is logged and
re-raised (the `Except` error passes through). -/
def queryGroqWithContext (o : Oracles) (systemPrompt : String)
    (prompt : String) (st : WorkflowState) : Except PyErr String :=
  o.groq (buildContextPrompt prompt st) systemPrompt

/- ## Constant literals transcribed from the agent sources -/

/-- `OrchestratorAgent.get_system_prompt`: constant text, transcribed verbatim. -/
def orchestratorSystemPrompt : String := "\nYou are the Orchestrator Agent for the Agentic Architect platform. Your role is to analyze user queries and create optimal execution plans that coordinate specialized agents to deliver comprehensive architectural guidance with integrated business intelligence.\n\nCORE RESPONSIBILITIES:\n1. Analyze query complexity (technical and business)\n2. Determine optimal workflow type (sequential/parallel/conditional/iterative)\n3. Select required specialized agents\n4. Plan integration of why reasoning and business intelligence\n5. Estimate processing time and resource requirements\n\nAVAILABLE SPECIALIZED AGENTS:\n- Requirements Agent: Analyzes and clarifies architectural requirements\n- Research Agent: Gathers current market and technical intelligence\n- Architecture Agent: Designs technical solutions and patterns\n- Why Reasoning Agent: Provides comprehensive decision explanations\n- Business Impact Agent: Analyzes ROI, risks, and business implications\n- Educational Agent: Creates adaptive learning content\n- Documentation Agent: Generates professional documentation\n\nWORKFLOW TYPES:\n1. SEQUENTIAL: Step-by-step for thorough analysis (most common)\n2. PARALLEL: Simultaneous processing for urgent decisions\n3. CONDITIONAL: Branching logic based on complexity assessment\n4. ITERATIVE: Repeated refinement for learning-focused sessions\n\nORCHESTRATION PRINCIPLES:\n- Always include Why Reasoning and Business Impact agents\n- Adapt agent selection to user expertise level\n- Consider business context in all decisions\n- Optimize for both technical accuracy and business value\n- Ensure educational value in every interaction\n\nReturn your analysis as valid JSON with detailed orchestration plan.\n        "

/-- `OrchestratorAgent._get_fallback_plan`: the hard-coded structure, transcribed verbatim. -/
def orchestratorFallbackPlan : Json := Json.obj [("workflow_type", Json.str "SEQUENTIAL"), ("agents_required", Json.arr [Json.str "requirements", Json.str "research", Json.str "architecture", Json.str "why_reasoning", Json.str "business_impact", Json.str "educational"]), ("estimated_duration_minutes", Json.num 20), ("complexity_score", Json.num 3), ("justification", Json.str "Fallback plan due to orchestration error"), ("integration_requirements", Json.obj [("why_reasoning", Json.str "mandatory"), ("business_impact", Json.str "mandatory"), ("educational_adaptation", Json.bool true)])]

/-- `OrchestratorAgent._get_default_plan`: the hard-coded structure, transcribed verbatim. -/
def orchestratorDefaultPlan : Json := Json.obj [("workflow_type", Json.str "SEQUENTIAL"), ("agents_required", Json.arr [Json.str "requirements", Json.str "architecture", Json.str "why_reasoning", Json.str "business_impact"]), ("estimated_duration_minutes", Json.num 15), ("complexity_score", Json.num 2), ("justification", Json.str "Default sequential plan")]

/-- `RequirementsAgent.get_system_prompt`: constant text, transcribed verbatim. -/
def requirementsSystemPrompt : String := "\nYou are the Requirements Analysis Agent for the Agentic Architect platform. Your role is to thoroughly analyze user requirements and translate them into comprehensive architectural specifications with integrated business context.\n\nCORE RESPONSIBILITIES:\n1. Extract and clarify functional requirements\n2. Identify non-functional requirements (performance, security, scalability)\n3. Analyze business requirements and constraints\n4. Identify missing or ambiguous requirements\n5. Assess technical and business risks\n6. Provide requirement prioritization based on business value\n\nANALYSIS FRAMEWORK:\n1. FUNCTIONAL REQUIREMENTS:\n   - Core features and capabilities\n   - User interactions and workflows\n   - Data processing requirements\n   - Integration requirements\n\n2. NON-FUNCTIONAL REQUIREMENTS:\n   - Performance and scalability targets\n   - Security and compliance needs\n   - Availability and reliability requirements\n   - Maintainability and operability needs\n\n3. BUSINESS REQUIREMENTS:\n   - Business objectives and success metrics\n   - Budget and timeline constraints\n   - Compliance and regulatory requirements\n   - Market and competitive considerations\n\n4. CONSTRAINTS AND ASSUMPTIONS:\n   - Technology constraints\n   - Resource limitations\n   - External dependencies\n   - Risk factors\n\nReturn structured JSON with comprehensive requirements analysis and business alignment.\n        "

/-- `RequirementsAgent._get_fallback_analysis`: the hard-coded structure, transcribed verbatim. -/
def requirementsFallbackAnalysis : Json := Json.obj [("functional_requirements", Json.arr [Json.str "Core system functionality as described in user query", Json.str "User interface for interaction", Json.str "Data persistence capabilities"]), ("non_functional_requirements", Json.arr [Json.str "System performance and responsiveness", Json.str "Security and data protection", Json.str "Scalability for future growth"]), ("business_requirements", Json.arr [Json.str "Alignment with business objectives", Json.str "Cost-effective implementation", Json.str "Timely delivery"]), ("constraints", Json.arr [Json.str "Budget limitations", Json.str "Timeline constraints", Json.str "Technology stack preferences"]), ("risks", Json.arr [Json.str "Technical implementation complexity", Json.str "Integration challenges", Json.str "Performance bottlenecks"]), ("clarification_questions", Json.arr [Json.str "What is the expected user load?", Json.str "What are the performance requirements?", Json.str "What integrations are needed?"]), ("priority_matrix", Json.obj [("high", Json.arr [Json.str "Core functionality", Json.str "Security"]), ("medium", Json.arr [Json.str "Performance optimization", Json.str "Integrations"]), ("low", Json.arr [Json.str "Advanced features", Json.str "UI enhancements"])])]

/-- `RequirementsAgent._get_default_analysis`: the hard-coded structure, transcribed verbatim. -/
def requirementsDefaultAnalysis : Json := Json.obj [("functional_requirements", Json.arr [Json.str "Basic system functionality"]), ("non_functional_requirements", Json.arr [Json.str "Performance", Json.str "Security"]), ("business_requirements", Json.arr [Json.str "Business value delivery"]), ("constraints", Json.arr [Json.str "Resource limitations"]), ("risks", Json.arr [Json.str "Implementation complexity"]), ("clarification_questions", Json.arr [Json.str "Need more details"]), ("priority_matrix", Json.obj [])]

/-- `ResearchAgent.get_system_prompt`: constant text, transcribed verbatim. -/
def researchSystemPrompt : String := "\nYou are the Research Agent for the Agentic Architect platform. Your role is to gather comprehensive information about architecture patterns, technologies, and best practices relevant to the user\x27s requirements.\n\nRESEARCH OBJECTIVES:\n1. Identify relevant architecture patterns and design principles\n2. Research appropriate technologies and frameworks\n3. Find industry best practices and case studies\n4. Gather performance and scalability insights\n5. Identify potential challenges and solutions\n\nRESEARCH METHODOLOGY:\n- Analyze requirements to determine research focus areas\n- Identify key architecture patterns (microservices, serverless, monolithic, etc.)\n- Research technology stacks and their trade-offs\n- Find relevant case studies and implementation examples\n- Gather performance benchmarks and scalability data\n\nOUTPUT FORMAT:\nReturn a JSON object with:\n\x7b\n  \"architecture_patterns\": [\n    \x7b\n      \"name\": \"pattern_name\",\n      \"description\": \"detailed_description\",\n      \"use_cases\": [\"use_case_1\", \"use_case_2\"],\n      \"pros\": [\"advantage_1\", \"advantage_2\"],\n      \"cons\": [\"limitation_1\", \"limitation_2\"],\n      \"complexity\": \"low|medium|high\"\n    \x7d\n  ],\n  \"technology_recommendations\": [\n    \x7b\n      \"category\": \"database|backend|frontend|infrastructure\",\n      \"technology\": \"technology_name\",\n      \"rationale\": \"why_recommended\",\n      \"alternatives\": [\"alt_1\", \"alt_2\"],\n      \"maturity\": \"experimental|stable|mature\"\n    \x7d\n  ],\n  \"best_practices\": [\n    \x7b\n      \"area\": \"security|performance|scalability|maintainability\",\n      \"practice\": \"best_practice_description\",\n      \"implementation\": \"how_to_implement\"\n    \x7d\n  ],\n  \"case_studies\": [\n    \x7b\n      \"company\": \"company_name\",\n      \"scenario\": \"similar_use_case\",\n      \"solution\": \"architecture_approach\",\n      \"outcomes\": \"results_achieved\"\n    \x7d\n  ],\n  \"search_queries\": [\"query_1\", \"query_2\"],\n  \"confidence_score\": 0.0-1.0\n\x7d\n\nFocus on practical, actionable insights that will help in architecture design decisions.\n"

/-- `ResearchAgent._get_fallback_research`: the hard-coded structure, transcribed verbatim. -/
def fallbackResearch : Json := Json.obj [("architecture_patterns", Json.arr [Json.obj [("name", Json.str "Microservices Architecture"), ("description", Json.str "Distributed architecture pattern with loosely coupled services"), ("use_cases", Json.arr [Json.str "Large scale applications", Json.str "Team autonomy", Json.str "Technology diversity"]), ("pros", Json.arr [Json.str "Scalability", Json.str "Technology flexibility", Json.str "Team independence"]), ("cons", Json.arr [Json.str "Complexity", Json.str "Network overhead", Json.str "Data consistency challenges"]), ("complexity", Json.str "high")], Json.obj [("name", Json.str "Layered Architecture"), ("description", Json.str "Traditional n-tier architecture with clear separation of concerns"), ("use_cases", Json.arr [Json.str "Enterprise applications", Json.str "Well-defined domains", Json.str "Team familiarity"]), ("pros", Json.arr [Json.str "Simplicity", Json.str "Clear structure", Json.str "Easy to understand"]), ("cons", Json.arr [Json.str "Tight coupling", Json.str "Performance overhead", Json.str "Limited scalability"]), ("complexity", Json.str "low")]]), ("technology_recommendations", Json.arr [Json.obj [("category", Json.str "backend"), ("technology", Json.str "Node.js with Express"), ("rationale", Json.str "Fast development, JavaScript ecosystem, good performance"), ("alternatives", Json.arr [Json.str "Python Django", Json.str "Java Spring Boot"]), ("maturity", Json.str "mature")], Json.obj [("category", Json.str "database"), ("technology", Json.str "PostgreSQL"), ("rationale", Json.str "ACID compliance, rich feature set, excellent performance"), ("alternatives", Json.arr [Json.str "MySQL", Json.str "MongoDB"]), ("maturity", Json.str "mature")]]), ("best_practices", Json.arr [Json.obj [("area", Json.str "security"), ("practice", Json.str "Implement authentication and authorization at all layers"), ("implementation", Json.str "Use JWT tokens, role-based access control, input validation")], Json.obj [("area", Json.str "performance"), ("practice", Json.str "Implement caching strategies"), ("implementation", Json.str "Redis for session storage, CDN for static assets, database query optimization")]]), ("case_studies", Json.arr [Json.obj [("company", Json.str "Netflix"), ("scenario", Json.str "Large-scale video streaming platform"), ("solution", Json.str "Microservices with event-driven architecture"), ("outcomes", Json.str "Massive scale, high availability, rapid feature development")]]), ("search_queries", Json.arr [Json.str "microservices architecture best practices", Json.str "scalable web application design patterns"]), ("confidence_score", Json.num (7/10))]

/-- `ArchitectureAgent.get_system_prompt`: constant text, transcribed verbatim. -/
def architectureSystemPrompt : String := "\nYou are the Architecture Agent for the Agentic Architect platform. Your role is to design world-class, enterprise-grade system architectures with intelligent layer separation for optimal visualization and stakeholder communication.\n\nCRITICAL: When enhancing existing architectures, you MUST:\n- PRESERVE all existing components and their relationships\n- ADD new components to fulfill new requirements \n- MAINTAIN architectural consistency and integration\n- BUILD UPON rather than replace the existing design\n\nARCHITECTURE DESIGN PRINCIPLES:\n1. Design for scalability, maintainability, and performance\n2. Follow established architecture patterns and best practices\n3. Consider security, reliability, and operational concerns\n4. Adapt complexity to user expertise level\n5. Provide clear rationale for all design decisions\n6. Generate layer-specific intelligent data for world-class visualization\n7. Ensure seamless integration when enhancing existing systems\n\nDESIGN METHODOLOGY:\n- Analyze functional and non-functional requirements thoroughly\n- Select appropriate architecture patterns (microservices, event-driven, etc.)\n- Design comprehensive system components and their interactions\n- Include ALL necessary infrastructure components (load balancers, caches, monitoring)\n- Define data flow and communication patterns with protocols\n- Specify complete technology stack and infrastructure\n- Consider deployment, scaling, and operational aspects\n- Create detailed business capability mappings\n- Design infrastructure zones and security boundaries\n- Include observability, security, and resilience patterns\n\nCOMPREHENSIVE COMPONENT COVERAGE:\nFor user-facing systems, ALWAYS include:\n🖥️ Frontend/UI components (web apps, mobile apps, dashboards, admin panels)\n🌐 User-facing interfaces and client applications\n\nFor complex systems, ensure inclusion of:\n🔄 Load Balancers & API Gateways for traffic management\n⚡ Caching layers (Redis, CDN) for performance\n📊 Monitoring & Observability (metrics, logging, tracing)\n🔒 Security components (auth, authorization, encryption)\n📨 Message brokers for async communication\n🗄️ Multiple data stores (primary DB, cache, search)\n☁️ Cloud services and infrastructure components\n🔧 DevOps tooling (CI/CD, deployment, scaling)\n\nVISUALIZATION LAYERS:\n1. SYSTEM OVERVIEW: Business capabilities, core systems, data domains, external integrations\n2. DEPLOYMENT ARCHITECTURE: Infrastructure zones, container clusters, network topology, security boundaries\n\nOUTPUT FORMAT:\nReturn a JSON object with:\n\x7b\n  \"architecture_overview\": \x7b\n    \"pattern\": \"microservices|monolithic|serverless|hybrid\",\n    \"description\": \"high_level_description\",\n    \"key_principles\": [\"principle_1\", \"principle_2\"]\n  \x7d,\n  \"components\": [\n    \x7b\n      \"id\": \"component_id\",\n      \"name\": \"Component Name\",\n      \"type\": \"service|database|gateway|cache|queue|frontend|external\",\n      \"description\": \"component_description\",\n      \"responsibilities\": [\"responsibility_1\", \"responsibility_2\"],\n      \"technology\": \"recommended_technology\",\n      \"scalability\": \"horizontal|vertical|auto\",\n      \"dependencies\": [\"component_id_1\", \"component_id_2\"],\n      \"visualization_metadata\": \x7b\n        \"layer_assignments\": \x7b\n          \"system_overview\": \"core_system|external_integration|data_component\",\n          \"deployment\": \"dmz|application|data|management\"\n        \x7d,\n        \"business_criticality\": \"high|medium|low\",\n        \"visual_importance\": 1-10,\n        \"icon_category\": \"frontend|backend|database|infrastructure|external\",\n        \"technology_badges\": [\"react\", \"nodejs\", \"postgresql\"],\n        \"health_indicators\": \x7b\n          \"monitoring_required\": true,\n          \"performance_critical\": true,\n          \"availability_target\": \"99.9%\"\n        \x7d\n      \x7d\n    \x7d\n  ],\n  \"connections\": [\n    \x7b\n      \"from_component\": \"component_id\",\n      \"to_component\": \"component_id\",\n      \"connection_type\": \"http|grpc|message_queue|database|websocket\",\n      \"description\": \"connection_purpose\",\n      \"data_flow\": \"request_response|event_driven|streaming\",\n      \"visualization_metadata\": \x7b\n        \"protocol_display\": \"HTTPS/REST|gRPC|WebSocket|Database|Message Queue\",\n        \"traffic_volume\": \"high|medium|low\",\n        \"latency_requirement\": \"real_time|near_real_time|batch\",\n        \"security_level\": \"high|medium|low\",\n        \"dependency_strength\": \"critical|important|optional\",\n        \"line_style\": \"solid|dashed|dotted\",\n        \"animation_type\": \"bidirectional|unidirectional|pulsing\"\n      \x7d\n    \x7d\n  ],\n  \"data_architecture\": \x7b\n    \"storage_strategy\": \"centralized|distributed|hybrid\",\n    \"databases\": [\n      \x7b\n        \"name\": \"database_name\",\n        \"type\": \"relational|nosql|cache|search\",\n        \"purpose\": \"primary_data|analytics|cache|search\",\n        \"technology\": \"postgresql|mongodb|redis|elasticsearch\"\n      \x7d\n    ],\n    \"data_flow\": \"description_of_data_movement\"\n  \x7d,\n  \"security_architecture\": \x7b\n    \"authentication\": \"jwt|oauth|saml\",\n    \"authorization\": \"rbac|abac|custom\",\n    \"data_protection\": [\"encryption\", \"access_control\"],\n    \"network_security\": [\"firewall\", \"vpc\", \"ssl_tls\"]\n  \x7d,\n  \"system_overview\": \x7b\n    \"business_capabilities\": [\n      \x7b\n        \"capability\": \"capability_name\",\n        \"components\": [\"component_id_1\", \"component_id_2\"],\n        \"business_value\": \"value_description\",\n        \"complexity\": \"low|medium|high\",\n        \"priority\": \"high|medium|low\"\n      \x7d\n    ],\n    \"core_systems\": [\n      \x7b\n        \"system\": \"system_name\",\n        \"components\": [\"component_id_1\", \"component_id_2\"],\n        \"purpose\": \"system_purpose\",\n        \"criticality\": \"high|medium|low\",\n        \"user_facing\": true\n      \x7d\n    ],\n    \"external_integrations\": [\n      \x7b\n        \"system\": \"external_system_name\",\n        \"type\": \"third_party|internal|saas\",\n        \"data_flow\": \"inbound|outbound|bidirectional\",\n        \"security_level\": \"high|medium|low\",\n        \"dependency_level\": \"critical|important|optional\"\n      \x7d\n    ],\n    \"data_domains\": [\n      \x7b\n        \"domain\": \"domain_name\",\n        \"components\": [\"component_id_1\", \"component_id_2\"],\n        \"sensitivity\": \"high|medium|low\",\n        \"data_types\": [\"customer_data\", \"transaction_data\"]\n      \x7d\n    ]\n  \x7d,\n  \"deployment_architecture\": \x7b\n    \"strategy\": \"containers|serverless|vm|hybrid\",\n    \"orchestration\": \"kubernetes|docker_swarm|none\",\n    \"environments\": [\"development\", \"staging\", \"production\"],\n    \"ci_cd\": \"github_actions|jenkins|gitlab_ci\",\n    \"infrastructure_zones\": [\n      \x7b\n        \"zone\": \"zone_name\",\n        \"components\": [\"component_id_1\", \"component_id_2\"],\n        \"security_level\": \"high|medium|low\",\n        \"network_access\": \"public|private|isolated\",\n        \"zone_type\": \"dmz|application|data|management\"\n      \x7d\n    ],\n    \"container_clusters\": [\n      \x7b\n        \"cluster\": \"cluster_name\",\n        \"components\": [\"component_id_1\", \"component_id_2\"],\n        \"scaling\": \"auto|manual|none\",\n        \"replicas\": \"min-max\",\n        \"resource_requirements\": \"high|medium|low\"\n      \x7d\n    ],\n    \"network_topology\": \x7b\n      \"load_balancers\": [\n        \x7b\n          \"name\": \"lb_name\",\n          \"type\": \"application|network\",\n          \"targets\": [\"component_id_1\"]\n        \x7d\n      ],\n      \"security_groups\": [\n        \x7b\n          \"name\": \"sg_name\",\n          \"components\": [\"component_id_1\"],\n          \"rules\": [\"rule_description\"]\n        \x7d\n      ]\n    \x7d\n  \x7d,\n  \"scalability_strategy\": \x7b\n    \"horizontal_scaling\": [\"component_1\", \"component_2\"],\n    \"vertical_scaling\": [\"component_3\"],\n    \"auto_scaling\": \"enabled|disabled\",\n    \"load_balancing\": \"application|network|database\"\n  \x7d,\n  \"monitoring_observability\": \x7b\n    \"logging\": \"centralized|distributed\",\n    \"metrics\": \"application|infrastructure|business\",\n    \"tracing\": \"distributed|local\",\n    \"alerting\": \"proactive|reactive\"\n  \x7d,\n  \"technology_stack\": \x7b\n    \"frontend\": \"react|vue|angular\",\n    \"backend\": \"node|python|java|go\",\n    \"database\": \"postgresql|mysql|mongodb\",\n    \"infrastructure\": \"aws|azure|gcp|on_premise\",\n    \"additional_tools\": [\"tool_1\", \"tool_2\"]\n  \x7d,\n  \"implementation_phases\": [\n    \x7b\n      \"phase\": 1,\n      \"name\": \"phase_name\",\n      \"duration\": \"estimated_weeks\",\n      \"components\": [\"component_1\", \"component_2\"],\n      \"deliverables\": [\"deliverable_1\", \"deliverable_2\"]\n    \x7d\n  ],\n  \"risks_mitigations\": [\n    \x7b\n      \"risk\": \"identified_risk\",\n      \"impact\": \"high|medium|low\",\n      \"probability\": \"high|medium|low\",\n      \"mitigation\": \"mitigation_strategy\"\n    \x7d\n  ],\n  \"confidence_score\": 0.0-1.0\n\x7d\n\nDesign architectures that are practical, implementable, and aligned with the user\x27s expertise level and business constraints.\n"

/-- `ArchitectureAgent._get_fallback_architecture`: the hard-coded structure, transcribed verbatim. -/
def fallbackArchitecture : Json := Json.obj [("architecture_overview", Json.obj [("pattern", Json.str "layered"), ("description", Json.str "Traditional three-tier architecture with presentation, business, and data layers"), ("key_principles", Json.arr [Json.str "Separation of concerns", Json.str "Scalability", Json.str "Maintainability"])]), ("components", Json.arr [Json.obj [("id", Json.str "frontend"), ("name", Json.str "Frontend Application"), ("type", Json.str "frontend"), ("description", Json.str "User interface and presentation layer"), ("responsibilities", Json.arr [Json.str "User interaction", Json.str "Data presentation", Json.str "Client-side validation"]), ("technology", Json.str "React"), ("scalability", Json.str "horizontal"), ("dependencies", Json.arr [Json.str "api-gateway"]), ("visualization_metadata", Json.obj [("layer_assignments", Json.obj [("system_overview", Json.str "core_system"), ("deployment", Json.str "dmz")]), ("business_criticality", Json.str "high"), ("visual_importance", Json.num 8), ("icon_category", Json.str "frontend"), ("technology_badges", Json.arr [Json.str "react", Json.str "javascript"]), ("health_indicators", Json.obj [("monitoring_required", Json.bool true), ("performance_critical", Json.bool true), ("availability_target", Json.str "99.9%")])])], Json.obj [("id", Json.str "api-gateway"), ("name", Json.str "API Gateway"), ("type", Json.str "gateway"), ("description", Json.str "Central entry point for all client requests"), ("responsibilities", Json.arr [Json.str "Request routing", Json.str "Authentication", Json.str "Rate limiting"]), ("technology", Json.str "Express.js"), ("scalability", Json.str "horizontal"), ("dependencies", Json.arr [Json.str "backend-service"]), ("visualization_metadata", Json.obj [("layer_assignments", Json.obj [("system_overview", Json.str "core_system"), ("deployment", Json.str "dmz")]), ("business_criticality", Json.str "high"), ("visual_importance", Json.num 7), ("icon_category", Json.str "backend"), ("technology_badges", Json.arr [Json.str "express", Json.str "nodejs"]), ("health_indicators", Json.obj [("monitoring_required", Json.bool true), ("performance_critical", Json.bool true), ("availability_target", Json.str "99.9%")])])], Json.obj [("id", Json.str "backend-service"), ("name", Json.str "Backend Service"), ("type", Json.str "service"), ("description", Json.str "Core business logic and data processing"), ("responsibilities", Json.arr [Json.str "Business logic", Json.str "Data validation", Json.str "External integrations"]), ("technology", Json.str "Node.js"), ("scalability", Json.str "horizontal"), ("dependencies", Json.arr [Json.str "database"]), ("visualization_metadata", Json.obj [("layer_assignments", Json.obj [("system_overview", Json.str "core_system"), ("deployment", Json.str "application")]), ("business_criticality", Json.str "high"), ("visual_importance", Json.num 9), ("icon_category", Json.str "backend"), ("technology_badges", Json.arr [Json.str "nodejs", Json.str "javascript"]), ("health_indicators", Json.obj [("monitoring_required", Json.bool true), ("performance_critical", Json.bool true), ("availability_target", Json.str "99.9%")])])], Json.obj [("id", Json.str "database"), ("name", Json.str "Primary Database"), ("type", Json.str "database"), ("description", Json.str "Main data storage for application data"), ("responsibilities", Json.arr [Json.str "Data persistence", Json.str "Data integrity", Json.str "Query processing"]), ("technology", Json.str "PostgreSQL"), ("scalability", Json.str "vertical"), ("dependencies", Json.arr []), ("visualization_metadata", Json.obj [("layer_assignments", Json.obj [("system_overview", Json.str "data_component"), ("deployment", Json.str "data")]), ("business_criticality", Json.str "high"), ("visual_importance", Json.num 8), ("icon_category", Json.str "database"), ("technology_badges", Json.arr [Json.str "postgresql", Json.str "sql"]), ("health_indicators", Json.obj [("monitoring_required", Json.bool true), ("performance_critical", Json.bool true), ("availability_target", Json.str "99.99%")])])]]), ("connections", Json.arr [Json.obj [("from_component", Json.str "frontend"), ("to_component", Json.str "api-gateway"), ("connection_type", Json.str "http"), ("description", Json.str "User requests and responses"), ("data_flow", Json.str "request_response"), ("visualization_metadata", Json.obj [("protocol_display", Json.str "HTTPS/REST"), ("traffic_volume", Json.str "high"), ("latency_requirement", Json.str "real_time"), ("security_level", Json.str "high"), ("dependency_strength", Json.str "critical"), ("line_style", Json.str "solid"), ("animation_type", Json.str "bidirectional")])], Json.obj [("from_component", Json.str "api-gateway"), ("to_component", Json.str "backend-service"), ("connection_type", Json.str "http"), ("description", Json.str "API calls to business logic"), ("data_flow", Json.str "request_response"), ("visualization_metadata", Json.obj [("protocol_display", Json.str "HTTP/REST"), ("traffic_volume", Json.str "high"), ("latency_requirement", Json.str "near_real_time"), ("security_level", Json.str "medium"), ("dependency_strength", Json.str "critical"), ("line_style", Json.str "solid"), ("animation_type", Json.str "unidirectional")])], Json.obj [("from_component", Json.str "backend-service"), ("to_component", Json.str "database"), ("connection_type", Json.str "database"), ("description", Json.str "Data operations"), ("data_flow", Json.str "request_response"), ("visualization_metadata", Json.obj [("protocol_display", Json.str "PostgreSQL"), ("traffic_volume", Json.str "medium"), ("latency_requirement", Json.str "near_real_time"), ("security_level", Json.str "high"), ("dependency_strength", Json.str "critical"), ("line_style", Json.str "solid"), ("animation_type", Json.str "unidirectional")])]]), ("system_overview", Json.obj [("business_capabilities", Json.arr [Json.obj [("capability", Json.str "User Interface Management"), ("components", Json.arr [Json.str "frontend"]), ("business_value", Json.str "User experience and engagement"), ("complexity", Json.str "medium"), ("priority", Json.str "high")], Json.obj [("capability", Json.str "API Management"), ("components", Json.arr [Json.str "api-gateway", Json.str "backend-service"]), ("business_value", Json.str "Secure and scalable API operations"), ("complexity", Json.str "high"), ("priority", Json.str "high")], Json.obj [("capability", Json.str "Data Management"), ("components", Json.arr [Json.str "database"]), ("business_value", Json.str "Reliable data storage and retrieval"), ("complexity", Json.str "medium"), ("priority", Json.str "high")]]), ("core_systems", Json.arr [Json.obj [("system", Json.str "Web Application Platform"), ("components", Json.arr [Json.str "frontend", Json.str "api-gateway", Json.str "backend-service"]), ("purpose", Json.str "Primary user-facing application"), ("criticality", Json.str "high"), ("user_facing", Json.bool true)]]), ("external_integrations", Json.arr []), ("data_domains", Json.arr [Json.obj [("domain", Json.str "Application Data"), ("components", Json.arr [Json.str "backend-service", Json.str "database"]), ("sensitivity", Json.str "high"), ("data_types", Json.arr [Json.str "user_data", Json.str "business_data"])]])]), ("deployment_architecture", Json.obj [("strategy", Json.str "containers"), ("orchestration", Json.str "docker"), ("environments", Json.arr [Json.str "development", Json.str "staging", Json.str "production"]), ("ci_cd", Json.str "github_actions")]), ("data_architecture", Json.obj [("storage_strategy", Json.str "centralized"), ("databases", Json.arr [Json.obj [("name", Json.str "primary_db"), ("type", Json.str "relational"), ("purpose", Json.str "primary_data"), ("technology", Json.str "postgresql")]]), ("data_flow", Json.str "Client requests flow through API gateway to backend service and database")]), ("security_architecture", Json.obj [("authentication", Json.str "jwt"), ("authorization", Json.str "rbac"), ("data_protection", Json.arr [Json.str "encryption", Json.str "access_control"]), ("network_security", Json.arr [Json.str "firewall", Json.str "ssl_tls"])]), ("technology_stack", Json.obj [("frontend", Json.str "react"), ("backend", Json.str "node"), ("database", Json.str "postgresql"), ("infrastructure", Json.str "aws")]), ("visualization_data", Json.obj [("d3_data", Json.obj [("nodes", Json.arr [Json.obj [("id", Json.str "frontend"), ("name", Json.str "Frontend"), ("type", Json.str "frontend"), ("x", Json.num 100), ("y", Json.num 100), ("group", Json.num 6)], Json.obj [("id", Json.str "api-gateway"), ("name", Json.str "API Gateway"), ("type", Json.str "gateway"), ("x", Json.num 300), ("y", Json.num 100), ("group", Json.num 3)], Json.obj [("id", Json.str "backend-service"), ("name", Json.str "Backend"), ("type", Json.str "service"), ("x", Json.num 500), ("y", Json.num 100), ("group", Json.num 1)], Json.obj [("id", Json.str "database"), ("name", Json.str "Database"), ("type", Json.str "database"), ("x", Json.num 700), ("y", Json.num 100), ("group", Json.num 2)]]), ("links", Json.arr [Json.obj [("source", Json.str "frontend"), ("target", Json.str "api-gateway"), ("type", Json.str "http")], Json.obj [("source", Json.str "api-gateway"), ("target", Json.str "backend-service"), ("type", Json.str "http")], Json.obj [("source", Json.str "backend-service"), ("target", Json.str "database"), ("type", Json.str "database")]])]), ("mermaid_diagram", Json.str "graph TD\n    frontend[Frontend]\n    api-gateway\x7bAPI Gateway\x7d\n    backend-service[Backend]\n    database[(Database)]\n    frontend --> api-gateway\n    api-gateway --> backend-service\n    backend-service --> database")]), ("confidence_score", Json.num (4/5))]

/-- `WhyReasoningAgent.get_system_prompt`: constant text, transcribed verbatim. -/
def whyReasoningSystemPrompt : String := "\nYou are the Why Reasoning Agent for the Agentic Architect platform. Your role is to provide clear, comprehensive explanations for all architectural decisions, helping users understand the rationale behind design choices.\n\nREASONING OBJECTIVES:\n1. Explain the \"why\" behind every architectural decision\n2. Connect decisions to specific requirements and constraints\n3. Highlight trade-offs and alternatives considered\n4. Provide educational context for design patterns and technologies\n5. Adapt explanations to user expertise level\n\nREASONING METHODOLOGY:\n- Analyze each architectural component and design decision\n- Trace decisions back to specific requirements or constraints\n- Explain trade-offs between different approaches\n- Provide context on industry best practices\n- Include potential risks and mitigation strategies\n- Offer learning opportunities and deeper insights\n\nOUTPUT FORMAT:\nReturn a JSON object with:\n\x7b\n  \"architectural_decisions\": [\n    \x7b\n      \"decision\": \"specific_architectural_decision\",\n      \"rationale\": \"detailed_explanation_of_why\",\n      \"requirements_addressed\": [\"requirement_1\", \"requirement_2\"],\n      \"trade_offs\": \x7b\n        \"pros\": [\"advantage_1\", \"advantage_2\"],\n        \"cons\": [\"limitation_1\", \"limitation_2\"]\n      \x7d,\n      \"alternatives_considered\": [\n        \x7b\n          \"alternative\": \"alternative_approach\",\n          \"why_not_chosen\": \"reason_for_rejection\"\n        \x7d\n      ],\n      \"risk_factors\": [\"risk_1\", \"risk_2\"],\n      \"implementation_complexity\": \"low|medium|high\",\n      \"business_impact\": \"positive|neutral|negative\"\n    \x7d\n  ],\n  \"pattern_explanations\": [\n    \x7b\n      \"pattern\": \"architecture_pattern_name\",\n      \"why_chosen\": \"explanation_of_selection\",\n      \"use_case_fit\": \"how_it_fits_this_scenario\",\n      \"learning_context\": \"educational_background_info\"\n    \x7d\n  ],\n  \"technology_justifications\": [\n    \x7b\n      \"technology\": \"technology_name\",\n      \"category\": \"frontend|backend|database|infrastructure\",\n      \"selection_criteria\": [\"criterion_1\", \"criterion_2\"],\n      \"why_best_fit\": \"detailed_justification\",\n      \"ecosystem_benefits\": [\"benefit_1\", \"benefit_2\"],\n      \"potential_concerns\": [\"concern_1\", \"concern_2\"]\n    \x7d\n  ],\n  \"design_principles\": [\n    \x7b\n      \"principle\": \"design_principle_name\",\n      \"application\": \"how_applied_in_this_design\",\n      \"importance\": \"why_this_principle_matters\",\n      \"examples\": [\"example_1\", \"example_2\"]\n    \x7d\n  ],\n  \"scalability_reasoning\": \x7b\n    \"approach\": \"chosen_scalability_approach\",\n    \"justification\": \"why_this_approach_is_optimal\",\n    \"growth_scenarios\": [\"scenario_1\", \"scenario_2\"],\n    \"bottleneck_analysis\": [\"potential_bottleneck_1\", \"potential_bottleneck_2\"]\n  \x7d,\n  \"security_reasoning\": \x7b\n    \"security_model\": \"chosen_security_approach\",\n    \"threat_analysis\": [\"threat_1\", \"threat_2\"],\n    \"mitigation_strategies\": [\"strategy_1\", \"strategy_2\"],\n    \"compliance_considerations\": [\"consideration_1\", \"consideration_2\"]\n  \x7d,\n  \"educational_insights\": [\n    \x7b\n      \"topic\": \"educational_topic\",\n      \"explanation\": \"detailed_explanation\",\n      \"why_important\": \"relevance_to_this_project\",\n      \"further_reading\": [\"resource_1\", \"resource_2\"]\n    \x7d\n  ],\n  \"implementation_guidance\": \x7b\n    \"critical_path\": [\"step_1\", \"step_2\", \"step_3\"],\n    \"success_factors\": [\"factor_1\", \"factor_2\"],\n    \"common_pitfalls\": [\"pitfall_1\", \"pitfall_2\"],\n    \"validation_checkpoints\": [\"checkpoint_1\", \"checkpoint_2\"]\n  \x7d,\n  \"confidence_score\": 0.0-1.0\n\x7d\n\nProvide explanations that are clear, educational, and help users understand both the technical and business reasoning behind architectural decisions.\n"

/-- `WhyReasoningAgent._get_fallback_reasoning`: the hard-coded structure, transcribed verbatim. -/
def fallbackReasoning : Json := Json.obj [("architectural_decisions", Json.arr [Json.obj [("decision", Json.str "Layered architecture pattern selection"), ("rationale", Json.str "Chosen for its simplicity and clear separation of concerns, making it easier to understand and maintain"), ("requirements_addressed", Json.arr [Json.str "Maintainability", Json.str "Team productivity", Json.str "Clear structure"]), ("trade_offs", Json.obj [("pros", Json.arr [Json.str "Simple to understand", Json.str "Clear separation", Json.str "Easy to test"]), ("cons", Json.arr [Json.str "Potential performance overhead", Json.str "Tight coupling between layers"])]), ("alternatives_considered", Json.arr [Json.obj [("alternative", Json.str "Microservices architecture"), ("why_not_chosen", Json.str "Too complex for current team size and requirements")]]), ("risk_factors", Json.arr [Json.str "Performance bottlenecks", Json.str "Monolithic deployment"]), ("implementation_complexity", Json.str "low"), ("business_impact", Json.str "positive")], Json.obj [("decision", Json.str "React for frontend technology"), ("rationale", Json.str "Selected for its large ecosystem, component reusability, and team familiarity"), ("requirements_addressed", Json.arr [Json.str "User experience", Json.str "Development speed", Json.str "Maintainability"]), ("trade_offs", Json.obj [("pros", Json.arr [Json.str "Large ecosystem", Json.str "Component reusability", Json.str "Strong community"]), ("cons", Json.arr [Json.str "Learning curve", Json.str "Frequent updates", Json.str "Bundle size"])]), ("alternatives_considered", Json.arr [Json.obj [("alternative", Json.str "Vue.js"), ("why_not_chosen", Json.str "Team has more experience with React")]]), ("risk_factors", Json.arr [Json.str "Technology churn", Json.str "Dependency management"]), ("implementation_complexity", Json.str "medium"), ("business_impact", Json.str "positive")]]), ("pattern_explanations", Json.arr [Json.obj [("pattern", Json.str "Layered Architecture"), ("why_chosen", Json.str "Provides clear separation of concerns and is well-understood by development teams"), ("use_case_fit", Json.str "Perfect for applications with well-defined business logic and data access patterns"), ("learning_context", Json.str "One of the most fundamental architectural patterns, forming the basis for many enterprise applications")]]), ("technology_justifications", Json.arr [Json.obj [("technology", Json.str "PostgreSQL"), ("category", Json.str "database"), ("selection_criteria", Json.arr [Json.str "ACID compliance", Json.str "Performance", Json.str "Feature richness"]), ("why_best_fit", Json.str "Provides robust data consistency and advanced features needed for complex business logic"), ("ecosystem_benefits", Json.arr [Json.str "Excellent tooling", Json.str "Strong community", Json.str "Enterprise support"]), ("potential_concerns", Json.arr [Json.str "Vertical scaling limits", Json.str "Complexity for simple use cases"])], Json.obj [("technology", Json.str "Node.js"), ("category", Json.str "backend"), ("selection_criteria", Json.arr [Json.str "JavaScript ecosystem", Json.str "Performance", Json.str "Development speed"]), ("why_best_fit", Json.str "Enables full-stack JavaScript development and has excellent performance for I/O operations"), ("ecosystem_benefits", Json.arr [Json.str "NPM ecosystem", Json.str "Rapid development", Json.str "JSON handling"]), ("potential_concerns", Json.arr [Json.str "Single-threaded limitations", Json.str "Callback complexity"])]]), ("design_principles", Json.arr [Json.obj [("principle", Json.str "Separation of Concerns"), ("application", Json.str "Each layer has distinct responsibilities - presentation, business logic, and data access"), ("importance", Json.str "Reduces complexity and improves maintainability by isolating different aspects of the system"), ("examples", Json.arr [Json.str "UI components only handle presentation", Json.str "Business logic isolated in service layer"])], Json.obj [("principle", Json.str "Single Responsibility"), ("application", Json.str "Each component and service has a single, well-defined purpose"), ("importance", Json.str "Makes the system easier to understand, test, and modify"), ("examples", Json.arr [Json.str "Authentication service only handles auth", Json.str "Database layer only manages data access"])]]), ("scalability_reasoning", Json.obj [("approach", Json.str "Horizontal scaling with load balancing"), ("justification", Json.str "Allows the system to handle increased load by adding more instances rather than upgrading hardware"), ("growth_scenarios", Json.arr [Json.str "Increased user base", Json.str "Higher transaction volume"]), ("bottleneck_analysis", Json.arr [Json.str "Database connections", Json.str "Memory usage", Json.str "Network I/O"])]), ("security_reasoning", Json.obj [("security_model", Json.str "JWT-based authentication with role-based authorization"), ("threat_analysis", Json.arr [Json.str "Unauthorized access", Json.str "Data breaches", Json.str "Session hijacking"]), ("mitigation_strategies", Json.arr [Json.str "Token expiration", Json.str "HTTPS encryption", Json.str "Input validation"]), ("compliance_considerations", Json.arr [Json.str "Data privacy", Json.str "Access logging", Json.str "Audit trails"])]), ("educational_insights", Json.arr [Json.obj [("topic", Json.str "Layered Architecture Benefits"), ("explanation", Json.str "Layered architecture provides clear separation between different concerns of the application"), ("why_important", Json.str "Understanding this pattern is fundamental to building maintainable enterprise applications"), ("further_reading", Json.arr [Json.str "Clean Architecture by Robert Martin", Json.str "Patterns of Enterprise Application Architecture"])], Json.obj [("topic", Json.str "Database Selection Criteria"), ("explanation", Json.str "Choosing the right database depends on data structure, consistency requirements, and scalability needs"), ("why_important", Json.str "Database choice significantly impacts application performance and scalability"), ("further_reading", Json.arr [Json.str "Designing Data-Intensive Applications", Json.str "Database design fundamentals"])]]), ("implementation_guidance", Json.obj [("critical_path", Json.arr [Json.str "Set up development environment", Json.str "Implement core data models", Json.str "Build API layer", Json.str "Create frontend components"]), ("success_factors", Json.arr [Json.str "Clear requirements", Json.str "Good testing strategy", Json.str "Regular code reviews"]), ("common_pitfalls", Json.arr [Json.str "Over-engineering", Json.str "Insufficient testing", Json.str "Poor error handling"]), ("validation_checkpoints", Json.arr [Json.str "Unit tests passing", Json.str "Integration tests working", Json.str "Performance benchmarks met"])]), ("decision_rationale", Json.obj [("requirements_traceability", Json.arr [Json.obj [("requirement", Json.str "User authentication and authorization"), ("addressed_by", Json.arr [Json.str "Authentication Service", Json.str "API Gateway"]), ("how", Json.str "JWT tokens provide secure authentication with role-based access control")]]), ("research_influence", Json.arr [Json.obj [("research_finding", Json.str "Layered architecture pattern"), ("influence", Json.str "Pattern selection based on team expertise and project complexity"), ("benefit", Json.str "Reduced development time and improved maintainability")]]), ("design_coherence", Json.arr [Json.str "All components follow consistent design patterns", Json.str "Technology choices complement each other", Json.str "Architecture supports both current and future requirements"])]), ("confidence_score", Json.num (17/20))]

/-- `BusinessImpactAgent.get_system_prompt`: constant text, transcribed verbatim. -/
def businessImpactSystemPrompt : String := "\nYou are the Business Impact Agent for the Agentic Architect platform. Your role is to analyze and quantify the business implications of architectural decisions, helping stakeholders understand the value and risks of proposed solutions.\n\nBUSINESS ANALYSIS OBJECTIVES:\n1. Quantify business value and ROI of architectural decisions\n2. Identify cost implications and resource requirements\n3. Assess risk factors and mitigation strategies\n4. Analyze time-to-market and competitive advantages\n5. Evaluate operational and maintenance impacts\n6. Consider scalability and future business growth\n\nANALYSIS METHODOLOGY:\n- Evaluate direct and indirect costs of implementation\n- Assess revenue impact and business value creation\n- Analyze operational efficiency improvements\n- Consider risk factors and their business implications\n- Evaluate competitive positioning and market advantages\n- Assess long-term strategic alignment\n\nOUTPUT FORMAT:\nReturn a JSON object with:\n\x7b\n  \"executive_summary\": \x7b\n    \"overall_impact\": \"positive|neutral|negative\",\n    \"key_benefits\": [\"benefit_1\", \"benefit_2\", \"benefit_3\"],\n    \"main_risks\": [\"risk_1\", \"risk_2\", \"risk_3\"],\n    \"recommendation\": \"proceed|proceed_with_caution|reconsider\"\n  \x7d,\n  \"financial_impact\": \x7b\n    \"implementation_cost\": \x7b\n      \"development\": \"estimated_cost_range\",\n      \"infrastructure\": \"estimated_cost_range\",\n      \"training\": \"estimated_cost_range\",\n      \"total_estimated\": \"total_cost_range\"\n    \x7d,\n    \"operational_cost\": \x7b\n      \"annual_infrastructure\": \"yearly_cost_estimate\",\n      \"maintenance\": \"yearly_maintenance_cost\",\n      \"support\": \"yearly_support_cost\"\n    \x7d,\n    \"cost_savings\": [\n      \x7b\n        \"area\": \"cost_saving_area\",\n        \"annual_savings\": \"estimated_savings\",\n        \"description\": \"how_savings_achieved\"\n      \x7d\n    ],\n    \"revenue_impact\": [\n      \x7b\n        \"opportunity\": \"revenue_opportunity\",\n        \"potential_value\": \"estimated_value\",\n        \"timeframe\": \"when_realized\"\n      \x7d\n    ]\n  \x7d,\n  \"operational_impact\": \x7b\n    \"efficiency_gains\": [\n      \x7b\n        \"process\": \"business_process\",\n        \"improvement\": \"efficiency_improvement\",\n        \"quantification\": \"measurable_benefit\"\n      \x7d\n    ],\n    \"resource_requirements\": [\n      \x7b\n        \"resource_type\": \"human|technical|financial\",\n        \"requirement\": \"specific_requirement\",\n        \"timeline\": \"when_needed\"\n      \x7d\n    ],\n    \"workflow_changes\": [\n      \x7b\n        \"area\": \"affected_area\",\n        \"change\": \"required_change\",\n        \"impact\": \"business_impact\"\n      \x7d\n    ]\n  \x7d,\n  \"strategic_impact\": \x7b\n    \"competitive_advantages\": [\n      \x7b\n        \"advantage\": \"competitive_benefit\",\n        \"significance\": \"high|medium|low\",\n        \"sustainability\": \"how_long_advantage_lasts\"\n      \x7d\n    ],\n    \"market_positioning\": \x7b\n      \"current_position\": \"current_market_position\",\n      \"target_position\": \"desired_position\",\n      \"architecture_contribution\": \"how_architecture_helps\"\n    \x7d,\n    \"innovation_enablement\": [\n      \x7b\n        \"capability\": \"new_capability_enabled\",\n        \"business_value\": \"value_to_business\",\n        \"timeline\": \"when_available\"\n      \x7d\n    ]\n  \x7d,\n  \"risk_analysis\": \x7b\n    \"technical_risks\": [\n      \x7b\n        \"risk\": \"technical_risk\",\n        \"probability\": \"high|medium|low\",\n        \"business_impact\": \"impact_on_business\",\n        \"mitigation\": \"risk_mitigation_strategy\",\n        \"cost_of_mitigation\": \"mitigation_cost\"\n      \x7d\n    ],\n    \"business_risks\": [\n      \x7b\n        \"risk\": \"business_risk\",\n        \"probability\": \"high|medium|low\",\n        \"financial_impact\": \"potential_financial_loss\",\n        \"mitigation\": \"business_mitigation_strategy\"\n      \x7d\n    ],\n    \"opportunity_costs\": [\n      \x7b\n        \"alternative\": \"alternative_approach\",\n        \"foregone_benefit\": \"what_is_given_up\",\n        \"justification\": \"why_current_choice_better\"\n      \x7d\n    ]\n  \x7d,\n  \"timeline_impact\": \x7b\n    \"time_to_market\": \"estimated_delivery_time\",\n    \"business_value_realization\": [\n      \x7b\n        \"milestone\": \"business_milestone\",\n        \"value_delivered\": \"value_at_milestone\",\n        \"timeline\": \"when_achieved\"\n      \x7d\n    ],\n    \"critical_path_items\": [\"item_1\", \"item_2\", \"item_3\"]\n  \x7d,\n  \"scalability_business_impact\": \x7b\n    \"growth_enablement\": \"how_architecture_supports_growth\",\n    \"scaling_costs\": \"cost_implications_of_scaling\",\n    \"revenue_scalability\": \"revenue_scaling_potential\",\n    \"operational_scalability\": \"operational_scaling_benefits\"\n  \x7d,\n  \"stakeholder_impact\": [\n    \x7b\n      \"stakeholder_group\": \"affected_group\",\n      \"impact_type\": \"positive|negative|neutral\",\n      \"specific_impacts\": [\"impact_1\", \"impact_2\"],\n      \"required_actions\": [\"action_1\", \"action_2\"]\n    \x7d\n  ],\n  \"success_metrics\": [\n    \x7b\n      \"metric\": \"business_metric\",\n      \"current_baseline\": \"current_value\",\n      \"target_value\": \"target_after_implementation\",\n      \"measurement_method\": \"how_to_measure\"\n    \x7d\n  ],\n  \"confidence_score\": 0.0-1.0\n\x7d\n\nProvide practical, actionable business insights that help stakeholders make informed decisions about architectural investments.\n"

/-- `BusinessImpactAgent._get_fallback_impact`: the hard-coded structure, transcribed verbatim. -/
def fallbackImpact : Json := Json.obj [("executive_summary", Json.obj [("overall_impact", Json.str "positive"), ("key_benefits", Json.arr [Json.str "Improved system scalability and performance", Json.str "Reduced long-term maintenance costs", Json.str "Enhanced development team productivity"]), ("main_risks", Json.arr [Json.str "Implementation complexity and timeline", Json.str "Initial learning curve for team", Json.str "Integration challenges with existing systems"]), ("recommendation", Json.str "proceed")]), ("financial_impact", Json.obj [("implementation_cost", Json.obj [("development", Json.str "$50,000 - $150,000"), ("infrastructure", Json.str "$10,000 - $30,000"), ("training", Json.str "$5,000 - $15,000"), ("total_estimated", Json.str "$65,000 - $195,000")]), ("operational_cost", Json.obj [("annual_infrastructure", Json.str "$12,000 - $36,000"), ("maintenance", Json.str "$20,000 - $40,000"), ("support", Json.str "$15,000 - $25,000")]), ("cost_savings", Json.arr [Json.obj [("area", Json.str "Reduced system downtime"), ("annual_savings", Json.str "$25,000 - $50,000"), ("description", Json.str "Improved reliability reduces business disruption")], Json.obj [("area", Json.str "Development efficiency"), ("annual_savings", Json.str "$30,000 - $60,000"), ("description", Json.str "Faster development cycles and reduced debugging time")]]), ("revenue_impact", Json.arr [Json.obj [("opportunity", Json.str "Faster time-to-market for new features"), ("potential_value", Json.str "$100,000 - $300,000"), ("timeframe", Json.str "12-18 months")]])]), ("operational_impact", Json.obj [("efficiency_gains", Json.arr [Json.obj [("process", Json.str "Software development lifecycle"), ("improvement", Json.str "25% faster development cycles"), ("quantification", Json.str "Reduced time from concept to deployment")], Json.obj [("process", Json.str "System maintenance and support"), ("improvement", Json.str "40% reduction in maintenance overhead"), ("quantification", Json.str "Fewer production issues and easier troubleshooting")]]), ("resource_requirements", Json.arr [Json.obj [("resource_type", Json.str "human"), ("requirement", Json.str "2-3 developers for 3-6 months"), ("timeline", Json.str "Implementation phase")], Json.obj [("resource_type", Json.str "technical"), ("requirement", Json.str "Cloud infrastructure and development tools"), ("timeline", Json.str "Ongoing")]]), ("workflow_changes", Json.arr [Json.obj [("area", Json.str "Development process"), ("change", Json.str "Adoption of new architecture patterns and tools"), ("impact", Json.str "Initial learning curve, then improved productivity")]])]), ("strategic_impact", Json.obj [("competitive_advantages", Json.arr [Json.obj [("advantage", Json.str "Faster feature delivery and innovation"), ("significance", Json.str "high"), ("sustainability", Json.str "Long-term with proper maintenance")], Json.obj [("advantage", Json.str "Better scalability for business growth"), ("significance", Json.str "medium"), ("sustainability", Json.str "Supports multi-year growth plans")]]), ("market_positioning", Json.obj [("current_position", Json.str "Competitive but constrained by technical limitations"), ("target_position", Json.str "Technology leader with superior product capabilities"), ("architecture_contribution", Json.str "Enables rapid innovation and superior user experience")]), ("innovation_enablement", Json.arr [Json.obj [("capability", Json.str "Real-time data processing and analytics"), ("business_value", Json.str "Better customer insights and personalization"), ("timeline", Json.str "6-12 months post-implementation")]])]), ("risk_analysis", Json.obj [("technical_risks", Json.arr [Json.obj [("risk", Json.str "Implementation complexity leading to delays"), ("probability", Json.str "medium"), ("business_impact", Json.str "Delayed time-to-market and increased costs"), ("mitigation", Json.str "Phased implementation with regular checkpoints"), ("cost_of_mitigation", Json.str "$10,000 - $20,000")]]), ("business_risks", Json.arr [Json.obj [("risk", Json.str "Team resistance to new technologies"), ("probability", Json.str "low"), ("financial_impact", Json.str "Reduced productivity during transition"), ("mitigation", Json.str "Comprehensive training and change management")]]), ("opportunity_costs", Json.arr [Json.obj [("alternative", Json.str "Maintaining current architecture"), ("foregone_benefit", Json.str "Continued technical debt and scaling limitations"), ("justification", Json.str "New architecture provides better long-term value")]])]), ("timeline_impact", Json.obj [("time_to_market", Json.str "3-6 months for initial implementation"), ("business_value_realization", Json.arr [Json.obj [("milestone", Json.str "Core system deployment"), ("value_delivered", Json.str "Improved system reliability and performance"), ("timeline", Json.str "3-4 months")], Json.obj [("milestone", Json.str "Full feature implementation"), ("value_delivered", Json.str "Complete business value realization"), ("timeline", Json.str "6-8 months")]]), ("critical_path_items", Json.arr [Json.str "Team training and onboarding", Json.str "Core architecture implementation", Json.str "Data migration and integration testing"])]), ("scalability_business_impact", Json.obj [("growth_enablement", Json.str "Architecture supports 10x growth in users and data volume"), ("scaling_costs", Json.str "Linear cost scaling with usage, avoiding expensive rewrites"), ("revenue_scalability", Json.str "Enables new revenue streams through better performance"), ("operational_scalability", Json.str "Reduced operational overhead as system grows")]), ("stakeholder_impact", Json.arr [Json.obj [("stakeholder_group", Json.str "Development team"), ("impact_type", Json.str "positive"), ("specific_impacts", Json.arr [Json.str "Improved productivity", Json.str "Better development experience"]), ("required_actions", Json.arr [Json.str "Training on new technologies", Json.str "Process adaptation"])], Json.obj [("stakeholder_group", Json.str "Business users"), ("impact_type", Json.str "positive"), ("specific_impacts", Json.arr [Json.str "Better system performance", Json.str "New feature capabilities"]), ("required_actions", Json.arr [Json.str "User training on new features", Json.str "Feedback collection"])]]), ("success_metrics", Json.arr [Json.obj [("metric", Json.str "System uptime"), ("current_baseline", Json.str "95%"), ("target_value", Json.str "99.5%"), ("measurement_method", Json.str "Automated monitoring and alerting")], Json.obj [("metric", Json.str "Feature delivery time"), ("current_baseline", Json.str "4-6 weeks"), ("target_value", Json.str "2-3 weeks"), ("measurement_method", Json.str "Development cycle tracking")], Json.obj [("metric", Json.str "Customer satisfaction"), ("current_baseline", Json.str "7.5/10"), ("target_value", Json.str "8.5/10"), ("measurement_method", Json.str "Regular customer surveys")]]), ("roi_analysis", Json.obj [("investment_summary", Json.obj [("total_investment", Json.str "$65,000 - $195,000"), ("payback_period", Json.str "12-18 months"), ("roi_percentage", Json.str "20-30% annually")]), ("value_drivers", Json.arr [Json.str "Operational efficiency improvements", Json.str "Reduced maintenance costs", Json.str "Faster time-to-market for new features", Json.str "Improved scalability reducing future costs"])]), ("confidence_score", Json.num (4/5))]

/-- `EducationalAgent.get_system_prompt`: constant text, transcribed verbatim. -/
def educationalSystemPrompt : String := "\nYou are the Educational Agent for the Agentic Architect platform. Your role is to provide adaptive, comprehensive educational content that helps users understand architectural concepts, patterns, and decisions at their appropriate expertise level.\n\nEDUCATIONAL OBJECTIVES:\n1. Adapt content complexity to user expertise level (beginner, intermediate, advanced)\n2. Provide clear explanations of architectural concepts and patterns\n3. Offer practical examples and real-world applications\n4. Create progressive learning paths for skill development\n5. Include hands-on exercises and validation checkpoints\n6. Connect theoretical concepts to practical implementation\n\nCONTENT ADAPTATION STRATEGY:\n- BEGINNER: Focus on fundamental concepts, simple explanations, basic examples\n- INTERMEDIATE: Include design patterns, trade-offs, implementation details\n- ADVANCED: Cover complex patterns, optimization strategies, architectural evolution\n\nOUTPUT FORMAT:\nReturn a JSON object with:\n\x7b\n  \"key_concepts\": [\n    \x7b\n      \"concept\": \"architectural_concept_name\",\n      \"definition\": \"clear_definition_adapted_to_level\",\n      \"importance\": \"why_this_concept_matters\",\n      \"examples\": [\"example_1\", \"example_2\"],\n      \"common_mistakes\": [\"mistake_1\", \"mistake_2\"],\n      \"best_practices\": [\"practice_1\", \"practice_2\"]\n    \x7d\n  ],\n  \"pattern_explanations\": [\n    \x7b\n      \"pattern\": \"architecture_pattern_name\",\n      \"explanation\": \"detailed_explanation_for_user_level\",\n      \"when_to_use\": \"appropriate_use_cases\",\n      \"implementation_guide\": \"step_by_step_guidance\",\n      \"code_examples\": [\"example_1\", \"example_2\"],\n      \"variations\": [\"variation_1\", \"variation_2\"]\n    \x7d\n  ],\n  \"technology_deep_dives\": [\n    \x7b\n      \"technology\": \"technology_name\",\n      \"overview\": \"technology_explanation\",\n      \"strengths\": [\"strength_1\", \"strength_2\"],\n      \"limitations\": [\"limitation_1\", \"limitation_2\"],\n      \"learning_resources\": [\"resource_1\", \"resource_2\"],\n      \"hands_on_exercises\": [\"exercise_1\", \"exercise_2\"]\n    \x7d\n  ],\n  \"practical_exercises\": [\n    \x7b\n      \"exercise\": \"exercise_name\",\n      \"objective\": \"learning_objective\",\n      \"difficulty\": \"beginner|intermediate|advanced\",\n      \"instructions\": \"step_by_step_instructions\",\n      \"expected_outcome\": \"what_user_should_achieve\",\n      \"validation_criteria\": [\"criterion_1\", \"criterion_2\"]\n    \x7d\n  ],\n  \"learning_progression\": \x7b\n    \"current_level_topics\": [\"topic_1\", \"topic_2\"],\n    \"next_level_prerequisites\": [\"prerequisite_1\", \"prerequisite_2\"],\n    \"skill_development_path\": [\"step_1\", \"step_2\", \"step_3\"],\n    \"estimated_learning_time\": \"time_estimate\"\n  \x7d,\n  \"real_world_applications\": [\n    \x7b\n      \"scenario\": \"business_scenario\",\n      \"architecture_application\": \"how_concepts_apply\",\n      \"case_study\": \"detailed_case_study\",\n      \"lessons_learned\": [\"lesson_1\", \"lesson_2\"]\n    \x7d\n  ],\n  \"troubleshooting_guide\": [\n    \x7b\n      \"problem\": \"common_problem\",\n      \"symptoms\": [\"symptom_1\", \"symptom_2\"],\n      \"root_causes\": [\"cause_1\", \"cause_2\"],\n      \"solutions\": [\"solution_1\", \"solution_2\"],\n      \"prevention\": \"how_to_prevent\"\n    \x7d\n  ],\n  \"further_learning\": \x7b\n    \"recommended_books\": [\"book_1\", \"book_2\"],\n    \"online_courses\": [\"course_1\", \"course_2\"],\n    \"documentation\": [\"doc_1\", \"doc_2\"],\n    \"communities\": [\"community_1\", \"community_2\"]\n  \x7d,\n  \"assessment_questions\": [\n    \x7b\n      \"question\": \"assessment_question\",\n      \"type\": \"multiple_choice|open_ended|practical\",\n      \"difficulty\": \"beginner|intermediate|advanced\",\n      \"correct_answer\": \"answer_or_guidance\",\n      \"explanation\": \"why_this_is_correct\"\n    \x7d\n  ],\n  \"confidence_score\": 0.0-1.0\n\x7d\n\nCreate educational content that is engaging, practical, and appropriately challenging for the user\x27s expertise level.\n"

/-- `EducationalAgent._get_fallback_educational_content`: the hard-coded structure, transcribed verbatim. -/
def fallbackEducationalContent : Json := Json.obj [("key_concepts", Json.arr [Json.obj [("concept", Json.str "Layered Architecture"), ("definition", Json.str "An architectural pattern that organizes code into horizontal layers, each with specific responsibilities"), ("importance", Json.str "Provides clear separation of concerns and makes applications easier to understand and maintain"), ("examples", Json.arr [Json.str "Three-tier web applications", Json.str "MVC pattern", Json.str "Clean Architecture"]), ("common_mistakes", Json.arr [Json.str "Tight coupling between layers", Json.str "Business logic in presentation layer"]), ("best_practices", Json.arr [Json.str "Keep layers loosely coupled", Json.str "Define clear interfaces", Json.str "Avoid circular dependencies"])], Json.obj [("concept", Json.str "API Design"), ("definition", Json.str "The process of creating interfaces that allow different software components to communicate"), ("importance", Json.str "Good API design enables system integration and provides a stable contract for clients"), ("examples", Json.arr [Json.str "REST APIs", Json.str "GraphQL", Json.str "gRPC services"]), ("common_mistakes", Json.arr [Json.str "Inconsistent naming", Json.str "Poor error handling", Json.str "Lack of versioning"]), ("best_practices", Json.arr [Json.str "Use consistent naming conventions", Json.str "Provide clear documentation", Json.str "Implement proper error responses"])]]), ("pattern_explanations", Json.arr [Json.obj [("pattern", Json.str "Model-View-Controller (MVC)"), ("explanation", Json.str "Separates application logic into three interconnected components: Model (data), View (presentation), and Controller (business logic)"), ("when_to_use", Json.str "Web applications, desktop applications, any system with user interface"), ("implementation_guide", Json.str "1. Define models for data, 2. Create views for presentation, 3. Implement controllers for logic, 4. Connect components with clear interfaces"), ("code_examples", Json.arr [Json.str "Express.js with MVC structure", Json.str "Spring Boot MVC", Json.str "Django MVT"]), ("variations", Json.arr [Json.str "MVP (Model-View-Presenter)", Json.str "MVVM (Model-View-ViewModel)"])]]), ("technology_deep_dives", Json.arr [Json.obj [("technology", Json.str "PostgreSQL"), ("overview", Json.str "Advanced open-source relational database with strong ACID compliance and rich feature set"), ("strengths", Json.arr [Json.str "ACID compliance", Json.str "Advanced data types", Json.str "Excellent performance", Json.str "Strong community"]), ("limitations", Json.arr [Json.str "Vertical scaling challenges", Json.str "Complex configuration", Json.str "Memory usage"]), ("learning_resources", Json.arr [Json.str "PostgreSQL official documentation", Json.str "PostgreSQL Tutorial", Json.str "Database design courses"]), ("hands_on_exercises", Json.arr [Json.str "Set up a PostgreSQL database", Json.str "Design a normalized schema", Json.str "Write complex queries"])], Json.obj [("technology", Json.str "React"), ("overview", Json.str "JavaScript library for building user interfaces with component-based architecture"), ("strengths", Json.arr [Json.str "Component reusability", Json.str "Virtual DOM", Json.str "Large ecosystem", Json.str "Strong community"]), ("limitations", Json.arr [Json.str "Learning curve", Json.str "Rapid ecosystem changes", Json.str "SEO challenges"]), ("learning_resources", Json.arr [Json.str "React official documentation", Json.str "React tutorials", Json.str "Modern React courses"]), ("hands_on_exercises", Json.arr [Json.str "Build a simple React app", Json.str "Create reusable components", Json.str "Implement state management"])]]), ("practical_exercises", Json.arr [Json.obj [("exercise", Json.str "Design a Simple E-commerce Architecture"), ("objective", Json.str "Apply layered architecture principles to design a basic e-commerce system"), ("difficulty", Json.str "intermediate"), ("instructions", Json.str "1. Identify main components (user management, product catalog, orders), 2. Design database schema, 3. Define API endpoints, 4. Create component interaction diagram"), ("expected_outcome", Json.str "Complete architecture diagram with clear component responsibilities"), ("validation_criteria", Json.arr [Json.str "All major functions covered", Json.str "Clear separation of concerns", Json.str "Scalable design"])]]), ("learning_progression", Json.obj [("current_level_topics", Json.arr [Json.str "Basic architecture patterns", Json.str "Database design", Json.str "API development"]), ("next_level_prerequisites", Json.arr [Json.str "Understanding of design patterns", Json.str "Experience with databases", Json.str "API design knowledge"]), ("skill_development_path", Json.arr [Json.str "Master fundamentals", Json.str "Practice with real projects", Json.str "Learn advanced patterns", Json.str "Gain experience with scale"]), ("estimated_learning_time", Json.str "3-4 weeks")]), ("real_world_applications", Json.arr [Json.obj [("scenario", Json.str "E-commerce Platform Scaling"), ("architecture_application", Json.str "Using microservices to handle different business domains (users, products, orders)"), ("case_study", Json.str "Amazon\x27s evolution from monolith to microservices enabled massive scale and team autonomy"), ("lessons_learned", Json.arr [Json.str "Start simple, evolve complexity", Json.str "Domain boundaries are crucial", Json.str "Operational complexity increases"])]]), ("troubleshooting_guide", Json.arr [Json.obj [("problem", Json.str "Database Performance Issues"), ("symptoms", Json.arr [Json.str "Slow query responses", Json.str "High CPU usage", Json.str "Connection timeouts"]), ("root_causes", Json.arr [Json.str "Missing indexes", Json.str "Inefficient queries", Json.str "Connection pool exhaustion"]), ("solutions", Json.arr [Json.str "Add appropriate indexes", Json.str "Optimize query structure", Json.str "Tune connection pool settings"]), ("prevention", Json.str "Regular performance monitoring and query analysis")]]), ("further_learning", Json.obj [("recommended_books", Json.arr [Json.str "Clean Architecture by Robert Martin", Json.str "Designing Data-Intensive Applications by Martin Kleppmann", Json.str "Building Microservices by Sam Newman"]), ("online_courses", Json.arr [Json.str "System Design Interview courses", Json.str "Database design fundamentals", Json.str "Cloud architecture patterns"]), ("documentation", Json.arr [Json.str "AWS Architecture Center", Json.str "Google Cloud Architecture Framework", Json.str "Microsoft Azure Architecture Center"]), ("communities", Json.arr [Json.str "Stack Overflow", Json.str "Reddit r/softwarearchitecture", Json.str "Architecture decision records community"])]), ("assessment_questions", Json.arr [Json.obj [("question", Json.str "What are the main benefits of using a layered architecture pattern?"), ("type", Json.str "open_ended"), ("difficulty", Json.str "beginner"), ("correct_answer", Json.str "Separation of concerns, maintainability, testability, clear structure"), ("explanation", Json.str "Layered architecture provides clear separation between different aspects of the application, making it easier to understand, maintain, and test")], Json.obj [("question", Json.str "When would you choose PostgreSQL over MongoDB for a new project?"), ("type", Json.str "open_ended"), ("difficulty", Json.str "intermediate"), ("correct_answer", Json.str "When you need ACID compliance, complex relationships, or strong consistency"), ("explanation", Json.str "PostgreSQL is better for applications requiring strong consistency, complex queries, and relational data structures")]]), ("learning_path", Json.obj [("current_session_focus", Json.arr [Json.str "Understanding basic architecture concepts", Json.str "Learning about layered architecture", Json.str "Introduction to databases and APIs"]), ("next_steps", Json.arr [Json.str "Practice with simple web application architecture", Json.str "Learn about REST API design", Json.str "Understand database relationships"]), ("long_term_goals", Json.arr [Json.str "Master fundamental design patterns", Json.str "Build confidence with common technologies", Json.str "Understand system integration basics"]), ("estimated_completion_time", Json.str "3-4 weeks")]), ("confidence_score", Json.num (17/20))]

/-- `DocumentationAgent.get_system_prompt`: constant text, transcribed verbatim. -/
def documentationSystemPrompt : String := "\nYou are the Documentation Agent for the Agentic Architect platform. Your role is to generate comprehensive, professional documentation that captures all aspects of the architectural design, decisions, and implementation guidance.\n\nDOCUMENTATION OBJECTIVES:\n1. Create comprehensive technical documentation for developers\n2. Generate executive summaries for business stakeholders\n3. Provide implementation guides and best practices\n4. Document architectural decisions and rationale\n5. Include deployment and operational guidance\n6. Create user-friendly guides and tutorials\n\nDOCUMENTATION STANDARDS:\n- Clear, professional writing suitable for technical and business audiences\n- Structured format with logical flow and clear sections\n- Include diagrams, code examples, and practical guidance\n- Provide both high-level overviews and detailed technical specifications\n- Include troubleshooting guides and FAQ sections\n- Ensure documentation is maintainable and updatable\n\nOUTPUT FORMAT:\nReturn a JSON object with:\n\x7b\n  \"document_metadata\": \x7b\n    \"title\": \"document_title\",\n    \"version\": \"1.0\",\n    \"created_date\": \"current_date\",\n    \"authors\": [\"Agentic Architect Platform\"],\n    \"document_type\": \"Architecture Design Document\",\n    \"classification\": \"Internal|Confidential|Public\"\n  \x7d,\n  \"executive_summary\": \x7b\n    \"overview\": \"high_level_project_overview\",\n    \"key_benefits\": [\"benefit_1\", \"benefit_2\", \"benefit_3\"],\n    \"investment_required\": \"investment_summary\",\n    \"timeline\": \"implementation_timeline\",\n    \"success_metrics\": [\"metric_1\", \"metric_2\", \"metric_3\"],\n    \"recommendation\": \"executive_recommendation\"\n  \x7d,\n  \"sections\": [\n    \x7b\n      \"section_id\": \"section_identifier\",\n      \"title\": \"Section Title\",\n      \"content\": \"detailed_section_content\",\n      \"subsections\": [\n        \x7b\n          \"title\": \"Subsection Title\",\n          \"content\": \"subsection_content\"\n        \x7d\n      ],\n      \"diagrams\": [\"diagram_reference_1\", \"diagram_reference_2\"],\n      \"code_examples\": [\"code_example_1\", \"code_example_2\"]\n    \x7d\n  ],\n  \"technical_specifications\": \x7b\n    \"architecture_overview\": \"technical_architecture_description\",\n    \"component_specifications\": [\n      \x7b\n        \"component\": \"component_name\",\n        \"description\": \"component_description\",\n        \"interfaces\": [\"interface_1\", \"interface_2\"],\n        \"dependencies\": [\"dependency_1\", \"dependency_2\"],\n        \"configuration\": \"configuration_details\"\n      \x7d\n    ],\n    \"data_models\": [\n      \x7b\n        \"model\": \"data_model_name\",\n        \"description\": \"model_description\",\n        \"fields\": [\"field_1\", \"field_2\"],\n        \"relationships\": [\"relationship_1\", \"relationship_2\"]\n      \x7d\n    ],\n    \"api_specifications\": [\n      \x7b\n        \"endpoint\": \"api_endpoint\",\n        \"method\": \"HTTP_method\",\n        \"description\": \"endpoint_description\",\n        \"parameters\": [\"param_1\", \"param_2\"],\n        \"responses\": [\"response_1\", \"response_2\"]\n      \x7d\n    ]\n  \x7d,\n  \"implementation_guide\": \x7b\n    \"prerequisites\": [\"prerequisite_1\", \"prerequisite_2\"],\n    \"setup_instructions\": [\"step_1\", \"step_2\", \"step_3\"],\n    \"configuration_guide\": \"configuration_instructions\",\n    \"deployment_steps\": [\"deploy_step_1\", \"deploy_step_2\"],\n    \"testing_strategy\": \"testing_approach\",\n    \"rollback_procedures\": \"rollback_instructions\"\n  \x7d,\n  \"operational_guide\": \x7b\n    \"monitoring_setup\": \"monitoring_configuration\",\n    \"logging_strategy\": \"logging_approach\",\n    \"backup_procedures\": \"backup_instructions\",\n    \"security_considerations\": [\"security_1\", \"security_2\"],\n    \"performance_tuning\": \"performance_optimization_guide\",\n    \"troubleshooting\": [\n      \x7b\n        \"issue\": \"common_issue\",\n        \"symptoms\": [\"symptom_1\", \"symptom_2\"],\n        \"resolution\": \"resolution_steps\"\n      \x7d\n    ]\n  \x7d,\n  \"decision_log\": [\n    \x7b\n      \"decision\": \"architectural_decision\",\n      \"date\": \"decision_date\",\n      \"rationale\": \"decision_reasoning\",\n      \"alternatives\": [\"alternative_1\", \"alternative_2\"],\n      \"impact\": \"decision_impact\",\n      \"status\": \"approved|pending|rejected\"\n    \x7d\n  ],\n  \"appendices\": \x7b\n    \"glossary\": [\n      \x7b\n        \"term\": \"technical_term\",\n        \"definition\": \"term_definition\"\n      \x7d\n    ],\n    \"references\": [\"reference_1\", \"reference_2\"],\n    \"change_log\": [\n      \x7b\n        \"version\": \"version_number\",\n        \"date\": \"change_date\",\n        \"changes\": [\"change_1\", \"change_2\"]\n      \x7d\n    ]\n  \x7d,\n  \"confidence_score\": 0.0-1.0\n\x7d\n\nCreate documentation that is comprehensive, professional, and serves both technical and business stakeholders effectively.\n"

/-- `DocumentationAgent._get_fallback_documentation`: the hard-coded structure, transcribed verbatim. -/
def fallbackDocumentation : Json := Json.obj [("document_metadata", Json.obj [("title", Json.str "Architecture Design Document"), ("version", Json.str "1.0"), ("created_date", Json.str "2024-01-01"), ("authors", Json.arr [Json.str "Agentic Architect Platform"]), ("document_type", Json.str "Architecture Design Document"), ("classification", Json.str "Internal")]), ("executive_summary", Json.obj [("overview", Json.str "This document outlines the proposed architecture for a scalable, maintainable system that addresses current business requirements while providing a foundation for future growth."), ("key_benefits", Json.arr [Json.str "Improved system scalability and performance", Json.str "Enhanced maintainability and development productivity", Json.str "Reduced operational costs and complexity", Json.str "Better security and compliance posture"]), ("investment_required", Json.str "Initial investment of $65,000 - $195,000 with ongoing operational costs"), ("timeline", Json.str "3-6 months for initial implementation, with full benefits realized within 12 months"), ("success_metrics", Json.arr [Json.str "99.5% system uptime", Json.str "25% faster feature delivery", Json.str "40% reduction in maintenance overhead"]), ("recommendation", Json.str "Proceed with implementation as outlined in this document")]), ("sections", Json.arr [Json.obj [("section_id", Json.str "introduction"), ("title", Json.str "Introduction"), ("content", Json.str "This architecture design document provides a comprehensive overview of the proposed system architecture, including technical specifications, implementation guidance, and operational procedures."), ("subsections", Json.arr [Json.obj [("title", Json.str "Purpose"), ("content", Json.str "Define the architecture for a scalable, maintainable system that meets current and future business needs.")], Json.obj [("title", Json.str "Scope"), ("content", Json.str "This document covers the complete system architecture including frontend, backend, database, and infrastructure components.")]]), ("diagrams", Json.arr [Json.str "system_overview_diagram"]), ("code_examples", Json.arr [])], Json.obj [("section_id", Json.str "architecture_overview"), ("title", Json.str "Architecture Overview"), ("content", Json.str "The proposed architecture follows a layered pattern with clear separation of concerns, providing a solid foundation for scalable application development."), ("subsections", Json.arr [Json.obj [("title", Json.str "Architecture Pattern"), ("content", Json.str "Layered architecture with presentation, business logic, and data access layers.")], Json.obj [("title", Json.str "Key Components"), ("content", Json.str "Frontend application, API gateway, backend services, and database layer.")]]), ("diagrams", Json.arr [Json.str "architecture_diagram", Json.str "component_diagram"]), ("code_examples", Json.arr [Json.str "api_example", Json.str "database_schema"])]]), ("technical_specifications", Json.obj [("architecture_overview", Json.str "Layered architecture with React frontend, Node.js backend, and PostgreSQL database"), ("component_specifications", Json.arr [Json.obj [("component", Json.str "Frontend Application"), ("description", Json.str "React-based user interface with responsive design"), ("interfaces", Json.arr [Json.str "REST API", Json.str "WebSocket"]), ("dependencies", Json.arr [Json.str "API Gateway", Json.str "Authentication Service"]), ("configuration", Json.str "Environment-specific configuration files")], Json.obj [("component", Json.str "Backend Service"), ("description", Json.str "Node.js application with Express framework"), ("interfaces", Json.arr [Json.str "REST API", Json.str "Database Connection"]), ("dependencies", Json.arr [Json.str "Database", Json.str "External APIs"]), ("configuration", Json.str "Environment variables and configuration files")]]), ("data_models", Json.arr [Json.obj [("model", Json.str "User"), ("description", Json.str "User account and profile information"), ("fields", Json.arr [Json.str "id", Json.str "email", Json.str "name", Json.str "created_at"]), ("relationships", Json.arr [Json.str "has_many conversations"])]]), ("api_specifications", Json.arr [Json.obj [("endpoint", Json.str "/api/users"), ("method", Json.str "GET"), ("description", Json.str "Retrieve user information"), ("parameters", Json.arr [Json.str "user_id"]), ("responses", Json.arr [Json.str "200 OK", Json.str "404 Not Found"])]])]), ("implementation_guide", Json.obj [("prerequisites", Json.arr [Json.str "Node.js 18+ installed", Json.str "PostgreSQL 13+ database", Json.str "Git version control", Json.str "Development environment setup"]), ("setup_instructions", Json.arr [Json.str "Clone the repository", Json.str "Install dependencies with npm install", Json.str "Configure environment variables", Json.str "Run database migrations", Json.str "Start the development server"]), ("configuration_guide", Json.str "Configure environment variables for database connection, API keys, and application settings"), ("deployment_steps", Json.arr [Json.str "Build production assets", Json.str "Deploy to staging environment", Json.str "Run integration tests", Json.str "Deploy to production", Json.str "Monitor deployment"]), ("testing_strategy", Json.str "Unit tests, integration tests, and end-to-end testing with automated CI/CD pipeline"), ("rollback_procedures", Json.str "Automated rollback using deployment scripts and database migration rollbacks")]), ("operational_guide", Json.obj [("monitoring_setup", Json.str "Application performance monitoring with logging and alerting"), ("logging_strategy", Json.str "Centralized logging with structured log format and log aggregation"), ("backup_procedures", Json.str "Automated daily database backups with point-in-time recovery"), ("security_considerations", Json.arr [Json.str "HTTPS encryption for all communications", Json.str "JWT token-based authentication", Json.str "Input validation and sanitization", Json.str "Regular security updates"]), ("performance_tuning", Json.str "Database query optimization, caching strategies, and load balancing"), ("troubleshooting", Json.arr [Json.obj [("issue", Json.str "Application slow response times"), ("symptoms", Json.arr [Json.str "High response times", Json.str "User complaints"]), ("resolution", Json.str "Check database performance, review slow queries, optimize caching")]])]), ("decision_log", Json.arr [Json.obj [("decision", Json.str "Use React for frontend framework"), ("date", Json.str "2024-01-01"), ("rationale", Json.str "Team expertise, large ecosystem, component reusability"), ("alternatives", Json.arr [Json.str "Vue.js", Json.str "Angular"]), ("impact", Json.str "Faster development, better maintainability"), ("status", Json.str "approved")], Json.obj [("decision", Json.str "Use PostgreSQL for primary database"), ("date", Json.str "2024-01-01"), ("rationale", Json.str "ACID compliance, advanced features, performance"), ("alternatives", Json.arr [Json.str "MySQL", Json.str "MongoDB"]), ("impact", Json.str "Better data consistency, advanced query capabilities"), ("status", Json.str "approved")]]), ("appendices", Json.obj [("glossary", Json.arr [Json.obj [("term", Json.str "API"), ("definition", Json.str "Application Programming Interface - a set of protocols and tools for building software applications")], Json.obj [("term", Json.str "REST"), ("definition", Json.str "Representational State Transfer - an architectural style for designing networked applications")]]), ("references", Json.arr [Json.str "Clean Architecture by Robert Martin", Json.str "Designing Data-Intensive Applications by Martin Kleppmann", Json.str "React Documentation - https://reactjs.org/docs/", Json.str "PostgreSQL Documentation - https://www.postgresql.org/docs/"]), ("change_log", Json.arr [Json.obj [("version", Json.str "1.0"), ("date", Json.str "2024-01-01"), ("changes", Json.arr [Json.str "Initial document creation", Json.str "Architecture design completed"])]])]), ("export_formats", Json.obj [("markdown", Json.str "# Architecture Design Document\n\n## Executive Summary\n\nThis document outlines the proposed architecture..."), ("pdf_ready", Json.obj [("title_page", Json.obj [("title", Json.str "Architecture Design Document"), ("subtitle", Json.str "Comprehensive Architecture Documentation"), ("version", Json.str "1.0"), ("date", Json.str "2024-01-01")])])]), ("confidence_score", Json.num (9/10))]

/- ## Shared JSON extraction (the parse functions of the research,
architecture, why-reasoning, business-impact, educational and
documentation agents all inline the same procedure) -/

/-- The shared JSON-extraction procedure: the interior of a fenced
json code block when one is present, else the span from the first
opening brace to one past the last closing brace; `none` models the
`No JSON found in response` ValueError path. -/
def extractJsonStr (response : String) : Option String :=
  if strContains response "\x60\x60\x60json" then
    let a := ((pyFind response "\x60\x60\x60json") + 7).toNat
    let e := pyFindFrom response "\x60\x60\x60" a
    some (pyStrip (pySlice response a e))
  else if strContains response "\x7b" && strContains response "\x7d" then
    some (pySlice response (pyFind response "\x7b").toNat ((pyRFind response "\x7d") + 1))
  else none

/-- The greedy DOTALL match of `re.search` over the brace-span regex,
used by the orchestrator and requirements parsers: spans from the
first opening brace to the last closing brace, provided a closing
brace follows the first opening one. -/
def regexBraceSpan (response : String) : Option String :=
  let i := pyFind response "\x7b"
  let j := pyRFind response "\x7d"
  if 0 ≤ i ∧ i < j then some (pySlice response i.toNat (j + 1)) else none

/- ## Orchestrator agent (src/agents/orchestrator.py) -/

/-- `x or "Not specified"` on an optional string field. -/
def orNotSpecified : Option String → String
  | some s => if s != "" then s else "Not specified"
  | none => "Not specified"

/-- `OrchestratorAgent._build_orchestration_prompt`. -/
def buildOrchestrationPrompt (st : WorkflowState) : String :=
  let basePrompt :=
    "\nQUERY ANALYSIS REQUEST:\nUser Query: \"" ++ st.user_query ++
    "\"\nUser Expertise: " ++ expertiseEnumStr st.user_profile.expertise_level ++
    "\nBusiness Role: " ++ orNotSpecified st.user_profile.business_role ++
    "\nBusiness Context: " ++ businessContextOrNot st.business_context ++
    "\n\nORCHESTRATION ANALYSIS REQUIRED:\n\n1. QUERY COMPLEXITY ANALYSIS:\n   - Technical complexity level (1-5)\n   - Business complexity level (1-5)\n   - Required depth of why reasoning\n   - Required depth of business analysis\n   - Urgency assessment\n\n2. WORKFLOW SELECTION:\n   - Choose optimal workflow type (sequential/parallel/conditional/iterative)\n   - Justify workflow choice based on complexity analysis\n   - Estimate total processing time\n   - Identify critical path dependencies\n\n3. AGENT COORDINATION PLAN:\n   - Which agents are required for this query?\n   - What is the optimal agent execution order?\n   - How should agents share context and build on each other?\n   - How to integrate why reasoning and business intelligence?\n\n4. USER EXPERIENCE OPTIMIZATION:\n   - How to adapt technical explanations to user expertise level?\n   - How to adapt business explanations to user role/context?\n   - What educational opportunities exist in this query?\n   - How to structure response for maximum learning value?\n\n5. SUCCESS CRITERIA:\n   - What constitutes a successful response for this query?\n   - How to measure user satisfaction and learning?\n   - What follow-up questions should be anticipated?\n   - How to ensure both technical and business value delivery?\n\nReturn detailed orchestration plan as JSON with specific agent instructions and integration requirements.\n        "
  getUserAdaptedPrompt basePrompt st.user_profile

/-- `OrchestratorAgent._validate_orchestration_plan`: fills required
fields, forces the two mandatory agents into the list, and normalises
the workflow type. Ill-typed model output raises (the caller catches
and falls back to the default plan). -/
def orchestratorPlanDefaults : List (String × Json) :=
  [("workflow_type", Json.str "SEQUENTIAL"),
   ("agents_required", Json.arr [Json.str "requirements", Json.str "research",
      Json.str "architecture", Json.str "why_reasoning",
      Json.str "business_impact", Json.str "educational"]),
   ("estimated_duration_minutes", Json.num 15),
   ("complexity_score", Json.num 3)]

/-- One mandatory-agent check of `_validate_orchestration_plan`: the
`not in` probe over the agents value, appending when absent. -/
def forceAgent (agentName : String) (fs : List (String × Json)) :
    Except PyErr (List (String × Json)) := do
  let agents := (lookupField fs "agents_required").getD Json.null
  let has ← pyInStr agentName agents
  if !has then do
    let agents2 ← pyAppend agents (Json.str agentName)
    pure (setField fs "agents_required" agents2)
  else pure fs

/-- The workflow-type normalisation of `_validate_orchestration_plan`. -/
def normalizeWorkflowType (fs : List (String × Json)) : List (String × Json) :=
  let wt := (lookupField fs "workflow_type").getD Json.null
  let valid := [Json.str "SEQUENTIAL", Json.str "PARALLEL",
                Json.str "CONDITIONAL", Json.str "ITERATIVE"]
  if valid.any (pyEq wt) then fs
  else setField fs "workflow_type" (Json.str "SEQUENTIAL")

def validateOrchestrationPlan (plan : List (String × Json)) : Except PyErr Json := do
  let fs := setdefaults plan orchestratorPlanDefaults
  let fs ← forceAgent "why_reasoning" fs
  let fs ← forceAgent "business_impact" fs
  return Json.obj (normalizeWorkflowType fs)

/-- The keyword table of `OrchestratorAgent._extract_plan_from_text`,
in dict insertion order. -/
def orchestratorAgentKeywords : List (String × List String) :=
  [("requirements", ["requirements", "requirement"]),
   ("research", ["research", "search"]),
   ("architecture", ["architecture", "design"]),
   ("why_reasoning", ["why", "reasoning", "decision"]),
   ("business_impact", ["business", "roi", "impact"]),
   ("educational", ["educational", "learning", "teaching"]),
   ("documentation", ["documentation", "document"])]

/-- `OrchestratorAgent._extract_plan_from_text`. -/
def extractPlanFromText (response : String) : Json :=
  let rl := pyLower response
  let workflowType :=
    if strContains rl "parallel" then "PARALLEL"
    else if strContains rl "conditional" then "CONDITIONAL"
    else if strContains rl "iterative" then "ITERATIVE"
    else "SEQUENTIAL"
  let agentsRequired := (orchestratorAgentKeywords.filter
      (fun ak => ak.2.any (fun kw => strContains rl kw))).map (·.1)
  let agentsRequired := if agentsRequired.isEmpty
    then ["requirements", "architecture", "why_reasoning", "business_impact"]
    else agentsRequired
  Json.obj
    [("workflow_type", Json.str workflowType),
     ("agents_required", Json.arr (agentsRequired.map Json.str)),
     ("estimated_duration_minutes", Json.num 15),
     ("complexity_score", Json.num 3),
     ("justification", Json.str "Extracted from text analysis")]

/-- `OrchestratorAgent._parse_orchestration_response`: the regex span
plus `json.loads` plus validation, catching every failure into the
default plan, and falling back to keyword extraction when no JSON
span exists. -/
def parseOrchestrationResponse (loads : String → Option Json) (response : String) : Json :=
  match regexBraceSpan response with
  | some g =>
    match loads g with
    | some (Json.obj fs) =>
      match validateOrchestrationPlan fs with
      | .ok plan => plan
      | .error _ => orchestratorDefaultPlan
    | some _ => orchestratorDefaultPlan
    | none => orchestratorDefaultPlan
  | none => extractPlanFromText response

/-- `OrchestratorAgent.process`: any exception inside the body is
caught and replaced by the fallback plan, so the step itself never
raises. -/
def orchestratorProcess (o : Oracles) (st : WorkflowState) : Json :=
  match queryGroqWithContext o orchestratorSystemPrompt (buildOrchestrationPrompt st) st with
  | .ok resp => Json.obj [("orchestrator_plan", parseOrchestrationResponse o.loads resp)]
  | .error _ => Json.obj [("orchestrator_plan", orchestratorFallbackPlan)]

/- ## Requirements agent (src/agents/requirements_agent.py) -/

/-- `RequirementsAgent._build_requirements_prompt`. -/
def buildRequirementsPrompt (st : WorkflowState) : String :=
  let basePrompt :=
    "\nREQUIREMENTS ANALYSIS REQUEST:\nUser Query: \"" ++ st.user_query ++
    "\"\nBusiness Context: " ++ businessContextOrNot st.business_context ++
    "\nUser Expertise: " ++ expertiseEnumStr st.user_profile.expertise_level ++
    "\nBusiness Role: " ++ orNotSpecified st.user_profile.business_role ++
    "\n\nCOMPREHENSIVE REQUIREMENTS ANALYSIS:\n\n1. FUNCTIONAL REQUIREMENTS EXTRACTION:\n   - What are the core features and capabilities needed?\n   - What user interactions and workflows are required?\n   - What data processing and storage requirements exist?\n   - What integration points are needed?\n   - What business processes must be supported?\n\n2. NON-FUNCTIONAL REQUIREMENTS ANALYSIS:\n   - Performance requirements (throughput, latency, concurrency)\n   - Scalability requirements (user growth, data growth, transaction volume)\n   - Security requirements (authentication, authorization, data protection)\n   - Availability and reliability requirements (uptime, disaster recovery)\n   - Compliance requirements (regulatory, industry standards)\n\n3. BUSINESS REQUIREMENTS ASSESSMENT:\n   - What business objectives does this system support?\n   - What are the success metrics and KPIs?\n   - What are the budget and timeline constraints?\n   - What market or competitive factors influence requirements?\n   - What ROI expectations exist?\n\n4. CONSTRAINT AND RISK ANALYSIS:\n   - What technology constraints exist?\n   - What resource limitations must be considered?\n   - What external dependencies exist?\n   - What technical and business risks are present?\n\n5. REQUIREMENT PRIORITIZATION:\n   - Which requirements are must-have vs nice-to-have?\n   - What is the business value of each requirement?\n   - What are the implementation complexity and costs?\n   - What is the recommended implementation sequence?\n\n6. CLARIFICATION QUESTIONS:\n   - What additional information is needed?\n   - What assumptions need validation?\n   - What potential conflicts or gaps exist?\n\nReturn detailed JSON with structured requirements analysis including business impact assessment.\n        "
  getUserAdaptedPrompt basePrompt st.user_profile

/-- `RequirementsAgent._validate_requirements_analysis`: fills the
seven expected keys and coerces the two requirement lists to lists.
Total: it only performs dict updates on a dict input. -/
def validateRequirementsAnalysis (plan : List (String × Json)) : Json :=
  let fs := setdefaults plan
    [("functional_requirements", Json.arr []),
     ("non_functional_requirements", Json.arr []),
     ("business_requirements", Json.arr []),
     ("constraints", Json.arr []),
     ("risks", Json.arr []),
     ("clarification_questions", Json.arr []),
     ("priority_matrix", Json.obj [])]
  let fs := match lookupField fs "functional_requirements" with
    | some (Json.arr _) => fs
    | _ => setField fs "functional_requirements" (Json.arr [])
  let fs := match lookupField fs "non_functional_requirements" with
    | some (Json.arr _) => fs
    | _ => setField fs "non_functional_requirements" (Json.arr [])
  Json.obj fs

/-- Scanner state of `RequirementsAgent._extract_requirements_from_text`. -/
structure ReqScanState where
  cur : Option String := none
  functional : List String := []
  nonFunctional : List String := []
  business : List String := []
  questions : List String := []

/-- One line of the section scanner. (The `functional` check fires
before the `non-functional` one, exactly as the source's `elif` chain
does.) -/
def reqScanStep (st : ReqScanState) (rawLine : String) : ReqScanState :=
  let line := pyStrip rawLine
  if line == "" then st
  else
    let ll := pyLower line
    if strContains ll "functional" && strContains ll "requirement" then
      { st with cur := some "functional" }
    else if strContains ll "non-functional" || strContains ll "performance" then
      { st with cur := some "non_functional" }
    else if strContains ll "business" && strContains ll "requirement" then
      { st with cur := some "business" }
    else if strContains ll "question" || strContains ll "clarification" then
      { st with cur := some "questions" }
    else if String.isPrefixOf "- " line || String.isPrefixOf "* " line then
      let requirement := pyStrip (String.mk (line.toList.drop 2))
      match st.cur with
      | some "functional" => { st with functional := st.functional ++ [requirement] }
      | some "non_functional" => { st with nonFunctional := st.nonFunctional ++ [requirement] }
      | some "business" => { st with business := st.business ++ [requirement] }
      | some "questions" => { st with questions := st.questions ++ [requirement] }
      | _ => st
    else st

/-- `RequirementsAgent._extract_requirements_from_text`. -/
def extractRequirementsFromText (response : String) : Json :=
  let fin := (response.splitOn "\n").foldl reqScanStep {}
  Json.obj
    [("functional_requirements", Json.arr (fin.functional.map Json.str)),
     ("non_functional_requirements", Json.arr (fin.nonFunctional.map Json.str)),
     ("business_requirements", Json.arr (fin.business.map Json.str)),
     ("constraints", Json.arr []),
     ("risks", Json.arr []),
     ("clarification_questions", Json.arr (fin.questions.map Json.str)),
     ("priority_matrix", Json.obj [])]

/-- `RequirementsAgent._parse_requirements_response`. -/
def parseRequirementsResponse (loads : String → Option Json) (response : String) : Json :=
  match regexBraceSpan response with
  | some g =>
    match loads g with
    | some (Json.obj fs) => validateRequirementsAnalysis fs
    | _ => requirementsDefaultAnalysis
  | none => extractRequirementsFromText response

/-- `RequirementsAgent.process`. -/
def requirementsProcess (o : Oracles) (st : WorkflowState) : Json :=
  match queryGroqWithContext o requirementsSystemPrompt (buildRequirementsPrompt st) st with
  | .ok resp => Json.obj [("requirements_analysis", parseRequirementsResponse o.loads resp)]
  | .error _ => Json.obj [("requirements_analysis", requirementsFallbackAnalysis)]

/- ## Research agent (src/agents/research_agent.py) -/

/-- `ResearchAgent._build_research_prompt`. Prompt construction reads
the requirements slot through `.get`, so it raises on a non-dict slot;
the caller catches that into the fallback path. -/
def buildResearchPrompt (st : WorkflowState) (requirements : Json) : Except PyErr String := do
  let parts := ["Research architecture solutions for: " ++ st.user_query,
                "User expertise level: " ++ st.user_profile.expertise_level,
                "",
                "REQUIREMENTS CONTEXT:"]
  let fr ← pyGet requirements "functional_requirements" (Json.arr [])
  let parts ← if fr.truthy then do
      let fr5 ← pySliceTake fr 5
      let items ← pyIter fr5
      pure (parts ++ ["Functional Requirements:"] ++ items.map (fun r => "- " ++ pyStrJ r))
    else pure parts
  let nfr ← pyGet requirements "non_functional_requirements" (Json.arr [])
  let parts ← if nfr.truthy then do
      let nfr5 ← pySliceTake nfr 5
      let items ← pyIter nfr5
      pure (parts ++ ["Non-Functional Requirements:"] ++ items.map (fun r => "- " ++ pyStrJ r))
    else pure parts
  let parts := parts ++ (match st.business_context with
    | some bc =>
      ["", "BUSINESS CONTEXT:",
       "Industry: " ++ optStrDisplay bc.industry,
       "Company Size: " ++ optStrDisplay bc.company_size,
       "Budget: " ++ optStrDisplay bc.budget_range]
    | none => [])
  let parts := parts ++
    ["",
     "Please provide comprehensive research covering architecture patterns, technology recommendations, best practices, and relevant case studies.",
     "Focus on solutions that match the expertise level and business context."]
  return String.intercalate "\n" parts

/-- The expected-key defaults of `_parse_research_response`. -/
def researchDefaultKeys : List (String × Json) :=
  [("architecture_patterns", Json.arr []),
   ("technology_recommendations", Json.arr []),
   ("best_practices", Json.arr []),
   ("case_studies", Json.arr []),
   ("search_queries", Json.arr []),
   ("confidence_score", Json.num (8/10))]

/-- `ResearchAgent._parse_research_response`: extraction, `json.loads`
and default-filling, with every failure resolved to the static
fallback document; total over all completion texts. -/
def parseResearchResponse (loads : String → Option Json) (response : String) : Json :=
  match extractJsonStr response with
  | none => fallbackResearch
  | some s =>
    match loads s with
    | some (Json.obj fs) => Json.obj (setdefaults fs researchDefaultKeys)
    | _ => fallbackResearch

/-- The web-search enrichment of `ResearchAgent.process`: up to 3
queries, keeping the top 2 results of each under `external_sources`. -/
def attachSearchResults (o : Oracles) (researchData : Json) : Except PyErr Json := do
  let sq ← pyGet researchData "search_queries" (Json.arr [])
  if sq.truthy then do
    let sq3 ← pySliceTake sq 3
    let queries ← pyIter sq3
    let searchResults ← queries.foldlM (fun acc q => do
      let results ← o.search q
      pure (acc ++ results.take 2)) []
    pure (researchData.setD "external_sources" (Json.arr searchResults))
  else pure researchData

/-- `ResearchAgent.process`: research plus the search enrichment; any
exception in the body is caught into the fallback result. -/
def researchProcess (o : Oracles) (st : WorkflowState) : Json :=
  match (do
    let prompt ← buildResearchPrompt st st.requirements_analysis
    let resp ← o.groq prompt researchSystemPrompt
    let researchData := parseResearchResponse o.loads resp
    let researchData ← attachSearchResults o researchData
    let conf ← pyGet researchData "confidence_score" (Json.num (8/10))
    pure (Json.obj [("success", Json.bool true),
                    ("research_data", researchData),
                    ("agent", Json.str "research"),
                    ("confidence", conf)])
    : Except PyErr Json) with
  | .ok r => r
  | .error e =>
    Json.obj [("success", Json.bool false),
              ("error", Json.str (pyErrStr e)),
              ("research_data", fallbackResearch),
              ("agent", Json.str "research")]

/- ## Architecture agent (src/agents/architecture_agent.py) -/

/-- The reverse scan inside
`ArchitectureAgent._extract_existing_architecture`, applied to the
already-reversed history: the first architecture-update message whose
payload has a truthy `components` entry wins and the scan stops;
architecture-update messages with an empty payload are skipped. The
`.get` chain raises where CPython would on non-dict metadata. -/
def scanHistoryForArchitecture : List Message → Except PyErr Json
  | [] => .ok (Json.obj [])
  | msg :: rest =>
    if msg.messageType == "ARCHITECTURE_UPDATE" then do
      let agentResponse ← pyGet msg.metadata "agentResponse" (Json.obj [])
      let architectureUpdate ← pyGet agentResponse "architectureUpdate" (Json.obj [])
      if architectureUpdate.truthy then do
        let comps ← pyGet architectureUpdate "components" Json.null
        if comps.truthy then pure architectureUpdate
        else scanHistoryForArchitecture rest
      else scanHistoryForArchitecture rest
    else scanHistoryForArchitecture rest

/-- `ArchitectureAgent._extract_existing_architecture`: the state's
own architecture slot wins when truthy; else the reverse history
scan; else the empty dict. -/
def extractExistingArchitecture (st : WorkflowState) : Except PyErr Json :=
  if st.architecture_design.truthy then .ok st.architecture_design
  else if !st.conversation_history.isEmpty then
    scanHistoryForArchitecture st.conversation_history.reverse
  else .ok (Json.obj [])

/-- The fixed record `_analyze_system_complexity` falls back to. -/
def defaultComplexityAnalysis : Json :=
  Json.obj
    [("complexity_level", Json.str "moderate"),
     ("criticality_level", Json.str "important"),
     ("performance_requirements", Json.str "optimized"),
     ("scale_requirements", Json.str "medium"),
     ("domain_type", Json.str "web_app"),
     ("architecture_patterns_suggested", Json.arr [Json.str "layered"]),
     ("required_components_count", Json.str "6-10"),
     ("infrastructure_needs", Json.arr [Json.str "load_balancing", Json.str "caching"]),
     ("reasoning", Json.str "Default analysis due to parsing error")]

/-- `', '.join(set(comp.get('type', 'unknown') for comp in comps))`:
the component-type summary lines of the two architecture prompts.
CPython set order is hash-dependent; first-occurrence order is used
(the text only lands in prompts no claim inspects). -/
def componentTypesJoin (comps : Json) : Except PyErr String := do
  let items ← pyIter comps
  let types ← items.mapM (fun c => pyGet c "type" (Json.str "unknown"))
  let strs ← types.mapM (fun t =>
    match t with
    | Json.str s => Except.ok s
    | _ => Except.error PyErr.typeError)
  return String.intercalate ", " (dedupFirst strs)

/-- JSON extraction inside `_analyze_system_complexity`: as the shared
procedure, but the brace branch only checks for an opening brace. -/
def complexityExtract (resp : String) : Option String :=
  if strContains resp "\x60\x60\x60json" then
    let a := ((pyFind resp "\x60\x60\x60json") + 7).toNat
    let e := pyFindFrom resp "\x60\x60\x60" a
    some (pyStrip (pySlice resp a e))
  else if strContains resp "\x7b" then
    some (pySlice resp (pyFind resp "\x7b").toNat ((pyRFind resp "\x7d") + 1))
  else none

/-- `ArchitectureAgent._analyze_system_complexity`: prompt-building
errors propagate to the caller; completion or parse failures are
caught into the default record. The parsed JSON is returned without
shape validation. -/
def analyzeSystemComplexity (o : Oracles) (userQuery : String) (existing : Json) :
    Except PyErr Json := do
  let enhancement ← (if existing.truthy then do
      let comps ← pyGet existing "components" Json.null
      pure comps.truthy
    else pure false)
  let analysisPrompt ← (if enhancement then do
      let comps ← pyGet existing "components" (Json.arr [])
      let n ← pyLen comps
      let types ← componentTypesJoin comps
      let md ← pyGet existing "metadata" (Json.obj [])
      let desc ← pyGet md "description" (Json.str "Previous architecture design")
      pure ("\nAnalyze this user request for system architecture requirements, considering there is an EXISTING ARCHITECTURE that should be enhanced:\n\nUser Request: \"" ++ userQuery ++ "\"\n\nEXISTING ARCHITECTURE:\n- Components: " ++ toString n ++ " components\n- Component Types: " ++ types ++ "\n- Previous Architecture Summary: " ++ pyStrJ desc ++ "\n\nIMPORTANT: This is an ENHANCEMENT request, not a new architecture. Analyze complexity for ADDING to the existing system.\n\nProvide a JSON analysis with:")
    else
      pure ("\nAnalyze this user request for system architecture requirements:\n\"" ++ userQuery ++ "\"\n\nProvide a JSON analysis with:\n\x7b\n  \"complexity_level\": \"simple|moderate|high|enterprise\",\n  \"criticality_level\": \"standard|important|critical|mission_critical\", \n  \"performance_requirements\": \"basic|optimized|high_performance|ultra_high_performance\",\n  \"scale_requirements\": \"small|medium|large|massive\",\n  \"domain_type\": \"web_app|mobile_app|enterprise|fintech|healthcare|gaming|iot|ai_ml|ecommerce|other\",\n  \"architecture_patterns_suggested\": [\"microservices\", \"event_driven\", \"serverless\", \"etc\"],\n  \"required_components_count\": \"4-6|6-10|10-15|15+\",\n  \"infrastructure_needs\": [\"load_balancing\", \"caching\", \"monitoring\", \"security\", \"etc\"],\n  \"reasoning\": \"Brief explanation of the analysis\"\n\x7d\n\nFocus on understanding the TRUE intent and requirements, not just keywords.\n"))
  match (do
    let resp ← o.groq analysisPrompt "You are an expert system architect. Analyze requirements intelligently based on context and intent, not just keywords."
    match complexityExtract resp with
    | some s =>
      match o.loads s with
      | some v => Except.ok v
      | none => Except.error (PyErr.valueError "json decode error")
    | none => Except.error (PyErr.valueError "No JSON found in analysis response")
    : Except PyErr Json) with
  | .ok v => pure v
  | .error _ => pure defaultComplexityAnalysis

/-- Default visualization metadata attached to components missing one
(`_validate_architecture_design`). -/
def vizDefaultComponent : Json :=
  Json.obj
    [("layer_assignments", Json.obj
       [("system_overview", Json.str "core_system"),
        ("deployment", Json.str "application")]),
     ("business_criticality", Json.str "medium"),
     ("visual_importance", Json.num 5),
     ("icon_category", Json.str "backend"),
     ("technology_badges", Json.arr []),
     ("health_indicators", Json.obj
       [("monitoring_required", Json.bool true),
        ("performance_critical", Json.bool false),
        ("availability_target", Json.str "99%")])]

/-- Default visualization metadata attached to connections missing one
(`_validate_architecture_design`). -/
def vizDefaultConnection : Json :=
  Json.obj
    [("protocol_display", Json.str "HTTP/REST"),
     ("traffic_volume", Json.str "medium"),
     ("latency_requirement", Json.str "near_real_time"),
     ("security_level", Json.str "medium"),
     ("dependency_strength", Json.str "important"),
     ("line_style", Json.str "solid"),
     ("animation_type", Json.str "unidirectional")]

/-- One element of the defaulting loops of
`_validate_architecture_design`: the `not in` probe followed by item
assignment when absent, with CPython semantics on non-dict elements. -/
def ensureVizMetadata (dflt : Json) (x : Json) : Except PyErr Json := do
  let has ← pyInStr "visualization_metadata" x
  if has then pure x
  else pySetItem x "visualization_metadata" dflt

/-- The `for` loops of `_validate_architecture_design` over the
components/connections value, with CPython iteration semantics:
in-place mutation of list elements, and a bare probe (raising on the
first ill-typed element) for other iterables. -/
def ensureVizAll (dflt : Json) (v : Json) : Except PyErr Json :=
  match v with
  | Json.arr xs => (xs.mapM (ensureVizMetadata dflt)).map Json.arr
  | _ => do
    let items ← pyIter v
    let _ ← items.mapM (ensureVizMetadata dflt)
    pure v

/-- The thirteen top-level defaults of
`_validate_architecture_design`. -/
def archDesignDefaults : List (String × Json) :=
  [("architecture_overview", Json.obj []),
   ("components", Json.arr []),
   ("connections", Json.arr []),
   ("system_overview", Json.obj []),
   ("data_architecture", Json.obj []),
   ("security_architecture", Json.obj []),
   ("deployment_architecture", Json.obj []),
   ("scalability_strategy", Json.obj []),
   ("monitoring_observability", Json.obj []),
   ("technology_stack", Json.obj []),
   ("implementation_phases", Json.arr []),
   ("risks_mitigations", Json.arr []),
   ("confidence_score", Json.num (85/100))]

/-- The component-substitution step of `_validate_architecture_design`:
when the (defaulted) component list is falsy, copy the existing
architecture's components and connections, or the static fallback's
when none was identified. -/
def substituteComponents (existing : Json) (fs : List (String × Json)) :
    Except PyErr (List (String × Json)) := do
  let comps := (lookupField fs "components").getD Json.null
  if !comps.truthy then
    if existing.truthy then do
      let ec ← pyGet existing "components" (Json.arr [])
      let econ ← pyGet existing "connections" (Json.arr [])
      pure (setField (setField fs "components" ec) "connections" econ)
    else do
      let fc ← pyGet fallbackArchitecture "components" (Json.arr [])
      let fcon ← pyGet fallbackArchitecture "connections" (Json.arr [])
      pure (setField (setField fs "components" fc) "connections" fcon)
  else pure fs

/-- The visualization-metadata step of `_validate_architecture_design`:
the two defaulting loops over components and connections. -/
def attachViz (fs : List (String × Json)) :
    Except PyErr (List (String × Json)) := do
  let comps2 := (lookupField fs "components").getD (Json.arr [])
  let comps3 ← ensureVizAll vizDefaultComponent comps2
  let fs := setField fs "components" comps3
  let conns := (lookupField fs "connections").getD (Json.arr [])
  let conns2 ← ensureVizAll vizDefaultConnection conns
  pure (setField fs "connections" conns2)

/-- `ArchitectureAgent._validate_architecture_design` (mutates and
returns its argument): fills the thirteen top-level defaults,
substitutes the existing architecture's components/connections (or
the static fallback's) when the component list is missing or empty,
and attaches default visualization metadata. Raises on a non-dict
design or ill-typed component/connection values, where CPython
would. -/
def validateArchitectureDesign (existing : Json) (design : Json) : Except PyErr Json := do
  match design with
  | Json.obj fs0 =>
    let fs := setdefaults fs0 archDesignDefaults
    let fs ← substituteComponents existing fs
    let fs2 ← attachViz fs
    pure (Json.obj fs2)
  | _ => .error .attributeError

/-- `ArchitectureAgent._parse_architecture_response`: on any failure of
extraction, deserialization or validation, returns the stored existing
architecture when one was identified (truthy), else the static
fallback. -/
def parseArchitectureResponse (loads : String → Option Json) (existing : Json)
    (response : String) : Json :=
  let recover := if existing.truthy then existing else fallbackArchitecture
  match extractJsonStr response with
  | none => recover
  | some s =>
    match loads s with
    | none => recover
    | some v =>
      match validateArchitectureDesign existing v with
      | .ok d => d
      | .error _ => recover

/-- `ArchitectureAgent._build_architecture_prompt_with_analysis`.
Reads the complexity record and prior slots through `.get`, so it
raises on ill-typed values; `process` catches that into its fallback
result. -/
def buildArchitecturePromptWithAnalysis (st : WorkflowState)
    (requirements researchData complexityAnalysis existing : Json) :
    Except PyErr String := do
  let userQuery := st.user_query
  let expertiseLevel := st.user_profile.expertise_level
  let isEnhancement ← (if existing.truthy then do
      let comps ← pyGet existing "components" Json.null
      pure comps.truthy
    else pure false)
  let parts ← (if isEnhancement then do
      let comps ← pyGet existing "components" (Json.arr [])
      let n ← pyLen comps
      let types ← componentTypesJoin comps
      let head :=
        ["ENHANCE the existing architecture by adding: " ++ userQuery,
         "User expertise level: " ++ expertiseLevel,
         "",
         "🔄 EXISTING ARCHITECTURE TO ENHANCE:",
         "📦 Current Components: " ++ toString n,
         "🏗️ Current Types: " ++ types,
         "",
         "EXISTING COMPONENTS:"]
      let comps10 ← pySliceTake comps 10
      let items ← pyIter comps10
      let listed ← items.mapM (fun comp => do
        let compName ← pyGet comp "name" (Json.str "Unknown")
        let compType ← pyGet comp "type" (Json.str "unknown")
        pure ("- " ++ pyStrJ compName ++ " (" ++ pyStrJ compType ++ ")"))
      let more := if n > 10
        then ["... and " ++ toString (n - 10) ++ " more components"] else []
      pure (head ++ listed ++ more ++
        ["",
         "🎯 ENHANCEMENT REQUIREMENTS:",
         "- PRESERVE all existing components and their relationships",
         "- ADD new components to fulfill the new requirements",
         "- EXTEND existing components if they can be enhanced",
         "- MAINTAIN architectural consistency and patterns",
         "- INTEGRATE new functionality seamlessly with existing system",
         "",
         "INTELLIGENT SYSTEM ANALYSIS FOR ENHANCEMENT:"])
    else
      pure ["Design a comprehensive, production-ready architecture for: " ++ userQuery,
            "User expertise level: " ++ expertiseLevel,
            "",
            "INTELLIGENT SYSTEM ANALYSIS:"])
  let complexityLevel ← pyGet complexityAnalysis "complexity_level" (Json.str "moderate")
  let criticalityLevel ← pyGet complexityAnalysis "criticality_level" (Json.str "important")
  let perfReq ← pyGet complexityAnalysis "performance_requirements" (Json.str "optimized")
  let scaleReq ← pyGet complexityAnalysis "scale_requirements" (Json.str "medium")
  let domainType ← pyGet complexityAnalysis "domain_type" (Json.str "web_app")
  let compCount ← pyGet complexityAnalysis "required_components_count" (Json.str "6-10")
  let infraNeeds ← pyGet complexityAnalysis "infrastructure_needs" (Json.arr [Json.str "basic"])
  let infraNeedsJoined ← pyJoin ", " infraNeeds
  let reasoning ← pyGet complexityAnalysis "reasoning" (Json.str "Standard system requirements")
  let parts := parts ++
    ["🎯 Complexity Level: " ++ pyStrJ complexityLevel,
     "⚡ Criticality Level: " ++ pyStrJ criticalityLevel,
     "🚀 Performance Requirements: " ++ pyStrJ perfReq,
     "📈 Scale Requirements: " ++ pyStrJ scaleReq,
     "🏗️ Domain Type: " ++ pyStrJ domainType,
     "📦 Suggested Component Count: " ++ pyStrJ compCount,
     "🔧 Infrastructure Needs: " ++ infraNeedsJoined,
     "💡 Analysis Reasoning: " ++ pyStrJ reasoning,
     ""]
  let parts := parts ++
    (if [Json.str "high", Json.str "enterprise"].any (pyEq complexityLevel) then
      ["🎯 HIGH COMPLEXITY ARCHITECTURE REQUIREMENTS:",
       "- Include comprehensive infrastructure components (load balancers, caches, monitoring)",
       "- Design for horizontal scaling and distributed architecture",
       "- Implement proper service mesh and API gateway patterns",
       "- Add observability stack (metrics, logging, tracing)",
       "- Include security layers and authentication services",
       ""]
     else [])
  let parts := parts ++
    (if [Json.str "critical", Json.str "mission_critical"].any (pyEq criticalityLevel) then
      ["⚡ MISSION-CRITICAL SYSTEM REQUIREMENTS:",
       "- Implement circuit breakers and fallback mechanisms",
       "- Design for high availability and disaster recovery",
       "- Add comprehensive monitoring, alerting, and health checks",
       "- Include audit logging and compliance considerations",
       "- Plan for zero-downtime deployments and auto-recovery",
       ""]
     else [])
  let parts := parts ++
    (if [Json.str "high_performance", Json.str "ultra_high_performance"].any (pyEq perfReq) then
      ["🚀 HIGH PERFORMANCE REQUIREMENTS:",
       "- Include multiple caching layers (in-memory, distributed, CDN)",
       "- Design for minimal latency with edge computing considerations",
       "- Implement async processing and event-driven patterns",
       "- Add performance monitoring and real-time optimization",
       ""]
     else [])
  let infraNeeds2 ← pyGet complexityAnalysis "infrastructure_needs"
    (Json.arr [Json.str "load_balancing", Json.str "caching"])
  let infraNeeds2Joined ← pyJoin ", " infraNeeds2
  let patterns ← pyGet complexityAnalysis "architecture_patterns_suggested"
    (Json.arr [Json.str "layered"])
  let patternsJoined ← pyJoin ", " patterns
  let parts := parts ++
    ["ARCHITECTURE COMPONENT GUIDANCE:",
     "- Target component count: " ++ pyStrJ compCount,
     "- Include infrastructure needs: " ++ infraNeeds2Joined,
     "- Apply patterns: " ++ patternsJoined,
     "",
     "REQUIREMENTS ANALYSIS:"]
  let fr ← pyGet requirements "functional_requirements" (Json.arr [])
  let parts ← if fr.truthy then do
      let items ← pyIter fr
      pure (parts ++ ["Functional Requirements:"] ++ items.map (fun r => "- " ++ pyStrJ r))
    else pure parts
  let nfr ← pyGet requirements "non_functional_requirements" (Json.arr [])
  let parts ← if nfr.truthy then do
      let items ← pyIter nfr
      pure (parts ++ ["Non-Functional Requirements:"] ++ items.map (fun r => "- " ++ pyStrJ r))
    else pure parts
  let br ← pyGet requirements "business_requirements" (Json.arr [])
  let parts ← if br.truthy then do
      let items ← pyIter br
      pure (parts ++ ["Business Requirements:"] ++ items.map (fun r => "- " ++ pyStrJ r))
    else pure parts
  let parts ← if researchData.truthy then do
      let parts := parts ++ ["\nRESEARCH INSIGHTS:"]
      let pats ← pyGet researchData "architecture_patterns" (Json.arr [])
      let parts ← if pats.truthy then do
          let pats3 ← pySliceTake pats 3
          let items ← pyIter pats3
          let lines ← items.mapM (fun p => do
            let n ← pyGet p "name" (Json.str "")
            let d ← pyGet p "description" (Json.str "")
            pure ("- " ++ pyStrJ n ++ ": " ++ pyStrJ d))
          pure (parts ++ ["Recommended Architecture Patterns:"] ++ lines)
        else pure parts
      let techs ← pyGet researchData "technology_recommendations" (Json.arr [])
      if techs.truthy then do
        let techs5 ← pySliceTake techs 5
        let items ← pyIter techs5
        let lines ← items.mapM (fun t => do
          let c ← pyGet t "category" (Json.str "")
          let te ← pyGet t "technology" (Json.str "")
          let ra ← pyGet t "rationale" (Json.str "")
          pure ("- " ++ pyStrJ c ++ ": " ++ pyStrJ te ++ " - " ++ pyStrJ ra))
        pure (parts ++ ["Technology Recommendations:"] ++ lines)
      else pure parts
    else pure parts
  let parts := parts ++ (match st.business_context with
    | some bc =>
      ["",
       "BUSINESS CONTEXT:",
       "Industry: " ++ optStrDisplay bc.industry,
       "Company Size: " ++ optStrDisplay bc.company_size,
       "Budget: " ++ optStrDisplay bc.budget_range,
       "Timeline: " ++ optStrDisplay bc.timeline]
    | none => [])
  let parts := parts ++
    ["",
     "Please design a comprehensive architecture that:",
     "1. Addresses all functional and non-functional requirements",
     "2. Incorporates research insights and best practices",
     "3. Is appropriate for the user\x27s expertise level",
     "4. Considers business constraints and context",
     "5. Provides clear implementation guidance",
     "",
     "🔗 CRITICAL CONNECTION REQUIREMENTS:",
     "- EVERY component MUST be connected to at least one other component",
     "- Frontend components MUST connect through API Gateway/Load Balancer",
     "- Services MUST connect to databases they use",
     "- All components MUST have realistic, complete data flow connections",
     "- NO isolated/disconnected components are acceptable",
     "- Create connections between related services (e.g., auth service ↔ user data)",
     "",
     "📈 ENHANCEMENT FEATURES GUIDANCE:",
     "- Multi-tenant: Add tenant service, tenant database, tenant middleware",
     "- Scheduling: Add scheduler service, job queue, notification service",
     "- SEO: Add SEO service, content optimization, sitemap generation",
     "- Email: Add email service, template engine, delivery tracking",
     "",
     "Include detailed component design, data architecture, security considerations, and deployment strategy."]
  return String.intercalate "\n" parts

/-- `ArchitectureAgent._get_component_group`: the type-to-group table,
defaulting to 1; an unhashable lookup key raises, as `dict.get` does. -/
def getComponentGroup (t : Json) : Except PyErr Json :=
  match t with
  | Json.arr _ => .error .typeError
  | Json.obj _ => .error .typeError
  | Json.str s =>
    .ok (Json.num (
      if s == "service" then 1
      else if s == "database" then 2
      else if s == "gateway" then 3
      else if s == "cache" then 4
      else if s == "queue" then 5
      else if s == "frontend" then 6
      else if s == "external" then 7
      else 1))
  | _ => .ok (Json.num 1)

/-- `list.index(x)`: position of the first `==`-equal element. -/
def pyListIndex (xs : List Json) (x : Json) : Except PyErr Nat :=
  match xs.findIdx? (pyEq x) with
  | some i => .ok i
  | none => .error (PyErr.valueError "not in list")

/-- The `for cap in capabilities` loop of
`_get_system_overview_position`: returns at the first capability
listing the component's id (later entries are not touched, so an
ill-typed later entry cannot raise). -/
def findCapPosition (component : Json) (allCaps : List Json) :
    List Json → Except PyErr (Option Json)
  | [] => pure none
  | cap :: rest => do
    let cid ← pyGet component "id" Json.null
    let capComps ← pyGet cap "components" (Json.arr [])
    let isIn ← pyIn cid capComps
    if isIn then do
      let idx ← pyListIndex allCaps cap
      let prio ← pyGet cap "priority" (Json.str "medium")
      pure (some (Json.obj
        [("x", Json.num (200 + idx * 300)),
         ("y", Json.num 150),
         ("priority", prio)]))
    else findCapPosition component allCaps rest

/-- `ArchitectureAgent._get_system_overview_position`. -/
def getSystemOverviewPosition (component systemOverview : Json) (i : Nat) :
    Except PyErr Json := do
  let capabilities ← pyGet systemOverview "business_capabilities" (Json.arr [])
  let caps ← pyIter capabilities
  let hit ← findCapPosition component caps caps
  match hit with
  | some r => pure r
  | none =>
    pure (Json.obj
      [("x", Json.num (100 + (i % 3) * 250)),
       ("y", Json.num (100 + (i / 3) * 200)),
       ("priority", Json.str "medium")])

/-- The `for zone in zones` loop of `_get_deployment_position`:
returns at the first zone listing the component's id. -/
def findZonePosition (component : Json) (allZones : List Json) :
    List Json → Except PyErr (Option Json)
  | [] => pure none
  | zone :: rest => do
    let cid ← pyGet component "id" Json.null
    let zoneComps ← pyGet zone "components" (Json.arr [])
    let isIn ← pyIn cid zoneComps
    if isIn then do
      let zoneIndex ← pyListIndex allZones zone
      let sec ← pyGet zone "security_level" Json.null
      let zname ← pyGet zone "zone" (Json.str "application")
      pure (some (Json.obj
        [("x", Json.num (150 + zoneIndex * 200)),
         ("y", Json.num (100 + (if pyEq sec (Json.str "high") then 50 else 150))),
         ("zone", zname)]))
    else findZonePosition component allZones rest

/-- `ArchitectureAgent._get_deployment_position`. -/
def getDeploymentPosition (component deploymentArch : Json) (i : Nat) :
    Except PyErr Json := do
  let zonesV ← pyGet deploymentArch "infrastructure_zones" (Json.arr [])
  let zones ← pyIter zonesV
  let hit ← findZonePosition component zones zones
  match hit with
  | some r => pure r
  | none =>
    pure (Json.obj
      [("x", Json.num (100 + (i % 4) * 200)),
       ("y", Json.num (100 + (i / 4) * 150)),
       ("zone", Json.str "application")])

/-- `ArchitectureAgent._generate_system_overview_data`. -/
def generateSystemOverviewData (systemOverview : Json) : Except PyErr Json := do
  let bc ← pyGet systemOverview "business_capabilities" (Json.arr [])
  let cs ← pyGet systemOverview "core_systems" (Json.arr [])
  let ei ← pyGet systemOverview "external_integrations" (Json.arr [])
  let dd ← pyGet systemOverview "data_domains" (Json.arr [])
  pure (Json.obj
    [("business_capabilities", bc),
     ("core_systems", cs),
     ("external_integrations", ei),
     ("data_domains", dd),
     ("layout_type", Json.str "business_capability"),
     ("grouping_strategy", Json.str "by_capability")])

/-- `ArchitectureAgent._generate_deployment_data`. -/
def generateDeploymentData (deploymentArch : Json) : Except PyErr Json := do
  let iz ← pyGet deploymentArch "infrastructure_zones" (Json.arr [])
  let cc ← pyGet deploymentArch "container_clusters" (Json.arr [])
  let nt ← pyGet deploymentArch "network_topology" (Json.obj [])
  pure (Json.obj
    [("infrastructure_zones", iz),
     ("container_clusters", cc),
     ("network_topology", nt),
     ("layout_type", Json.str "infrastructure_zones"),
     ("grouping_strategy", Json.str "by_zone")])

/-- `ArchitectureAgent._calculate_complexity_score`. -/
def calculateComplexityScore (components connections : Json) : Except PyErr Json := do
  let componentCount ← pyLen components
  let connectionCount ← pyLen connections
  if componentCount ≤ 3 ∧ connectionCount ≤ 3 then pure (Json.num 1)
  else if componentCount ≤ 6 ∧ connectionCount ≤ 8 then pure (Json.num 3)
  else if componentCount ≤ 10 ∧ connectionCount ≤ 15 then pure (Json.num 5)
  else if componentCount ≤ 15 ∧ connectionCount ≤ 25 then pure (Json.num 7)
  else pure (Json.num 10)

/-- `ArchitectureAgent._generate_mermaid_diagram` (the layer argument
only names the diagram; the text is the same for both layers). -/
def generateMermaidDiagram (components connections : Json) : Except PyErr String := do
  let comps ← pyIter components
  let compLines ← comps.mapM (fun component => do
    let compId ← pyGet component "id" (Json.str "")
    let compName ← pyGet component "name" (Json.str "")
    let compType ← pyGet component "type" (Json.str "service")
    if pyEq compType (Json.str "database") then
      pure ("    " ++ pyStrJ compId ++ "[(" ++ pyStrJ compName ++ ")]")
    else if pyEq compType (Json.str "gateway") then
      pure ("    " ++ pyStrJ compId ++ "\x7b" ++ pyStrJ compName ++ "\x7d")
    else if pyEq compType (Json.str "queue") then
      pure ("    " ++ pyStrJ compId ++ ">" ++ pyStrJ compName ++ "]")
    else
      pure ("    " ++ pyStrJ compId ++ "[" ++ pyStrJ compName ++ "]"))
  let conns ← pyIter connections
  let connLines ← conns.mapM (fun connection => do
    let fromComp ← pyGet connection "from_component" (Json.str "")
    let toComp ← pyGet connection "to_component" (Json.str "")
    let connType ← pyGet connection "connection_type" (Json.str "http")
    if pyEq connType (Json.str "message_queue") then
      pure ("    " ++ pyStrJ fromComp ++ " -.-> " ++ pyStrJ toComp)
    else
      pure ("    " ++ pyStrJ fromComp ++ " --> " ++ pyStrJ toComp))
  return String.intercalate "\n" ("graph TD" :: (compLines ++ connLines))

/-- `ArchitectureAgent._generate_visualization_data`. -/
def generateVisualizationData (design : Json) : Except PyErr Json := do
  let components ← pyGet design "components" (Json.arr [])
  let connections ← pyGet design "connections" (Json.arr [])
  let systemOverview ← pyGet design "system_overview" (Json.obj [])
  let deploymentArch ← pyGet design "deployment_architecture" (Json.obj [])
  let compItems ← pyIter components
  let nodes ← compItems.enum.mapM (fun ic => do
    let i := ic.1
    let component := ic.2
    let vizMetadata ← pyGet component "visualization_metadata" (Json.obj [])
    let idv ← pyGet component "id" (Json.str ("component_" ++ toString i))
    let namev ← pyGet component "name" (Json.str ("Component " ++ toString (i + 1)))
    let typev ← pyGet component "type" (Json.str "service")
    let descv ← pyGet component "description" (Json.str "")
    let techv ← pyGet component "technology" (Json.str "")
    let group ← getComponentGroup typev
    let vi ← pyGet vizMetadata "visual_importance" (Json.num 5)
    let crit ← pyGet vizMetadata "business_criticality" (Json.str "medium")
    let ic2 ← pyGet vizMetadata "icon_category" (Json.str "backend")
    let tb ← pyGet vizMetadata "technology_badges" (Json.arr [])
    let la ← pyGet vizMetadata "layer_assignments" (Json.obj [])
    let hi ← pyGet vizMetadata "health_indicators" (Json.obj [])
    let sop ← getSystemOverviewPosition component systemOverview i
    let dp ← getDeploymentPosition component deploymentArch i
    pure (Json.obj
      [("id", idv), ("name", namev), ("type", typev),
       ("description", descv), ("technology", techv), ("group", group),
       ("visual_importance", vi), ("business_criticality", crit),
       ("icon_category", ic2), ("technology_badges", tb),
       ("layer_assignments", la), ("health_indicators", hi),
       ("system_overview_position", sop), ("deployment_position", dp)]))
  let connItems ← pyIter connections
  let links ← connItems.mapM (fun connection => do
    let vizMetadata ← pyGet connection "visualization_metadata" (Json.obj [])
    let sourcev ← pyGet connection "from_component" (Json.str "")
    let targetv ← pyGet connection "to_component" (Json.str "")
    let typev ← pyGet connection "connection_type" (Json.str "http")
    let descv ← pyGet connection "description" (Json.str "")
    let dfv ← pyGet connection "data_flow" (Json.str "request_response")
    let pd ← pyGet vizMetadata "protocol_display" (Json.str "HTTP/REST")
    let tv ← pyGet vizMetadata "traffic_volume" (Json.str "medium")
    let lr ← pyGet vizMetadata "latency_requirement" (Json.str "near_real_time")
    let sl ← pyGet vizMetadata "security_level" (Json.str "medium")
    let ds ← pyGet vizMetadata "dependency_strength" (Json.str "important")
    let ls ← pyGet vizMetadata "line_style" (Json.str "solid")
    let at6 ← pyGet vizMetadata "animation_type" (Json.str "unidirectional")
    pure (Json.obj
      [("source", sourcev), ("target", targetv), ("type", typev),
       ("description", descv), ("data_flow", dfv),
       ("protocol_display", pd), ("traffic_volume", tv),
       ("latency_requirement", lr), ("security_level", sl),
       ("dependency_strength", ds), ("line_style", ls),
       ("animation_type", at6)]))
  let sod ← generateSystemOverviewData systemOverview
  let dd ← generateDeploymentData deploymentArch
  let mermaid ← generateMermaidDiagram components connections
  let totalComponents ← pyLen components
  let totalConnections ← pyLen connections
  let score ← calculateComplexityScore components connections
  pure (Json.obj
    [("d3_data", Json.obj [("nodes", Json.arr nodes), ("links", Json.arr links)]),
     ("layer_data", Json.obj [("system_overview", sod), ("deployment", dd)]),
     ("mermaid_diagrams", Json.obj
       [("system_overview", Json.str mermaid), ("deployment", Json.str mermaid)]),
     ("diagram_types", Json.arr [Json.str "system_overview", Json.str "deployment"]),
     ("layout_options", Json.arr
       [Json.str "business_capability", Json.str "infrastructure_zones",
        Json.str "hierarchical"]),
     ("visualization_metadata", Json.obj
       [("total_components", Json.num totalComponents),
        ("total_connections", Json.num totalConnections),
        ("complexity_score", score),
        ("recommended_default_view", Json.str "system_overview")])])

/-- `ArchitectureAgent.process`: continuity extraction, complexity
analysis, the design completion, parsing with existing-architecture
recovery, and visualization enhancement — with every exception caught
into the fallback result, so the step itself never raises. -/
def architectureProcess (o : Oracles) (st : WorkflowState) : Json :=
  match (do
    let existing ← extractExistingArchitecture st
    let ca ← analyzeSystemComplexity o st.user_query existing
    let prompt ← buildArchitecturePromptWithAnalysis st
      st.requirements_analysis st.research_data ca existing
    let resp ← o.groq prompt architectureSystemPrompt
    let design := parseArchitectureResponse o.loads existing resp
    let viz ← generateVisualizationData design
    let design2 ← pySetItem design "visualization_data" viz
    let conf ← pyGet design2 "confidence_score" (Json.num (85/100))
    pure (Json.obj [("success", Json.bool true),
                    ("architecture_design", design2),
                    ("agent", Json.str "architecture"),
                    ("confidence", conf)])
    : Except PyErr Json) with
  | .ok r => r
  | .error e =>
    Json.obj [("success", Json.bool false),
              ("error", Json.str (pyErrStr e)),
              ("architecture_design", fallbackArchitecture),
              ("agent", Json.str "architecture")]

/- ## Why-reasoning agent (src/agents/why_reasoning_agent.py) -/

/-- `d.items()`: dicts only. -/
def pyItems : Json → Except PyErr (List (String × Json))
  | .obj fs => .ok fs
  | _ => .error .attributeError

/-- `WhyReasoningAgent._build_reasoning_prompt`. -/
def buildReasoningPrompt (st : WorkflowState)
    (requirements researchData architectureDesign : Json) : Except PyErr String := do
  let expertiseLevel := st.user_profile.expertise_level
  let parts :=
    ["Provide comprehensive reasoning for the architectural decisions made for: " ++ st.user_query,
     "User expertise level: " ++ expertiseLevel,
     "",
     "CONTEXT TO ANALYZE:"]
  let parts ← if requirements.truthy then do
      let parts := parts ++ ["REQUIREMENTS:"]
      let fr ← pyGet requirements "functional_requirements" (Json.arr [])
      let parts ← if fr.truthy then do
          let fr5 ← pySliceTake fr 5
          let items ← pyIter fr5
          pure (parts ++ ["Functional:"] ++ items.map (fun r => "- " ++ pyStrJ r))
        else pure parts
      let nfr ← pyGet requirements "non_functional_requirements" (Json.arr [])
      if nfr.truthy then do
        let nfr5 ← pySliceTake nfr 5
        let items ← pyIter nfr5
        pure (parts ++ ["Non-Functional:"] ++ items.map (fun r => "- " ++ pyStrJ r))
      else pure parts
    else pure parts
  let parts ← if researchData.truthy then do
      let parts := parts ++ ["\nRESEARCH FINDINGS:"]
      let pats ← pyGet researchData "architecture_patterns" (Json.arr [])
      if pats.truthy then do
        let pats3 ← pySliceTake pats 3
        let items ← pyIter pats3
        let lines ← items.mapM (fun p => do
          let n ← pyGet p "name" (Json.str "")
          let d ← pyGet p "description" (Json.str "")
          pure ("- " ++ pyStrJ n ++ ": " ++ pyStrJ d))
        pure (parts ++ ["Patterns Considered:"] ++ lines)
      else pure parts
    else pure parts
  let parts ← if architectureDesign.truthy then do
      let parts := parts ++ ["\nARCHITECTURE DECISIONS TO EXPLAIN:"]
      let overview ← pyGet architectureDesign "architecture_overview" (Json.obj [])
      let parts ← if overview.truthy then do
          let p ← pyGet overview "pattern" (Json.str "Not specified")
          let d ← pyGet overview "description" (Json.str "Not specified")
          pure (parts ++ ["Pattern: " ++ pyStrJ p, "Description: " ++ pyStrJ d])
        else pure parts
      let comps ← pyGet architectureDesign "components" (Json.arr [])
      let parts ← if comps.truthy then do
          let comps5 ← pySliceTake comps 5
          let items ← pyIter comps5
          let lines ← items.mapM (fun comp => do
            let n ← pyGet comp "name" (Json.str "")
            let t ← pyGet comp "technology" (Json.str "")
            pure ("- " ++ pyStrJ n ++ ": " ++ pyStrJ t))
          pure (parts ++ ["Components:"] ++ lines)
        else pure parts
      let techStack ← pyGet architectureDesign "technology_stack" (Json.obj [])
      if techStack.truthy then do
        let items ← pyItems techStack
        pure (parts ++ ["Technology Stack:"] ++
          items.map (fun kv => "- " ++ kv.1 ++ ": " ++ pyStrJ kv.2))
      else pure parts
    else pure parts
  let parts := parts ++ (match st.business_context with
    | some bc =>
      ["", "BUSINESS CONTEXT:",
       "Industry: " ++ optStrDisplay bc.industry,
       "Company Size: " ++ optStrDisplay bc.company_size,
       "Budget: " ++ optStrDisplay bc.budget_range]
    | none => [])
  let parts := parts ++
    ["",
     "Please provide detailed reasoning that explains:",
     "1. Why each architectural decision was made",
     "2. How decisions address specific requirements",
     "3. What alternatives were considered and why they were rejected",
     "4. What trade-offs were made and their implications",
     "5. How the design aligns with best practices",
     "6. What risks exist and how they\x27re mitigated",
     "",
     "Adapt the explanation depth and technical detail to " ++ expertiseLevel ++ " level."]
  return String.intercalate "\n" parts

/-- The expected-key defaults of `_validate_reasoning_data`. -/
def whyDefaultKeys : List (String × Json) :=
  [("architectural_decisions", Json.arr []),
   ("pattern_explanations", Json.arr []),
   ("technology_justifications", Json.arr []),
   ("design_principles", Json.arr []),
   ("scalability_reasoning", Json.obj []),
   ("security_reasoning", Json.obj []),
   ("educational_insights", Json.arr []),
   ("implementation_guidance", Json.obj []),
   ("confidence_score", Json.num (9/10))]

/-- `WhyReasoningAgent._parse_reasoning_response`. -/
def parseReasoningResponse (loads : String → Option Json) (response : String) : Json :=
  match extractJsonStr response with
  | none => fallbackReasoning
  | some s =>
    match loads s with
    | some (Json.obj fs) => Json.obj (setdefaults fs whyDefaultKeys)
    | _ => fallbackReasoning

/-- `WhyReasoningAgent._generate_decision_rationale`. -/
def generateDecisionRationale (requirements researchData architectureDesign : Json) :
    Except PyErr Json := do
  let fr ← pyGet requirements "functional_requirements" (Json.arr [])
  let comps ← pyGet architectureDesign "components" (Json.arr [])
  let fr3 ← pySliceTake fr 3
  let reqs ← pyIter fr3
  let traceability ← reqs.mapM (fun req => do
    let comps2 ← pySliceTake comps 2
    let compItems ← pyIter comps2
    let names ← compItems.mapM (fun comp => pyGet comp "name" (Json.str ""))
    pure (Json.obj
      [("requirement", req),
       ("addressed_by", Json.arr names),
       ("how", Json.str "Component provides necessary functionality")]))
  let patterns ← pyGet researchData "architecture_patterns" (Json.arr [])
  let overview ← pyGet architectureDesign "architecture_overview" (Json.obj [])
  let chosenPattern ← pyGet overview "pattern" (Json.str "")
  let pats2 ← pySliceTake patterns 2
  let patItems ← pyIter pats2
  let influence ← patItems.foldlM (fun acc pattern => do
    let nameV ← pyGet pattern "name" (Json.str "")
    let nameLower ← pyLowerJ nameV
    let chosenLower ← pyLowerJ chosenPattern
    if strContains chosenLower nameLower then do
      let prosProbe ← pyGet pattern "pros" Json.null
      let benefit ← if prosProbe.truthy then do
          let pros ← pyGet pattern "pros" (Json.arr [Json.str "Improved architecture"])
          pyIndexZero pros
        else pure (Json.str "Better design")
      pure (acc ++ [Json.obj
        [("research_finding", nameV),
         ("influence", Json.str "Pattern selection based on research recommendation"),
         ("benefit", benefit)]])
    else pure acc) ([] : List Json)
  pure (Json.obj
    [("requirements_traceability", Json.arr traceability),
     ("research_influence", Json.arr influence),
     ("design_coherence", Json.arr [])])

/-- `WhyReasoningAgent.process`. -/
def whyReasoningProcess (o : Oracles) (st : WorkflowState) : Json :=
  match (do
    let prompt ← buildReasoningPrompt st st.requirements_analysis st.research_data
      st.architecture_design
    let resp ← o.groq prompt whyReasoningSystemPrompt
    let whyData := parseReasoningResponse o.loads resp
    let rationale ← generateDecisionRationale st.requirements_analysis st.research_data
      st.architecture_design
    let whyData2 ← pySetItem whyData "decision_rationale" rationale
    let conf ← pyGet whyData2 "confidence_score" (Json.num (9/10))
    pure (Json.obj [("success", Json.bool true),
                    ("why_reasoning", whyData2),
                    ("agent", Json.str "why_reasoning"),
                    ("confidence", conf)])
    : Except PyErr Json) with
  | .ok r => r
  | .error e =>
    Json.obj [("success", Json.bool false),
              ("error", Json.str (pyErrStr e)),
              ("why_reasoning", fallbackReasoning),
              ("agent", Json.str "why_reasoning")]

/- ## Business-impact agent (src/agents/business_impact_agent.py) -/

/-- `BusinessImpactAgent._build_impact_prompt`. -/
def buildImpactPrompt (st : WorkflowState)
    (requirements architectureDesign whyReasoning : Json) : Except PyErr String := do
  let parts :=
    ["Analyze the business impact of the proposed architecture for: " ++ st.user_query,
     "",
     "BUSINESS CONTEXT:"]
  let parts := parts ++ (match st.business_context with
    | some bc =>
      ["Industry: " ++ optStrDisplay bc.industry,
       "Company Size: " ++ optStrDisplay bc.company_size,
       "Budget Range: " ++ optStrDisplay bc.budget_range,
       "Timeline: " ++ optStrDisplay bc.timeline,
       "Current Challenges: Not specified"]
    | none => [])
  let br ← pyGet requirements "business_requirements" (Json.arr [])
  let parts ← if br.truthy then do
      let items ← pyIter br
      pure (parts ++ ["\nBUSINESS REQUIREMENTS:"] ++ items.map (fun r => "- " ++ pyStrJ r))
    else pure parts
  let parts ← if architectureDesign.truthy then do
      let parts := parts ++ ["\nPROPOSED ARCHITECTURE:"]
      let overview ← pyGet architectureDesign "architecture_overview" (Json.obj [])
      let parts ← if overview.truthy then do
          let p ← pyGet overview "pattern" (Json.str "Not specified")
          let d ← pyGet overview "description" (Json.str "Not specified")
          pure (parts ++ ["Pattern: " ++ pyStrJ p, "Description: " ++ pyStrJ d])
        else pure parts
      let techStack ← pyGet architectureDesign "technology_stack" (Json.obj [])
      let parts ← if techStack.truthy then do
          let items ← pyItems techStack
          pure (parts ++ ["Technology Stack:"] ++
            items.map (fun kv => "- " ++ kv.1 ++ ": " ++ pyStrJ kv.2))
        else pure parts
      let phases ← pyGet architectureDesign "implementation_phases" (Json.arr [])
      if phases.truthy then do
        let phases3 ← pySliceTake phases 3
        let items ← pyIter phases3
        let lines ← items.mapM (fun phase => do
          let p ← pyGet phase "phase" (Json.str "")
          let n ← pyGet phase "name" (Json.str "")
          let d ← pyGet phase "duration" (Json.str "")
          pure ("- Phase " ++ pyStrJ p ++ ": " ++ pyStrJ n ++ " (" ++ pyStrJ d ++ ")"))
        pure (parts ++ ["Implementation Phases:"] ++ lines)
      else pure parts
    else pure parts
  let decisions ← pyGet whyReasoning "architectural_decisions" (Json.arr [])
  let parts ← if decisions.truthy then do
      let ds3 ← pySliceTake decisions 3
      let items ← pyIter ds3
      let lines ← items.foldlM (fun acc decision => do
        let d ← pyGet decision "decision" (Json.str "")
        let r ← pyGet decision "rationale" (Json.str "")
        pure (acc ++ ["- " ++ pyStrJ d, "  Rationale: " ++ pyStrJ r])) ([] : List String)
      pure (parts ++ ["\nKEY ARCHITECTURAL DECISIONS:"] ++ lines)
    else pure parts
  let parts := parts ++
    ["",
     "Please provide comprehensive business impact analysis including:",
     "1. Financial implications (costs, savings, ROI)",
     "2. Operational impact and efficiency gains",
     "3. Strategic advantages and competitive positioning",
     "4. Risk analysis and mitigation strategies",
     "5. Timeline and business value realization",
     "6. Stakeholder impact and change management needs",
     "",
     "Focus on quantifiable business metrics and actionable insights for decision-makers."]
  return String.intercalate "\n" parts

/-- The expected-key defaults of `_validate_impact_data`. -/
def impactDefaultKeys : List (String × Json) :=
  [("executive_summary", Json.obj []),
   ("financial_impact", Json.obj []),
   ("operational_impact", Json.obj []),
   ("strategic_impact", Json.obj []),
   ("risk_analysis", Json.obj []),
   ("timeline_impact", Json.obj []),
   ("scalability_business_impact", Json.obj []),
   ("stakeholder_impact", Json.arr []),
   ("success_metrics", Json.arr []),
   ("confidence_score", Json.num (85/100))]

/-- `BusinessImpactAgent._parse_impact_response`. -/
def parseImpactResponse (loads : String → Option Json) (response : String) : Json :=
  match extractJsonStr response with
  | none => fallbackImpact
  | some s =>
    match loads s with
    | some (Json.obj fs) => Json.obj (setdefaults fs impactDefaultKeys)
    | _ => fallbackImpact

/-- `BusinessImpactAgent._calculate_roi_estimates` (only the business
context influences the result; the other arguments are unused by the
source body). -/
def calculateRoiEstimates (bc : Option BusinessContext) : Json :=
  let roi : List (String × Json) :=
    [("investment_summary", Json.obj
       [("total_investment", Json.str "To be determined based on detailed estimates"),
        ("payback_period", Json.str "12-24 months (estimated)"),
        ("roi_percentage", Json.str "15-25% annually (estimated)")]),
     ("value_drivers", Json.arr
       [Json.str "Operational efficiency improvements",
        Json.str "Reduced maintenance costs",
        Json.str "Faster time-to-market for new features",
        Json.str "Improved scalability reducing future costs"]),
     ("cost_categories", Json.arr
       [Json.str "Development and implementation",
        Json.str "Infrastructure and hosting",
        Json.str "Training and change management",
        Json.str "Ongoing maintenance and support"]),
     ("assumptions", Json.arr
       [Json.str "Team productivity improvements of 20-30%",
        Json.str "Reduced system downtime by 50%",
        Json.str "Faster feature delivery by 25%",
        Json.str "Lower infrastructure costs through optimization"])]
  match bc with
  | some b =>
    if b.company_size == some "startup" then
      Json.obj (roi ++ [("startup_considerations", Json.arr
        [Json.str "Focus on rapid development and iteration",
         Json.str "Minimize upfront infrastructure costs",
         Json.str "Prioritize scalability for growth"])])
    else if b.company_size == some "enterprise" then
      Json.obj (roi ++ [("enterprise_considerations", Json.arr
        [Json.str "Emphasis on security and compliance",
         Json.str "Integration with existing systems",
         Json.str "Long-term maintenance and support"])])
    else Json.obj roi
  | none => Json.obj roi

/-- `BusinessImpactAgent.process`. -/
def businessImpactProcess (o : Oracles) (st : WorkflowState) : Json :=
  match (do
    let prompt ← buildImpactPrompt st st.requirements_analysis st.architecture_design
      st.why_reasoning
    let resp ← o.groq prompt businessImpactSystemPrompt
    let impact := parseImpactResponse o.loads resp
    let impact2 ← pySetItem impact "roi_analysis" (calculateRoiEstimates st.business_context)
    let conf ← pyGet impact2 "confidence_score" (Json.num (85/100))
    pure (Json.obj [("success", Json.bool true),
                    ("business_impact", impact2),
                    ("agent", Json.str "business_impact"),
                    ("confidence", conf)])
    : Except PyErr Json) with
  | .ok r => r
  | .error e =>
    Json.obj [("success", Json.bool false),
              ("error", Json.str (pyErrStr e)),
              ("business_impact", fallbackImpact),
              ("agent", Json.str "business_impact")]

/- ## Educational agent (src/agents/educational_agent.py) -/

/-- `EducationalAgent._build_educational_prompt`. (The expertise
branches compare against lowercase literals while the enum values are
uppercase, exactly as the source does.) -/
def buildEducationalPrompt (st : WorkflowState)
    (architectureDesign whyReasoning : Json) : Except PyErr String := do
  let expertiseLevel := st.user_profile.expertise_level
  let parts :=
    ["Create comprehensive educational content for: " ++ st.user_query,
     "User expertise level: " ++ expertiseLevel,
     "",
     "CONTEXT FOR EDUCATIONAL CONTENT:"]
  let parts ← if architectureDesign.truthy then do
      let parts := parts ++ ["ARCHITECTURE TO EXPLAIN:"]
      let overview ← pyGet architectureDesign "architecture_overview" (Json.obj [])
      let parts ← if overview.truthy then do
          let p ← pyGet overview "pattern" (Json.str "Not specified")
          let d ← pyGet overview "description" (Json.str "Not specified")
          pure (parts ++ ["Pattern: " ++ pyStrJ p, "Description: " ++ pyStrJ d])
        else pure parts
      let comps ← pyGet architectureDesign "components" (Json.arr [])
      let parts ← if comps.truthy then do
          let comps5 ← pySliceTake comps 5
          let items ← pyIter comps5
          let lines ← items.mapM (fun comp => do
            let n ← pyGet comp "name" (Json.str "")
            let d ← pyGet comp "description" (Json.str "")
            pure ("- " ++ pyStrJ n ++ ": " ++ pyStrJ d))
          pure (parts ++ ["Key Components:"] ++ lines)
        else pure parts
      let techStack ← pyGet architectureDesign "technology_stack" (Json.obj [])
      if techStack.truthy then do
        let items ← pyItems techStack
        pure (parts ++ ["Technologies Used:"] ++
          items.map (fun kv => "- " ++ kv.1 ++ ": " ++ pyStrJ kv.2))
      else pure parts
    else pure parts
  let decisions ← pyGet whyReasoning "architectural_decisions" (Json.arr [])
  let parts ← if decisions.truthy then do
      let ds3 ← pySliceTake decisions 3
      let items ← pyIter ds3
      let lines ← items.mapM (fun decision => do
        let d ← pyGet decision "decision" (Json.str "")
        pure ("- " ++ pyStrJ d))
      pure (parts ++ ["\nKEY DECISIONS TO EXPLAIN:"] ++ lines)
    else pure parts
  let principles ← pyGet whyReasoning "design_principles" (Json.arr [])
  let parts ← if principles.truthy then do
      let ps3 ← pySliceTake principles 3
      let items ← pyIter ps3
      let lines ← items.mapM (fun principle => do
        let p ← pyGet principle "principle" (Json.str "")
        let imp ← pyGet principle "importance" (Json.str "")
        pure ("- " ++ pyStrJ p ++ ": " ++ pyStrJ imp))
      pure (parts ++ ["\nDESIGN PRINCIPLES TO COVER:"] ++ lines)
    else pure parts
  let parts := parts ++ (match st.business_context with
    | some bc =>
      ["", "BUSINESS CONTEXT FOR RELEVANCE:",
       "Industry: " ++ optStrDisplay bc.industry,
       "Company Size: " ++ optStrDisplay bc.company_size]
    | none => [])
  let parts := parts ++
    (if expertiseLevel == "beginner" then
      ["",
       "BEGINNER-LEVEL REQUIREMENTS:",
       "- Focus on fundamental concepts and basic explanations",
       "- Use simple analogies and real-world comparisons",
       "- Provide step-by-step guidance",
       "- Include basic terminology definitions",
       "- Offer simple, practical exercises"]
     else if expertiseLevel == "intermediate" then
      ["",
       "INTERMEDIATE-LEVEL REQUIREMENTS:",
       "- Include design patterns and architectural trade-offs",
       "- Explain implementation details and best practices",
       "- Provide comparative analysis of different approaches",
       "- Include moderate complexity exercises",
       "- Cover common pitfalls and how to avoid them"]
     else
      ["",
       "ADVANCED-LEVEL REQUIREMENTS:",
       "- Cover complex architectural patterns and optimizations",
       "- Include performance considerations and scalability strategies",
       "- Discuss architectural evolution and migration strategies",
       "- Provide challenging, real-world scenarios",
       "- Include cutting-edge practices and emerging patterns"])
  let parts := parts ++
    ["",
     "Please create educational content that:",
     "1. Explains all architectural concepts clearly for the user\x27s level",
     "2. Provides practical examples and hands-on exercises",
     "3. Includes real-world applications and case studies",
     "4. Offers a clear learning progression path",
     "5. Includes assessment questions to validate understanding",
     "",
     "Make the content engaging, practical, and immediately applicable."]
  return String.intercalate "\n" parts

/-- The expected-key defaults of `_validate_educational_data`. -/
def educationalDefaultKeys : List (String × Json) :=
  [("key_concepts", Json.arr []),
   ("pattern_explanations", Json.arr []),
   ("technology_deep_dives", Json.arr []),
   ("practical_exercises", Json.arr []),
   ("learning_progression", Json.obj []),
   ("real_world_applications", Json.arr []),
   ("troubleshooting_guide", Json.arr []),
   ("further_learning", Json.obj []),
   ("assessment_questions", Json.arr []),
   ("confidence_score", Json.num (9/10))]

/-- `EducationalAgent._parse_educational_response`. -/
def parseEducationalResponse (loads : String → Option Json) (response : String) : Json :=
  match extractJsonStr response with
  | none => fallbackEducationalContent
  | some s =>
    match loads s with
    | some (Json.obj fs) => Json.obj (setdefaults fs educationalDefaultKeys)
    | _ => fallbackEducationalContent

/-- `EducationalAgent._generate_learning_path`. The level comparisons
use lowercase literals against the uppercase enum value, exactly as
the source does, so the advanced branch is the one states built by the
service reach. -/
def generateLearningPath (expertiseLevel : String)
    (architectureDesign : Json) : Except PyErr Json := do
  let _ ← pyGet architectureDesign "technology_stack" (Json.obj [])
  let overview ← pyGet architectureDesign "architecture_overview" (Json.obj [])
  let _ ← pyGet overview "pattern" (Json.str "")
  let level := if expertiseLevel != "" then expertiseLevel else "intermediate"
  if level == "beginner" then
    pure (Json.obj
      [("current_session_focus", Json.arr
         [Json.str "Understanding basic architecture concepts",
          Json.str "Learning about layered architecture",
          Json.str "Introduction to databases and APIs"]),
       ("next_steps", Json.arr
         [Json.str "Practice with simple web application architecture",
          Json.str "Learn about REST API design",
          Json.str "Understand database relationships"]),
       ("long_term_goals", Json.arr
         [Json.str "Master fundamental design patterns",
          Json.str "Build confidence with common technologies",
          Json.str "Understand system integration basics"]),
       ("estimated_completion_time", Json.str "4-6 weeks")])
  else if level == "intermediate" then
    pure (Json.obj
      [("current_session_focus", Json.arr
         [Json.str "Advanced architectural patterns",
          Json.str "Scalability considerations",
          Json.str "Technology trade-offs and selection"]),
       ("next_steps", Json.arr
         [Json.str "Implement microservices patterns",
          Json.str "Learn about distributed systems",
          Json.str "Practice with cloud architectures"]),
       ("long_term_goals", Json.arr
         [Json.str "Master complex architectural patterns",
          Json.str "Understand performance optimization",
          Json.str "Lead architectural decisions"]),
       ("estimated_completion_time", Json.str "3-4 weeks")])
  else
    pure (Json.obj
      [("current_session_focus", Json.arr
         [Json.str "Architectural evolution strategies",
          Json.str "Performance optimization techniques",
          Json.str "Enterprise integration patterns"]),
       ("next_steps", Json.arr
         [Json.str "Design for extreme scale",
          Json.str "Master distributed systems patterns",
          Json.str "Architect for multi-cloud environments"]),
       ("long_term_goals", Json.arr
         [Json.str "Become an architecture thought leader",
          Json.str "Design innovative solutions",
          Json.str "Mentor other architects"]),
       ("estimated_completion_time", Json.str "2-3 weeks")])

/-- `EducationalAgent.process`. -/
def educationalProcess (o : Oracles) (st : WorkflowState) : Json :=
  match (do
    let prompt ← buildEducationalPrompt st st.architecture_design st.why_reasoning
    let resp ← o.groq prompt educationalSystemPrompt
    let content := parseEducationalResponse o.loads resp
    let path ← generateLearningPath st.user_profile.expertise_level st.architecture_design
    let content2 ← pySetItem content "learning_path" path
    let conf ← pyGet content2 "confidence_score" (Json.num (9/10))
    pure (Json.obj [("success", Json.bool true),
                    ("educational_content", content2),
                    ("agent", Json.str "educational"),
                    ("confidence", conf)])
    : Except PyErr Json) with
  | .ok r => r
  | .error e =>
    Json.obj [("success", Json.bool false),
              ("error", Json.str (pyErrStr e)),
              ("educational_content", fallbackEducationalContent),
              ("agent", Json.str "educational")]

/- ## Documentation agent (src/agents/documentation_agent.py) -/

/-- `DocumentationAgent._build_documentation_prompt`. -/
def buildDocumentationPrompt (st : WorkflowState)
    (requirements architectureDesign whyReasoning businessImpact : Json) :
    Except PyErr String := do
  let parts :=
    ["Generate comprehensive documentation for the architecture project: " ++ st.user_query,
     "",
     "CONTEXT FOR DOCUMENTATION:"]
  let parts := parts ++ (match st.business_context with
    | some bc =>
      ["PROJECT CONTEXT:",
       "Industry: " ++ optStrDisplay bc.industry,
       "Company Size: " ++ optStrDisplay bc.company_size,
       "Timeline: " ++ optStrDisplay bc.timeline,
       "Budget: " ++ optStrDisplay bc.budget_range]
    | none => [])
  let parts ← if requirements.truthy then do
      let parts := parts ++ ["\nREQUIREMENTS SUMMARY:"]
      let fr ← pyGet requirements "functional_requirements" (Json.arr [])
      let parts ← if fr.truthy then do
          let fr5 ← pySliceTake fr 5
          let items ← pyIter fr5
          pure (parts ++ ["Functional Requirements:"] ++ items.map (fun r => "- " ++ pyStrJ r))
        else pure parts
      let nfr ← pyGet requirements "non_functional_requirements" (Json.arr [])
      if nfr.truthy then do
        let nfr5 ← pySliceTake nfr 5
        let items ← pyIter nfr5
        pure (parts ++ ["Non-Functional Requirements:"] ++ items.map (fun r => "- " ++ pyStrJ r))
      else pure parts
    else pure parts
  let parts ← if architectureDesign.truthy then do
      let parts := parts ++ ["\nARCHITECTURE OVERVIEW:"]
      let overview ← pyGet architectureDesign "architecture_overview" (Json.obj [])
      let parts ← if overview.truthy then do
          let p ← pyGet overview "pattern" (Json.str "Not specified")
          let d ← pyGet overview "description" (Json.str "Not specified")
          pure (parts ++ ["Pattern: " ++ pyStrJ p, "Description: " ++ pyStrJ d])
        else pure parts
      let comps ← pyGet architectureDesign "components" (Json.arr [])
      let parts ← if comps.truthy then do
          let comps5 ← pySliceTake comps 5
          let items ← pyIter comps5
          let lines ← items.mapM (fun comp => do
            let n ← pyGet comp "name" (Json.str "")
            let d ← pyGet comp "description" (Json.str "")
            pure ("- " ++ pyStrJ n ++ ": " ++ pyStrJ d))
          pure (parts ++ ["Key Components:"] ++ lines)
        else pure parts
      let techStack ← pyGet architectureDesign "technology_stack" (Json.obj [])
      if techStack.truthy then do
        let items ← pyItems techStack
        pure (parts ++ ["Technology Stack:"] ++
          items.map (fun kv => "- " ++ kv.1 ++ ": " ++ pyStrJ kv.2))
      else pure parts
    else pure parts
  let decisions ← pyGet whyReasoning "architectural_decisions" (Json.arr [])
  let parts ← if decisions.truthy then do
      let ds3 ← pySliceTake decisions 3
      let items ← pyIter ds3
      let lines ← items.foldlM (fun acc decision => do
        let d ← pyGet decision "decision" (Json.str "")
        let r ← pyGet decision "rationale" (Json.str "")
        pure (acc ++ ["- " ++ pyStrJ d, "  Rationale: " ++ pyStrJ r])) ([] : List String)
      pure (parts ++ ["\nKEY ARCHITECTURAL DECISIONS:"] ++ lines)
    else pure parts
  let parts ← if businessImpact.truthy then do
      let parts := parts ++ ["\nBUSINESS IMPACT SUMMARY:"]
      let execSummary ← pyGet businessImpact "executive_summary" (Json.obj [])
      if execSummary.truthy then do
        let oi ← pyGet execSummary "overall_impact" (Json.str "Not specified")
        let parts := parts ++ ["Overall Impact: " ++ pyStrJ oi]
        let benefits ← pyGet execSummary "key_benefits" (Json.arr [])
        if benefits.truthy then do
          let b3 ← pySliceTake benefits 3
          let items ← pyIter b3
          pure (parts ++ ["Key Benefits:"] ++ items.map (fun b => "- " ++ pyStrJ b))
        else pure parts
      else pure parts
    else pure parts
  let parts := parts ++
    ["",
     "Please generate comprehensive documentation that includes:",
     "1. Executive summary for business stakeholders",
     "2. Technical specifications and architecture details",
     "3. Implementation and deployment guides",
     "4. Operational procedures and troubleshooting",
     "5. Decision log with rationale",
     "6. Appendices with glossary and references",
     "",
     "Ensure the documentation is professional, comprehensive, and suitable for both technical and business audiences."]
  return String.intercalate "\n" parts

/-- The expected-key defaults of `_validate_documentation_data`. -/
def documentationDefaultKeys : List (String × Json) :=
  [("document_metadata", Json.obj []),
   ("executive_summary", Json.obj []),
   ("sections", Json.arr []),
   ("technical_specifications", Json.obj []),
   ("implementation_guide", Json.obj []),
   ("operational_guide", Json.obj []),
   ("decision_log", Json.arr []),
   ("appendices", Json.obj []),
   ("confidence_score", Json.num (9/10))]

/-- `DocumentationAgent._parse_documentation_response`. -/
def parseDocumentationResponse (loads : String → Option Json) (response : String) : Json :=
  match extractJsonStr response with
  | none => fallbackDocumentation
  | some s =>
    match loads s with
    | some (Json.obj fs) => Json.obj (setdefaults fs documentationDefaultKeys)
    | _ => fallbackDocumentation

/-- `DocumentationAgent._generate_markdown_format`. The raw list the
source joins mixes f-string text with values appended as-is; the join
raises on a non-string value, as CPython does. -/
def generateMarkdownFormat (documentation architectureDesign : Json) :
    Except PyErr Json := do
  let metadata ← pyGet documentation "document_metadata" (Json.obj [])
  let execSummary ← pyGet documentation "executive_summary" (Json.obj [])
  let title ← pyGet metadata "title" (Json.str "Architecture Design Document")
  let version ← pyGet metadata "version" (Json.str "1.0")
  let created ← pyGet metadata "created_date" (Json.str "Current Date")
  let authors ← pyGet metadata "authors" (Json.arr [Json.str "Agentic Architect Platform"])
  let authorsJoined ← pyJoin ", " authors
  let overview ← pyGet execSummary "overview" (Json.str "Project overview not available")
  let parts : List Json :=
    [Json.str ("# " ++ pyStrJ title),
     Json.str "",
     Json.str ("**Version:** " ++ pyStrJ version ++ "  "),
     Json.str ("**Created:** " ++ pyStrJ created ++ "  "),
     Json.str ("**Authors:** " ++ authorsJoined),
     Json.str "",
     Json.str "## Executive Summary",
     Json.str "",
     overview,
     Json.str "",
     Json.str "### Key Benefits",
     Json.str ""]
  let benefits ← pyGet execSummary "key_benefits" (Json.arr [])
  let bItems ← pyIter benefits
  let parts := parts ++ bItems.map (fun b => Json.str ("- " ++ pyStrJ b))
  let investment ← pyGet execSummary "investment_required"
    (Json.str "Investment details not available")
  let timeline ← pyGet execSummary "timeline" (Json.str "Timeline not available")
  let parts := parts ++
    [Json.str "", Json.str "### Investment Required", investment,
     Json.str "", Json.str "### Timeline", timeline, Json.str ""]
  let sections ← pyGet documentation "sections" (Json.arr [])
  let sItems ← pyIter sections
  let parts ← sItems.foldlM (fun acc sec => do
    let t ← pyGet sec "title" (Json.str "Section")
    let c ← pyGet sec "content" (Json.str "Content not available")
    let acc := acc ++ [Json.str ("## " ++ pyStrJ t), Json.str "", c, Json.str ""]
    let subs ← pyGet sec "subsections" (Json.arr [])
    let subItems ← pyIter subs
    subItems.foldlM (fun acc2 sub => do
      let st2 ← pyGet sub "title" (Json.str "Subsection")
      let sc ← pyGet sub "content" (Json.str "Content not available")
      pure (acc2 ++ [Json.str ("### " ++ pyStrJ st2), Json.str "", sc, Json.str ""])) acc)
    parts
  let parts ← if architectureDesign.truthy then do
      let vd ← pyGet architectureDesign "visualization_data" (Json.obj [])
      let mermaidProbe ← pyGet vd "mermaid_diagram" Json.null
      if mermaidProbe.truthy then do
        let vd2 ← pyGetItem architectureDesign "visualization_data"
        let mermaid ← pyGetItem vd2 "mermaid_diagram"
        pure (parts ++
          [Json.str "## Architecture Diagram", Json.str "",
           Json.str "\x60\x60\x60mermaid", mermaid, Json.str "\x60\x60\x60", Json.str ""])
      else pure parts
    else pure parts
  let joined ← pyJoin "\n" (Json.arr parts)
  pure (Json.str joined)

/-- `DocumentationAgent._generate_pdf_ready_format`. -/
def generatePdfReadyFormat (documentation : Json) : Except PyErr Json := do
  let metadata ← pyGet documentation "document_metadata" (Json.obj [])
  let title ← pyGet metadata "title" (Json.str "Architecture Design Document")
  let metadata2 ← pyGet documentation "document_metadata" (Json.obj [])
  let version ← pyGet metadata2 "version" (Json.str "1.0")
  let metadata3 ← pyGet documentation "document_metadata" (Json.obj [])
  let date ← pyGet metadata3 "created_date" (Json.str "Current Date")
  pure (Json.obj
    [("title_page", Json.obj
       [("title", title),
        ("subtitle", Json.str "Comprehensive Architecture Documentation"),
        ("version", version),
        ("date", date)]),
     ("table_of_contents", Json.bool true),
     ("page_numbering", Json.bool true),
     ("header_footer", Json.bool true),
     ("styling", Json.obj
       [("font_family", Json.str "Arial, sans-serif"),
        ("font_size", Json.str "11pt"),
        ("line_spacing", Json.str "1.2"),
        ("margins", Json.str "1 inch")])])

/-- `DocumentationAgent._generate_confluence_format`. -/
def generateConfluenceFormat (documentation : Json) : Except PyErr Json := do
  let metadata ← pyGet documentation "document_metadata" (Json.obj [])
  let title ← pyGet metadata "title" (Json.str "Architecture Design Document")
  let metadata2 ← pyGet documentation "document_metadata" (Json.obj [])
  let version ← pyGet metadata2 "version" (Json.str "1.0")
  pure (Json.obj
    [("page_title", title),
     ("labels", Json.arr [Json.str "architecture", Json.str "design", Json.str "documentation"]),
     ("macros_used", Json.arr
       [Json.str "info", Json.str "note", Json.str "warning",
        Json.str "code", Json.str "expand"]),
     ("attachments", Json.arr
       [Json.str "architecture_diagram.png", Json.str "component_diagram.png"]),
     ("page_properties", Json.obj
       [("version", version),
        ("status", Json.str "Draft"),
        ("owner", Json.str "Architecture Team")])])

/-- `DocumentationAgent._generate_word_format`. -/
def generateWordFormat (documentation : Json) : Except PyErr Json := do
  let metadata ← pyGet documentation "document_metadata" (Json.obj [])
  let title ← pyGet metadata "title" (Json.str "Architecture Design Document")
  let metadata2 ← pyGet documentation "document_metadata" (Json.obj [])
  let authors ← pyGet metadata2 "authors" (Json.arr [Json.str "Agentic Architect Platform"])
  let author ← pyJoin ", " authors
  pure (Json.obj
    [("document_properties", Json.obj
       [("title", title),
        ("author", Json.str author),
        ("subject", Json.str "System Architecture Documentation"),
        ("keywords", Json.str "architecture, design, documentation, system")]),
     ("styles", Json.obj
       [("heading_1", Json.str "Arial, 16pt, Bold"),
        ("heading_2", Json.str "Arial, 14pt, Bold"),
        ("heading_3", Json.str "Arial, 12pt, Bold"),
        ("body_text", Json.str "Arial, 11pt, Normal"),
        ("code", Json.str "Courier New, 10pt, Normal")]),
     ("page_setup", Json.obj
       [("orientation", Json.str "Portrait"),
        ("margins", Json.str "1 inch all sides"),
        ("page_numbering", Json.str "Bottom center")])])

/-- `DocumentationAgent._generate_presentation_format`. -/
def generatePresentationFormat (documentation businessImpact : Json) :
    Except PyErr Json := do
  let metadata ← pyGet documentation "document_metadata" (Json.obj [])
  let title ← pyGet metadata "title" (Json.str "Architecture Design Document")
  let execSummary ← pyGet documentation "executive_summary" (Json.obj [])
  let overview ← pyGet execSummary "overview" (Json.str "Project overview")
  let execSummary2 ← pyGet documentation "executive_summary" (Json.obj [])
  let bullets ← pyGet execSummary2 "key_benefits" (Json.arr [])
  let slides : List Json :=
    [Json.obj
      [("slide_number", Json.num 1),
       ("type", Json.str "title"),
       ("title", title),
       ("subtitle", Json.str "Executive Presentation")],
     Json.obj
      [("slide_number", Json.num 2),
       ("type", Json.str "content"),
       ("title", Json.str "Executive Summary"),
       ("content", overview)],
     Json.obj
      [("slide_number", Json.num 3),
       ("type", Json.str "bullet_points"),
       ("title", Json.str "Key Benefits"),
       ("bullets", bullets)]]
  let slides ← if businessImpact.truthy then do
      let es ← pyGet businessImpact "executive_summary" (Json.obj [])
      let oi ← pyGet es "overall_impact" (Json.str "Positive business impact expected")
      pure (slides ++ [Json.obj
        [("slide_number", Json.num 4),
         ("type", Json.str "content"),
         ("title", Json.str "Business Impact"),
         ("content", oi)]])
    else pure slides
  pure (Json.obj
    [("slides", Json.arr slides),
     ("template", Json.str "Professional Business Template"),
     ("color_scheme", Json.str "Blue and White"),
     ("font_scheme", Json.str "Arial/Calibri")])

/-- `DocumentationAgent._generate_export_formats`. -/
def generateExportFormats (documentation architectureDesign businessImpact : Json) :
    Except PyErr Json := do
  let md ← generateMarkdownFormat documentation architectureDesign
  let pdf ← generatePdfReadyFormat documentation
  let conf ← generateConfluenceFormat documentation
  let word ← generateWordFormat documentation
  let pres ← generatePresentationFormat documentation businessImpact
  pure (Json.obj
    [("markdown", md),
     ("pdf_ready", pdf),
     ("confluence", conf),
     ("word_document", word),
     ("presentation_slides", pres)])

/-- `DocumentationAgent.process`. -/
def documentationProcess (o : Oracles) (st : WorkflowState) : Json :=
  match (do
    let prompt ← buildDocumentationPrompt st st.requirements_analysis
      st.architecture_design st.why_reasoning st.business_impact
    let resp ← o.groq prompt documentationSystemPrompt
    let docData := parseDocumentationResponse o.loads resp
    let exports ← generateExportFormats docData st.architecture_design st.business_impact
    let docData2 ← pySetItem docData "export_formats" exports
    let conf ← pyGet docData2 "confidence_score" (Json.num (9/10))
    pure (Json.obj [("success", Json.bool true),
                    ("documentation", docData2),
                    ("agent", Json.str "documentation"),
                    ("confidence", conf)])
    : Except PyErr Json) with
  | .ok r => r
  | .error e =>
    Json.obj [("success", Json.bool false),
              ("error", Json.str (pyErrStr e)),
              ("documentation", fallbackDocumentation),
              ("agent", Json.str "documentation")]

/- ## Sequential workflow (src/workflows/sequential_workflow.py) -/

/-- `x.title()` on a payload value: strings only. -/
def pyTitleJ : Json → Except PyErr String
  | .str s => .ok (pyTitle s)
  | _ => .error .attributeError

/-- `SequentialWorkflow.validate_state`: truthiness of the three
required fields (the profile object itself is always truthy). -/
def validateState (st : WorkflowState) : Bool :=
  st.conversation_id != "" && st.user_query != ""

/-- Step 1: orchestrator — slot, completed marker, next step. Every
step function is total because every agent's `process` catches all
its own failures. -/
def stepOrchestrator (o : Oracles) (st : WorkflowState) : WorkflowState :=
  let r := orchestratorProcess o st
  { st with orchestrator_plan := r.getD "orchestrator_plan" (Json.obj []),
            completed_steps := st.completed_steps ++ ["orchestrator"],
            current_step := "requirements" }

/-- Step 2: requirements. -/
def stepRequirements (o : Oracles) (st : WorkflowState) : WorkflowState :=
  let r := requirementsProcess o st
  { st with requirements_analysis := r.getD "requirements_analysis" (Json.obj []),
            completed_steps := st.completed_steps ++ ["requirements"],
            current_step := "research" }

/-- Step 3: research. The result lands in `research_data`; the
separate `research_findings` field stays untouched. -/
def stepResearch (o : Oracles) (st : WorkflowState) : WorkflowState :=
  let r := researchProcess o st
  { st with research_data := r.getD "research_data" (Json.obj []),
            completed_steps := st.completed_steps ++ ["research"],
            current_step := "architecture" }

/-- Step 4: architecture. -/
def stepArchitecture (o : Oracles) (st : WorkflowState) : WorkflowState :=
  let r := architectureProcess o st
  { st with architecture_design := r.getD "architecture_design" (Json.obj []),
            completed_steps := st.completed_steps ++ ["architecture"],
            current_step := "why_reasoning" }

/-- Step 5: why-reasoning. -/
def stepWhyReasoning (o : Oracles) (st : WorkflowState) : WorkflowState :=
  let r := whyReasoningProcess o st
  { st with why_reasoning := r.getD "why_reasoning" (Json.obj []),
            completed_steps := st.completed_steps ++ ["why_reasoning"],
            current_step := "business_impact" }

/-- Step 6: business impact. -/
def stepBusinessImpact (o : Oracles) (st : WorkflowState) : WorkflowState :=
  let r := businessImpactProcess o st
  { st with business_impact := r.getD "business_impact" (Json.obj []),
            completed_steps := st.completed_steps ++ ["business_impact"],
            current_step := "educational" }

/-- Step 7: educational. -/
def stepEducational (o : Oracles) (st : WorkflowState) : WorkflowState :=
  let r := educationalProcess o st
  { st with educational_content := r.getD "educational_content" (Json.obj []),
            completed_steps := st.completed_steps ++ ["educational"],
            current_step := "documentation" }

/-- Step 8: documentation. -/
def stepDocumentation (o : Oracles) (st : WorkflowState) : WorkflowState :=
  let r := documentationProcess o st
  { st with documentation := r.getD "documentation" (Json.obj []),
            completed_steps := st.completed_steps ++ ["documentation"],
            current_step := "completed" }

/-- `SequentialWorkflow._generate_comprehensive_content`. -/
def generateComprehensiveContent (st : WorkflowState) : Except PyErr String := do
  let parts :=
    ["I\x27ve completed a comprehensive analysis of your request: " ++ st.user_query,
     "",
     "## Executive Summary"]
  let parts ← if st.business_impact.truthy then do
      let execSummary ← pyGet st.business_impact "executive_summary" (Json.obj [])
      if execSummary.truthy then do
        let oi ← pyGet execSummary "overall_impact" (Json.str "Positive")
        let oiT ← pyTitleJ oi
        let rec2 ← pyGet execSummary "recommendation" (Json.str "Proceed")
        let recT ← pyTitleJ rec2
        let parts := parts ++
          ["**Overall Impact**: " ++ oiT, "**Recommendation**: " ++ recT, ""]
        let benefits ← pyGet execSummary "key_benefits" (Json.arr [])
        if benefits.truthy then do
          let b3 ← pySliceTake benefits 3
          let items ← pyIter b3
          pure (parts ++ ["**Key Benefits:**"] ++
            items.map (fun b => "• " ++ pyStrJ b) ++ [""])
        else pure parts
      else pure parts
    else pure parts
  let parts ← if st.architecture_design.truthy then do
      let overview ← pyGet st.architecture_design "architecture_overview" (Json.obj [])
      let parts ← if overview.truthy then do
          let p ← pyGet overview "pattern" (Json.str "Not specified")
          let pT ← pyTitleJ p
          let d ← pyGet overview "description" (Json.str "Architecture design completed")
          pure (parts ++
            ["## Architecture Overview",
             "**Pattern**: " ++ pT,
             "**Description**: " ++ pyStrJ d,
             ""])
        else pure parts
      let comps ← pyGet st.architecture_design "components" (Json.arr [])
      if comps.truthy then do
        let c4 ← pySliceTake comps 4
        let items ← pyIter c4
        let lines ← items.mapM (fun comp => do
          let n ← pyGet comp "name" (Json.str "")
          let d ← pyGet comp "description" (Json.str "")
          pure ("• **" ++ pyStrJ n ++ "**: " ++ pyStrJ d))
        pure (parts ++ ["**Key Components:**"] ++ lines ++ [""])
      else pure parts
    else pure parts
  let parts ← if st.why_reasoning.truthy then do
      let decisions ← pyGet st.why_reasoning "architectural_decisions" (Json.arr [])
      if decisions.truthy then do
        let d2 ← pySliceTake decisions 2
        let items ← pyIter d2
        let lines ← items.foldlM (fun acc decision => do
          let d ← pyGet decision "decision" (Json.str "")
          let r ← pyGet decision "rationale" (Json.str "")
          pure (acc ++
            ["**" ++ pyStrJ d ++ "**", "*Rationale*: " ++ pyStrJ r, ""])) ([] : List String)
        pure (parts ++ ["## Key Architectural Decisions", ""] ++ lines)
      else pure parts
    else pure parts
  let parts ← if st.educational_content.truthy then do
      let concepts ← pyGet st.educational_content "key_concepts" (Json.arr [])
      if concepts.truthy then do
        let c2 ← pySliceTake concepts 2
        let items ← pyIter c2
        let lines ← items.foldlM (fun acc concept => do
          let c ← pyGet concept "concept" (Json.str "")
          let d ← pyGet concept "definition" (Json.str "")
          pure (acc ++ ["**" ++ pyStrJ c ++ "**: " ++ pyStrJ d, ""])) ([] : List String)
        pure (parts ++
          ["## Learning Opportunities",
           "Based on your expertise level, here are key concepts to explore:",
           ""] ++ lines)
      else pure parts
    else pure parts
  let parts := parts ++
    ["## Next Steps",
     "I\x27ve prepared a complete architecture design with detailed documentation, business impact analysis, and educational resources.",
     "",
     "**Immediate Actions:**",
     "1. Review the detailed architecture design and documentation",
     "2. Examine the business impact analysis and ROI projections",
     "3. Explore the educational content to deepen your understanding",
     "4. Consider the implementation roadmap and timeline",
     "",
     "Would you like me to elaborate on any specific aspect of the analysis?"]
  return String.intercalate "\n" parts

/-- The static fallback list of next questions in
`_extract_comprehensive_questions`. -/
def defaultNextQuestions : List Json :=
  [Json.str "Would you like me to explain any specific architectural decisions in more detail?",
   Json.str "Are there particular aspects of the implementation you\x27d like to focus on?",
   Json.str "Do you have questions about the business impact or ROI analysis?",
   Json.str "Would you like to explore the educational content for any specific technologies?"]

/-- The question-field read of one assessment question in
`_extract_comprehensive_questions`. -/
def questionField (q : Json) : Except PyErr Json := pyGet q "question" (Json.str "")

/-- `SequentialWorkflow._extract_comprehensive_questions`: clarification
questions from the requirements analysis, plus the first two
assessment questions of the educational content; the static fallback
when the pool is empty; capped at 4. No deduplication is performed. -/
def extractComprehensiveQuestions (st : WorkflowState) : Except PyErr (List Json) := do
  let questions : List Json := []
  let questions ← if st.requirements_analysis.truthy then do
      let cq ← pyGet st.requirements_analysis "clarification_questions" (Json.arr [])
      let qs ← pyIter cq
      pure (questions ++ qs)
    else pure questions
  let questions ← if st.educational_content.truthy then do
      let aq ← pyGet st.educational_content "assessment_questions" (Json.arr [])
      if aq.truthy then do
        let a2 ← pySliceTake aq 2
        let items ← pyIter a2
        let extra ← items.mapM questionField
        pure (questions ++ extra)
      else pure questions
    else pure questions
  let questions := if questions.isEmpty then defaultNextQuestions else questions
  pure (questions.take 4)

/-- The static fallback list of suggested actions in
`_extract_comprehensive_actions`. -/
def defaultSuggestedActions : List Json :=
  [Json.str "Review and approve the architecture design document",
   Json.str "Begin implementation planning and team preparation",
   Json.str "Set up development environment and initial infrastructure",
   Json.str "Start with the first implementation phase"]

/-- One business-value milestone rendered as an action line in
`_extract_comprehensive_actions`. -/
def milestoneLine (milestone : Json) : Except PyErr Json := do
  let m ← pyGet milestone "milestone" (Json.str "")
  let t ← pyGet milestone "timeline" (Json.str "")
  pure (Json.str ("Achieve " ++ pyStrJ m ++ " within " ++ pyStrJ t))

/-- One implementation phase rendered as an action line in
`_extract_comprehensive_actions`. -/
def phaseLine (phase : Json) : Except PyErr Json := do
  let p ← pyGet phase "phase" (Json.str "")
  let n ← pyGet phase "name" (Json.str "")
  let d ← pyGet phase "duration" (Json.str "")
  pure (Json.str ("Phase " ++ pyStrJ p ++ ": " ++ pyStrJ n ++ " (" ++ pyStrJ d ++ ")"))

/-- `SequentialWorkflow._extract_comprehensive_actions`: the first
two business-value milestones plus the first two implementation
phases; the static fallback when the pool is empty; capped at 4.
No deduplication is performed. -/
def extractComprehensiveActions (st : WorkflowState) : Except PyErr (List Json) := do
  let actions : List Json := []
  let actions ← if st.business_impact.truthy then do
      let timeline ← pyGet st.business_impact "timeline_impact" (Json.obj [])
      if timeline.truthy then do
        let milestones ← pyGet timeline "business_value_realization" (Json.arr [])
        if milestones.truthy then do
          let m2 ← pySliceTake milestones 2
          let items ← pyIter m2
          let lines ← items.mapM milestoneLine
          pure (actions ++ lines)
        else pure actions
      else pure actions
    else pure actions
  let actions ← if st.architecture_design.truthy then do
      let phases ← pyGet st.architecture_design "implementation_phases" (Json.arr [])
      if phases.truthy then do
        let p2 ← pySliceTake phases 2
        let items ← pyIter p2
        let lines ← items.mapM phaseLine
        pure (actions ++ lines)
      else pure actions
    else pure actions
  let actions := if actions.isEmpty then defaultSuggestedActions else actions
  pure (actions.take 4)

/-- The `agent_outputs` dict compiled into the final response, in
insertion order. -/
def agentOutputs (st : WorkflowState) : List (String × Json) :=
  [("orchestrator_plan", st.orchestrator_plan),
   ("requirements_analysis", st.requirements_analysis),
   ("research_data", st.research_data),
   ("architecture_design", st.architecture_design),
   ("why_reasoning", st.why_reasoning),
   ("business_impact", st.business_impact),
   ("educational_content", st.educational_content),
   ("documentation", st.documentation)]

/-- The `confidence_score` values found among the agent outputs: only
dict-valued outputs carrying the key contribute. -/
def collectConfidenceScores (outputs : List (String × Json)) : List Json :=
  outputs.filterMap (fun kv =>
    match kv.2 with
    | Json.obj fs => lookupField fs "confidence_score"
    | _ => none)

/-- A value CPython can sum with numbers: a number, or a boolean
(`True` counts as 1). -/
def jsonAsNumber : Json → Option Rat
  | Json.num q => some q
  | Json.bool b => some (if b then 1 else 0)
  | _ => none

/-- `SequentialWorkflow._calculate_overall_confidence`: the arithmetic
mean of the collected scores, or 0.85 when none are present; the sum
raises on a non-numeric score. -/
def calculateOverallConfidence (outputs : List (String × Json)) : Except PyErr Rat :=
  let scores := collectConfidenceScores outputs
  if scores.isEmpty then .ok (85/100)
  else
    match scores.mapM jsonAsNumber with
    | some qs => .ok (qs.sum / qs.length)
    | none => .error .typeError

/-- `SequentialWorkflow._generate_processing_summary` (the `hasattr`
probes are always true on the pydantic state). -/
def processingSummary (st : WorkflowState) : Json :=
  Json.obj
    [("agents_completed", Json.arr (st.completed_steps.map Json.str)),
     ("total_agents", Json.num 8),
     ("workflow_status", Json.str "completed"),
     ("has_architecture_design", Json.bool true),
     ("has_business_impact", Json.bool true),
     ("has_educational_content", Json.bool true),
     ("has_documentation", Json.bool true),
     ("comprehensive_analysis", Json.bool true)]

/-- `SequentialWorkflow._compile_comprehensive_response`. -/
def compileComprehensiveResponse (st : WorkflowState) : Except PyErr Json := do
  let content ← generateComprehensiveContent st
  let nextQuestions ← extractComprehensiveQuestions st
  let suggestedActions ← extractComprehensiveActions st
  let conf ← calculateOverallConfidence (agentOutputs st)
  pure (Json.obj
    [("success", Json.bool true),
     ("workflow_type", Json.str "SEQUENTIAL"),
     ("conversation_id", Json.str st.conversation_id),
     ("final_content", Json.str content),
     ("next_questions", Json.arr nextQuestions),
     ("suggested_actions", Json.arr suggestedActions),
     ("completed_steps", Json.arr (st.completed_steps.map Json.str)),
     ("confidence_score", Json.num conf),
     ("agent_outputs", Json.obj (agentOutputs st)),
     ("metadata", Json.obj
       [("workflow_completed", Json.bool true),
        ("total_steps", Json.num st.completed_steps.length),
        ("final_step", Json.str st.current_step),
        ("agents_executed", Json.num 8),
        ("processing_summary", processingSummary st)])])

/-- The state after step `k` of a run (0 = the initial state); the
driver mutates one state in place, modelled functionally. -/
def workflowStates (o : Oracles) (st : WorkflowState) : List WorkflowState :=
  let s1 := stepOrchestrator o st
  let s2 := stepRequirements o s1
  let s3 := stepResearch o s2
  let s4 := stepArchitecture o s3
  let s5 := stepWhyReasoning o s4
  let s6 := stepBusinessImpact o s5
  let s7 := stepEducational o s6
  let s8 := stepDocumentation o s7
  [st, s1, s2, s3, s4, s5, s6, s7, s8]

/-- `SequentialWorkflow.execute`: precondition check, the eight steps
strictly in order (none of which can raise, since every agent catches
its own failures), then compilation of the aggregate response. An
exception from compilation is logged together with the completed
steps and re-raised (the error propagates). -/
def executeWorkflow (o : Oracles) (st : WorkflowState) : Except PyErr Json :=
  if !validateState st then
    .error (PyErr.valueError "Invalid initial state for sequential workflow")
  else
    compileComprehensiveResponse
      (stepDocumentation o (stepEducational o (stepBusinessImpact o
        (stepWhyReasoning o (stepArchitecture o (stepResearch o
          (stepRequirements o (stepOrchestrator o st))))))))

/- ## Notions and concrete inputs used by the claim statements -/

/-- The architecture-update payload of a history message, read along
the wire-format convention
(`metadata.agentResponse.architectureUpdate`). -/
def archUpdateOf (m : Message) : Json :=
  (m.metadata.getD "agentResponse" (Json.obj [])).getD "architectureUpdate" (Json.obj [])

/-- A message the continuity resolver selects: an architecture-update
message whose payload is truthy and carries a truthy component list. -/
def qualifiesAU (m : Message) : Bool :=
  m.messageType == "ARCHITECTURE_UPDATE" && (archUpdateOf m).truthy &&
    ((archUpdateOf m).getD "components" Json.null).truthy

/-- Wire-format well-formedness of a message along the path the
resolver reads: each `.get` receiver on the way to the payload is a
dict. -/
def metaWF (m : Message) : Prop :=
  m.metadata.isObj = true ∧
  (m.metadata.getD "agentResponse" (Json.obj [])).isObj = true ∧
  ((archUpdateOf m).truthy = true → (archUpdateOf m).isObj = true)

instance (m : Message) : Decidable (metaWF m) := by
  unfold metaWF; infer_instance

/-- A value that is a non-empty dict (the shape claim C6 asserts for
populated output slots). -/
def nonEmptyMapping (v : Json) : Prop := ∃ fs, v = Json.obj fs ∧ fs ≠ []

/-- The per-agent output slot named by a completed step. -/
def slotOf (st : WorkflowState) : String → Json
  | "orchestrator" => st.orchestrator_plan
  | "requirements" => st.requirements_analysis
  | "research" => st.research_data
  | "architecture" => st.architecture_design
  | "why_reasoning" => st.why_reasoning
  | "business_impact" => st.business_impact
  | "educational" => st.educational_content
  | "documentation" => st.documentation
  | _ => Json.null

/-- The eight step names, in execution order. -/
def allStepNames : List String :=
  ["orchestrator", "requirements", "research", "architecture",
   "why_reasoning", "business_impact", "educational", "documentation"]

/-- An architecture-update message with the given payload. -/
def msgWithArchUpdate (payload : Json) : Message :=
  { role := "ASSISTANT", content := "architecture update",
    messageType := "ARCHITECTURE_UPDATE",
    metadata := Json.obj [("agentResponse", Json.obj [("architectureUpdate", payload)])] }

/-- A plain user message. -/
def msgUser (content : String) : Message :=
  { role := "USER", content := content, messageType := "TEXT", metadata := Json.obj [] }

/-- A sample profile for the concrete runs. -/
def sampleProfile : UserProfile :=
  { id := "u1", email := "u1@example.com", expertise_level := "INTERMEDIATE" }

/-- An older architecture payload (one component `a`). -/
def olderArchPayload : Json :=
  Json.obj [("components", Json.arr
    [Json.obj [("id", Json.str "a"), ("name", Json.str "Service A"),
               ("type", Json.str "service")]]),
   ("connections", Json.arr [])]

/-- A newer architecture payload (one component `b`). -/
def newerArchPayload : Json :=
  Json.obj [("components", Json.arr
    [Json.obj [("id", Json.str "b"), ("name", Json.str "Service B"),
               ("type", Json.str "service")]]),
   ("connections", Json.arr [])]

/-- An architecture-update payload with an empty component list. -/
def emptyArchPayload : Json := Json.obj [("components", Json.arr [])]

/-- Concrete state for claim C1: an empty architecture slot and a
history carrying two qualifying architecture updates (older first),
one empty update after them, and a trailing user message. -/
def c1State : WorkflowState :=
  { conversation_id := "c1", user_query := "Add analytics",
    user_profile := sampleProfile,
    conversation_history :=
      [msgUser "I need an e-commerce platform",
       msgWithArchUpdate olderArchPayload,
       msgWithArchUpdate newerArchPayload,
       msgWithArchUpdate emptyArchPayload,
       msgUser "Add analytics"] }

/-- Concrete existing architecture for the C2 witness. -/
def c2Existing : Json :=
  Json.obj [("components", Json.arr
    [Json.obj [("id", Json.str "frontend"), ("name", Json.str "Frontend"),
               ("type", Json.str "frontend")]]),
   ("connections", Json.arr
    [Json.obj [("from_component", Json.str "frontend"),
               ("to_component", Json.str "frontend")]])]

/-- A `json.loads` oracle that fails on every string. -/
def loadsAlwaysFails : String → Option Json := fun _ => none

/-- A 320-character content string (for the truncation witness). -/
def longContent : String := String.mk (List.replicate 320 'x')

/-- Concrete state for the C4 witness: seven history messages (so one
is dropped), one of them an architecture update and one overlong. -/
def c4State : WorkflowState :=
  { conversation_id := "c4", user_query := "grow the system",
    user_profile := sampleProfile,
    conversation_history :=
      [msgUser "m1", msgUser "m2",
       { role := "ASSISTANT", content := "short answer", messageType := "TEXT",
         metadata := Json.obj [] },
       msgWithArchUpdate newerArchPayload,
       msgUser longContent,
       msgUser "m5", msgUser "m6"] }

/-- Oracles for a total completion-client outage: every completion,
deserialization and search attempt fails. -/
def outageOracles : Oracles :=
  { groq := fun _ _ => .error .typeError,
    loads := fun _ => none,
    search := fun _ => .error .typeError }

/-- Concrete initial state for the C5 counterexample run. -/
def c5State : WorkflowState :=
  { conversation_id := "c5", user_query := "I need a blog platform",
    user_profile := sampleProfile }

/-- Concrete initial state for the C6 witness run. -/
def c6State : WorkflowState :=
  { conversation_id := "c6", user_query := "I need a booking system",
    user_profile := sampleProfile }

/-- Concrete state for the C7 witness: seven slots report the
spec's example scores, the eighth reports none. -/
def c7State : WorkflowState :=
  { conversation_id := "c7", user_query := "score me",
    user_profile := sampleProfile,
    orchestrator_plan := Json.obj [("workflow_type", Json.str "SEQUENTIAL")],
    requirements_analysis := Json.obj [("confidence_score", Json.num (9/10))],
    research_data := Json.obj [("confidence_score", Json.num (8/10))],
    architecture_design := Json.obj [("confidence_score", Json.num (85/100))],
    why_reasoning := Json.obj [("confidence_score", Json.num (9/10))],
    business_impact := Json.obj [("confidence_score", Json.num (7/10))],
    educational_content := Json.obj [("confidence_score", Json.num (95/100))],
    documentation := Json.obj [("confidence_score", Json.num (85/100))] }

/-- Concrete state for the C8 counterexample: the requirements
analysis reports the same clarification question twice. -/
def c8State : WorkflowState :=
  { conversation_id := "c8", user_query := "dedupe me",
    user_profile := sampleProfile,
    requirements_analysis := Json.obj
      [("clarification_questions", Json.arr
         [Json.str "What is the expected user load?",
          Json.str "What is the expected user load?"])] }

/-- Concrete state for the C9 evaluation: the workflow's research step
has populated `research_data` (as `execute` does), while
`research_findings` still holds its default empty dict. -/
def c9State : WorkflowState :=
  { conversation_id := "c9", user_query := "I need a blog platform",
    user_profile := sampleProfile,
    requirements_analysis := Json.obj
      [("functional_requirements", Json.arr [Json.str "posts"])],
    research_data := Json.obj
      [("architecture_patterns", Json.arr
         [Json.obj [("name", Json.str "Layered Architecture")]])] }

/-- The same state with the research output mirrored into
`research_findings`, the field the context builder actually reads. -/
def c9StateMirrored : WorkflowState :=
  { c9State with research_findings := c9State.research_data }

/-- The existing architecture of the C10 counterexample: a truthy
state-slot dict that carries no component list (the state-slot branch
of the continuity resolver accepts any truthy dict). -/
def c10Existing : Json := Json.obj [("metadata", Json.obj [("origin", Json.str "turn 1")])]

/-- A `json.loads` oracle for the C10 counterexample: the empty
object for the span the extractor produces, as CPython parses it. -/
def c10Loads : String → Option Json :=
  fun s => if s == "\x7b\x7d" then some (Json.obj []) else none

/-- The raw completion text of the C10 counterexample. -/
def c10Response : String := "\x7b\x7d"

/-- First character of a string (rendered history lines start with a
dash; the other context parts do not). -/
def strHead (s : String) : Option Char := s.data.head?

/-- A context part that is neither a rendered history line (dash
prefix) nor the history header nor the instruction note. -/
def notHistoryPart (x : String) : Prop :=
  strHead x ≠ some ('-') ∧
  x ≠ "\nPREVIOUS CONVERSATION CONTEXT:" ∧
  x ≠ historyNoteLine

/-- The context parts built before the history block. -/
def contextPre (st : WorkflowState) : List String :=
  ["User Query: " ++ st.user_query,
   "User Expertise: " ++ expertiseEnumStr st.user_profile.expertise_level]
  ++ (if optStrTruthy st.user_profile.business_role
      then ["Business Role: " ++ (st.user_profile.business_role.getD "")] else [])
  ++ (match st.business_context with
      | some bc => ["Business Context: " ++ businessContextStr bc]
      | none => [])

/-- The context parts built after the history block. -/
def contextPost (st : WorkflowState) : List String :=
  (if st.requirements_analysis.truthy
    then ["Requirements: " ++ pyStrJ st.requirements_analysis] else [])
  ++ (if st.research_findings.truthy
      then ["Research: " ++ pyStrJ st.research_findings] else [])
  ++ (if st.architecture_design.truthy
      then ["EXISTING ARCHITECTURE: " ++ pyStrJ st.architecture_design,
            "IMPORTANT: Enhance and extend the existing architecture, don\x27t create a completely new one."]
      else [])

/-- A fully populated state for the C8 amended-pooling witness: two
identical clarification questions, three assessment questions, one
business-value milestone and one implementation phase. -/
def c8AmState : WorkflowState :=
  { conversation_id := "c8w", user_query := "pool me",
    user_profile := sampleProfile,
    requirements_analysis := Json.obj
      [("clarification_questions", Json.arr
         [Json.str "What is the expected user load?",
          Json.str "What is the expected user load?"])],
    educational_content := Json.obj
      [("assessment_questions", Json.arr
         [Json.obj [("question", Json.str "Q3?")],
          Json.obj [("question", Json.str "Q4?")],
          Json.obj [("question", Json.str "Q5?")]])],
    business_impact := Json.obj
      [("timeline_impact", Json.obj
         [("business_value_realization", Json.arr
            [Json.obj [("milestone", Json.str "MVP"),
                       ("timeline", Json.str "3 months")]])])],
    architecture_design := Json.obj
      [("implementation_phases", Json.arr
         [Json.obj [("phase", Json.str "1"), ("name", Json.str "Foundation"),
                    ("duration", Json.str "4 weeks")]])] }

/-- The C6 invariant: every step recorded as completed has a non-empty
mapping in its output slot. -/
def slotsInv (st : WorkflowState) : Prop :=
  ∀ name ∈ st.completed_steps, nonEmptyMapping (slotOf st name)

/-- An oracle record whose completion client always raises `e` (the
C5 scenario), with arbitrary deserialization and search behaviour. -/
def outageOraclesWith (e : PyErr) (loads : String → Option Json)
    (search : Json → Except PyErr (List Json)) : Oracles :=
  { groq := fun _ _ => .error e, loads := loads, search := search }

/-- The nine completed-step lists along a full run started from an
empty `completed_steps`. -/
def completedPrefixes : List (List String) :=
  [[],
   ["orchestrator"],
   ["orchestrator", "requirements"],
   ["orchestrator", "requirements", "research"],
   ["orchestrator", "requirements", "research", "architecture"],
   ["orchestrator", "requirements", "research", "architecture", "why_reasoning"],
   ["orchestrator", "requirements", "research", "architecture", "why_reasoning",
    "business_impact"],
   ["orchestrator", "requirements", "research", "architecture", "why_reasoning",
    "business_impact", "educational"],
   ["orchestrator", "requirements", "research", "architecture", "why_reasoning",
    "business_impact", "educational", "documentation"]]

/-- Every output slot holds its agent's deterministic fallback. -/
def allFallbackSlots (s : WorkflowState) : Prop :=
  s.orchestrator_plan = orchestratorFallbackPlan ∧
  s.requirements_analysis = requirementsFallbackAnalysis ∧
  s.research_data = fallbackResearch ∧
  s.architecture_design = fallbackArchitecture ∧
  s.why_reasoning = fallbackReasoning ∧
  s.business_impact = fallbackImpact ∧
  s.educational_content = fallbackEducationalContent ∧
  s.documentation = fallbackDocumentation

/- ## Lemma toolkit -/

theorem lookupField_append (fs gs : List (String × Json)) (k : String) :
    lookupField (fs ++ gs) k =
      match lookupField fs k with
      | some v => some v
      | none => lookupField gs k := by
  induction fs with
  | nil => simp [lookupField]
  | cons kv rest ih =>
    obtain ⟨k', v'⟩ := kv
    by_cases h : k' == k
    · simp [lookupField, h]
    · simp [lookupField, h, ih]

theorem lookupField_setField_self (fs : List (String × Json)) (k : String) (v : Json) :
    lookupField (setField fs k v) k = some v := by
  induction fs with
  | nil => simp [setField, lookupField]
  | cons kv rest ih =>
    obtain ⟨k', v'⟩ := kv
    by_cases h : k' == k
    · simp [setField, h, lookupField]
    · simp [setField, h, lookupField, ih]

theorem lookupField_setField_ne (fs : List (String × Json)) (k j : String) (v : Json)
    (h : j ≠ k) : lookupField (setField fs k v) j = lookupField fs j := by
  have hkj : k ≠ j := fun he => h he.symm
  induction fs with
  | nil => simp [setField, lookupField, hkj]
  | cons kv rest ih =>
    obtain ⟨k', v'⟩ := kv
    by_cases h2 : k' == k
    · have hk2 : k' = k := eq_of_beq h2
      subst hk2
      simp [setField, lookupField, hkj]
    · simp [setField, h2, lookupField, ih]

theorem setField_ne_nil (fs : List (String × Json)) (k : String) (v : Json) :
    setField fs k v ≠ [] := by
  cases fs with
  | nil => simp [setField]
  | cons kv rest =>
    obtain ⟨k', v'⟩ := kv
    by_cases h : k' == k <;> simp [setField, h]

theorem lookupField_setdefaults (fs kvs : List (String × Json)) (j : String) :
    lookupField (setdefaults fs kvs) j =
      match lookupField fs j with
      | some v => some v
      | none => lookupField kvs j := by
  induction kvs generalizing fs with
  | nil => cases h : lookupField fs j <;> simp [setdefaults, h, lookupField]
  | cons kv rest ih =>
    obtain ⟨k, v⟩ := kv
    have step : setdefaults fs ((k, v) :: rest) = setdefaults (setdefaultField fs k v) rest := by
      simp [setdefaults]
    rw [step, ih]
    by_cases hk : (lookupField fs k).isSome
    · have hfs : setdefaultField fs k v = fs := by simp [setdefaultField, hk]
      rw [hfs]
      by_cases hj : j = k
      · subst hj
        cases h : lookupField fs j with
        | some w => simp [h, lookupField]
        | none => rw [h] at hk; simp at hk
      · have hkj : k ≠ j := fun he => hj he.symm
        cases h : lookupField fs j <;> simp [h, lookupField, hkj]
    · have hnone : lookupField fs k = none := by
        cases h : lookupField fs k with
        | some w => rw [h] at hk; simp at hk
        | none => rfl
      have hfs : setdefaultField fs k v = fs ++ [(k, v)] := by
        simp [setdefaultField, hnone]
      rw [hfs, lookupField_append]
      by_cases hj : j = k
      · subst hj
        simp [hnone, lookupField]
      · have hkj : k ≠ j := fun he => hj he.symm
        cases h : lookupField fs j <;> simp [h, lookupField, hkj]

theorem ne_nil_of_lookup_isSome (fs : List (String × Json)) (k : String)
    (h : (lookupField fs k).isSome) : fs ≠ [] := by
  intro he
  rw [he] at h
  simp [lookupField] at h

theorem except_bind_ok {α β : Type} {y : Except PyErr α} {g : α → Except PyErr β}
    {c : β} (h : (y >>= g) = .ok c) : ∃ a, y = .ok a ∧ g a = .ok c := by
  cases y with
  | ok a => exact ⟨a, rfl, by simpa [Bind.bind, Except.bind] using h⟩
  | error e => simp [Bind.bind, Except.bind] at h

theorem mapM_ok_length {f : Json → Except PyErr Json} :
    ∀ {xs ys : List Json}, xs.mapM f = .ok ys → ys.length = xs.length := by
  intro xs
  induction xs with
  | nil =>
    intro ys h
    simp only [List.mapM_nil, pure, Except.pure, Except.ok.injEq] at h
    rw [← h]
  | cons x rest ih =>
    intro ys h
    rw [List.mapM_cons] at h
    obtain ⟨a, _, h2⟩ := except_bind_ok h
    obtain ⟨as, h3, h4⟩ := except_bind_ok h2
    simp only [pure, Except.pure, Except.ok.injEq] at h4
    rw [← h4]
    simp [ih h3]

theorem pySetItem_ok_shape {v x w : Json} {k : String}
    (h : pySetItem v k x = .ok w) : ∃ gs, w = Json.obj gs ∧ gs ≠ [] := by
  cases v <;> simp [pySetItem] at h
  case obj fs => exact ⟨setField fs k x, h.symm, setField_ne_nil fs k x⟩

/-- A string starting with character `c₁` never equals one starting
with a different `c₂`, whatever its tail. -/
theorem append_ne_of_head_ne (a t b : String) (c d : Char)
    (h1 : a.data.head? = some c) (h2 : b.data.head? = some d) (hne : c ≠ d) :
    a ++ t ≠ b := by
  intro h
  have hd : a.data ++ t.data = b.data := congrArg String.data h
  cases ha : a.data with
  | nil => rw [ha] at h1; simp at h1
  | cons x xs =>
    rw [ha] at h1 hd
    cases hb : b.data with
    | nil => rw [hb] at hd; simp at hd
    | cons y ys =>
      rw [hb] at h2 hd
      simp at h1 h2
      have : x = y := by
        have := congrArg List.head? hd
        simpa using this
      exact hne (h1 ▸ h2 ▸ this ▸ rfl)

/- ## Claim C1 -/

/-- The reverse history scan agrees with a first-match search for a
qualifying architecture-update message, for wire-format-conformant
metadata. -/
theorem scanHistory_eq_find (l : List Message)
    (hwf : ∀ m ∈ l, m.messageType = "ARCHITECTURE_UPDATE" → metaWF m) :
    scanHistoryForArchitecture l =
      .ok (match l.find? qualifiesAU with
           | some m => archUpdateOf m
           | none => Json.obj []) := by
  induction l with
  | nil => rfl
  | cons m rest ih =>
    have ihr := ih (fun x hx hx2 => hwf x (List.mem_cons_of_mem _ hx) hx2)
    by_cases hau : m.messageType = "ARCHITECTURE_UPDATE"
    · obtain ⟨h1, h2, h3⟩ := hwf m (List.mem_cons_self _ _) hau
      cases hm : m.metadata with
      | obj fs =>
        have har : Json.getD m.metadata "agentResponse" (Json.obj [])
            = (lookupField fs "agentResponse").getD (Json.obj []) := by
          rw [hm]; rfl
        rw [har] at h2
        cases harv : (lookupField fs "agentResponse").getD (Json.obj []) with
        | obj gs =>
          have hauv : archUpdateOf m
              = (lookupField gs "architectureUpdate").getD (Json.obj []) := by
            unfold archUpdateOf
            rw [har, harv]
            rfl
          by_cases htr : ((lookupField gs "architectureUpdate").getD (Json.obj [])).truthy = true
          · have hobj := h3 (by rw [hauv]; exact htr)
            rw [hauv] at hobj
            cases hav : (lookupField gs "architectureUpdate").getD (Json.obj []) with
            | obj hs =>
              have htr2 : (Json.obj hs).truthy = true := by rw [← hav]; exact htr
              by_cases hcomp : (((lookupField hs "components").getD Json.null)).truthy = true
              · have hq : qualifiesAU m = true := by
                  unfold qualifiesAU
                  rw [hauv, hav]
                  have hcg : ((Json.obj hs).getD "components" Json.null)
                      = (lookupField hs "components").getD Json.null := rfl
                  rw [hcg]
                  simp [hau, htr2, hcomp]
                simp only [scanHistoryForArchitecture, hau, beq_self_eq_true, if_true,
                  List.find?, hq, cond_true]
                rw [hauv, hav]
                simp [hm, pyGet, Bind.bind, Except.bind, harv, hav, htr2, hcomp,
                  pure, Except.pure]
              · rw [Bool.not_eq_true] at hcomp
                have hq : qualifiesAU m = false := by
                  unfold qualifiesAU
                  rw [hauv, hav]
                  have hcg : ((Json.obj hs).getD "components" Json.null)
                      = (lookupField hs "components").getD Json.null := rfl
                  rw [hcg]
                  simp [hcomp]
                simp only [scanHistoryForArchitecture, hau, beq_self_eq_true, if_true,
                  List.find?, hq, cond_false]
                rw [← ihr]
                simp [hm, pyGet, Bind.bind, Except.bind, harv, hav, htr2, hcomp]
            | null => rw [hav] at hobj; simp [Json.isObj] at hobj
            | bool b => rw [hav] at hobj; simp [Json.isObj] at hobj
            | num q => rw [hav] at hobj; simp [Json.isObj] at hobj
            | str s => rw [hav] at hobj; simp [Json.isObj] at hobj
            | arr xs => rw [hav] at hobj; simp [Json.isObj] at hobj
          · rw [Bool.not_eq_true] at htr
            have hq : qualifiesAU m = false := by
              unfold qualifiesAU
              rw [hauv]
              simp [htr]
            simp only [scanHistoryForArchitecture, hau, beq_self_eq_true, if_true,
              List.find?, hq, cond_false]
            rw [← ihr]
            simp [hm, pyGet, Bind.bind, Except.bind, harv, htr]
        | null => rw [harv] at h2; simp [Json.isObj] at h2
        | bool b => rw [harv] at h2; simp [Json.isObj] at h2
        | num q => rw [harv] at h2; simp [Json.isObj] at h2
        | str s => rw [harv] at h2; simp [Json.isObj] at h2
        | arr xs => rw [harv] at h2; simp [Json.isObj] at h2
      | null => rw [hm] at h1; simp [Json.isObj] at h1
      | bool b => rw [hm] at h1; simp [Json.isObj] at h1
      | num q => rw [hm] at h1; simp [Json.isObj] at h1
      | str s => rw [hm] at h1; simp [Json.isObj] at h1
      | arr xs => rw [hm] at h1; simp [Json.isObj] at h1
    · have hq : qualifiesAU m = false := by
        unfold qualifiesAU
        simp
        intro hc
        exact absurd hc hau
      have hb : (m.messageType == "ARCHITECTURE_UPDATE") = false := by
        simpa using hau
      simp only [scanHistoryForArchitecture, hb, Bool.false_eq_true, if_false,
        List.find?, hq, cond_false]
      exact ihr

/-- Claim C1: when the state's architecture-design slot is empty, the
continuity resolver scans the conversation history most-recent-first
and returns the `metadata.agentResponse.architectureUpdate` payload of
the most recent architecture-update message whose payload has a
non-empty component list, ignoring older architecture updates; when no
message qualifies, it returns the empty (NEW-mode) architecture. -/
theorem c1_continuity_resolver_reverse_scan (st : WorkflowState)
    (hslot : st.architecture_design.truthy = false)
    (hwf : ∀ m ∈ st.conversation_history,
      m.messageType = "ARCHITECTURE_UPDATE" → metaWF m) :
    extractExistingArchitecture st =
      .ok (match st.conversation_history.reverse.find? qualifiesAU with
           | some m => archUpdateOf m
           | none => Json.obj []) := by
  unfold extractExistingArchitecture
  rw [hslot]
  simp only [Bool.false_eq_true, if_false]
  by_cases h : st.conversation_history.isEmpty
  · have he : st.conversation_history = [] := by
      cases hc : st.conversation_history with
      | nil => rfl
      | cons a l => rw [hc] at h; simp at h
    simp [he, List.find?]
  · have hne : (!st.conversation_history.isEmpty) = true := by simp [h]
    rw [hne]
    simp only [if_pos rfl]
    exact scanHistory_eq_find st.conversation_history.reverse
      (fun m hm h2 => hwf m (List.mem_reverse.mp hm) h2)

/-- Witness for C1: in a history holding an older and a newer
qualifying architecture update plus an empty one after them, the
resolver returns the newer payload. -/
theorem c1_continuity_resolver_reverse_scan_witness :
    extractExistingArchitecture c1State = .ok newerArchPayload := by
  have h := c1_continuity_resolver_reverse_scan c1State (by decide) (by decide)
  exact h.trans (by rfl)

/- ## Claim C2 -/

/-- Claim C2: when the design response fails JSON extraction or
deserialization and an existing architecture was identified (truthy),
`_parse_architecture_response` returns that existing architecture
verbatim, not the static fallback. -/
theorem c2_parse_failure_returns_existing
    (loads : String → Option Json) (existing : Json) (response : String)
    (hex : existing.truthy = true)
    (hfail : extractJsonStr response = none ∨
      ∃ s, extractJsonStr response = some s ∧ loads s = none) :
    parseArchitectureResponse loads existing response = existing := by
  unfold parseArchitectureResponse
  rcases hfail with h | ⟨s, hs, hl⟩
  · rw [h]
    simp [hex]
  · rw [hs]
    simp [hl, hex]

/-- Witness for C2: a braceless completion text with a truthy stored
existing architecture yields that architecture unchanged. -/
theorem c2_parse_failure_returns_existing_witness :
    c2Existing.truthy = true ∧
    parseArchitectureResponse loadsAlwaysFails c2Existing "no structured output" = c2Existing :=
  ⟨rfl, c2_parse_failure_returns_existing loadsAlwaysFails c2Existing
    "no structured output" rfl (Or.inl rfl)⟩

/- ## Claim C3 -/

/-- Claim C3: the research agent's parse function is total — on every
completion text it returns either the fixed fallback document or the
deserialized object with the expected keys defaulted in — and on any
extraction or deserialization failure (no fenced block and no brace
span, or a span that does not deserialize to a JSON object) it returns
exactly the hard-coded fallback structure. -/
theorem c3_research_parse_total_with_fallback
    (loads : String → Option Json) (response : String) :
    ((extractJsonStr response = none ∨
        ∃ s, extractJsonStr response = some s ∧
          ∀ fs, loads s ≠ some (Json.obj fs)) →
      parseResearchResponse loads response = fallbackResearch) ∧
    (parseResearchResponse loads response = fallbackResearch ∨
      ∃ fs, parseResearchResponse loads response
        = Json.obj (setdefaults fs researchDefaultKeys)) := by
  constructor
  · intro hfail
    unfold parseResearchResponse
    rcases hfail with h | ⟨s, hs, hl⟩
    · rw [h]
    · rw [hs]
      cases hv : loads s with
      | none => simp [hv]
      | some v =>
        cases v with
        | obj fs => exact absurd hv (hl fs)
        | null => simp [hv]
        | bool b => simp [hv]
        | num q => simp [hv]
        | str s2 => simp [hv]
        | arr xs => simp [hv]
  · unfold parseResearchResponse
    cases hx : extractJsonStr response with
    | none => exact Or.inl rfl
    | some s =>
      cases hv : loads s with
      | none => exact Or.inl (by simp [hv])
      | some v =>
        cases v with
        | obj fs => exact Or.inr ⟨fs, by simp [hv]⟩
        | null => exact Or.inl (by simp [hv])
        | bool b => exact Or.inl (by simp [hv])
        | num q => exact Or.inl (by simp [hv])
        | str s2 => exact Or.inl (by simp [hv])
        | arr xs => exact Or.inl (by simp [hv])

/-- Witness for C3: a malformed completion with no braces parses to
the fallback research document. -/
theorem c3_research_parse_total_with_fallback_witness :
    parseResearchResponse loadsAlwaysFails "totally malformed output" = fallbackResearch :=
  (c3_research_parse_total_with_fallback loadsAlwaysFails
    "totally malformed output").1 (Or.inl rfl)

/- ## Claim C4 -/

theorem strHead_append (a b : String) (c : Char) (h : strHead a = some c) :
    strHead (a ++ b) = some c := by
  cases a with
  | mk l =>
    cases b with
    | mk m =>
      cases l with
      | nil => simp [strHead] at h
      | cons d t =>
        have hd : d = c := by simpa [strHead] using h
        subst hd
        rfl

theorem notHistoryPart_of_head (x : String) (c : Char) (h : strHead x = some c)
    (h1 : c ≠ ('-')) (h2 : c ≠ ('\n')) (h3 : c ≠ ('N')) : notHistoryPart x := by
  refine ⟨?_, ?_, ?_⟩
  · intro hc
    rw [h] at hc
    exact h1 (Option.some.inj hc)
  · intro he
    rw [he] at h
    have h0 : strHead "\nPREVIOUS CONVERSATION CONTEXT:" = some ('\n') := rfl
    rw [h0] at h
    exact h2 (Option.some.inj h).symm
  · intro he
    rw [he] at h
    have h0 : strHead historyNoteLine = some ('N') := rfl
    rw [h0] at h
    exact h3 (Option.some.inj h).symm

theorem contextParts_decomp (st : WorkflowState) :
    contextParts st = contextPre st
      ++ (if st.conversation_history.isEmpty then [] else
          "\nPREVIOUS CONVERSATION CONTEXT:" ::
          ((recentMessages st.conversation_history).map renderHistoryMsg
            ++ [historyNoteLine]))
      ++ contextPost st := by
  unfold contextParts contextPre contextPost
  simp [List.append_assoc]

theorem contextPrePost_other (st : WorkflowState) :
    ∀ x ∈ contextPre st ++ contextPost st, notHistoryPart x := by
  intro x hx
  rcases List.mem_append.mp hx with h | h
  · unfold contextPre at h
    rcases List.mem_append.mp h with h | h
    · rcases List.mem_append.mp h with h | h
      · rcases List.mem_cons.mp h with h | h
        · subst h
          exact notHistoryPart_of_head _ ('U')
            (strHead_append _ _ _ rfl) (by decide) (by decide) (by decide)
        · have h2 : x = "User Expertise: " ++ expertiseEnumStr st.user_profile.expertise_level := by
            simpa using h
          subst h2
          exact notHistoryPart_of_head _ ('U')
            (strHead_append _ _ _ rfl) (by decide) (by decide) (by decide)
      · by_cases hb : optStrTruthy st.user_profile.business_role
        · rw [if_pos hb] at h
          have h2 : x = "Business Role: " ++ (st.user_profile.business_role.getD "") := by
            simpa using h
          subst h2
          exact notHistoryPart_of_head _ ('B')
            (strHead_append _ _ _ rfl) (by decide) (by decide) (by decide)
        · rw [if_neg hb] at h
          simp at h
    · revert h
      cases st.business_context with
      | none => intro h; simp at h
      | some bc =>
        intro h
        have h2 : x = "Business Context: " ++ businessContextStr bc := by
          simpa using h
        subst h2
        exact notHistoryPart_of_head _ ('B')
          (strHead_append _ _ _ rfl) (by decide) (by decide) (by decide)
  · unfold contextPost at h
    rcases List.mem_append.mp h with h | h
    · rcases List.mem_append.mp h with h | h
      · by_cases hr : st.requirements_analysis.truthy
        · rw [if_pos hr] at h
          have h2 : x = "Requirements: " ++ pyStrJ st.requirements_analysis := by
            simpa using h
          subst h2
          exact notHistoryPart_of_head _ ('R')
            (strHead_append _ _ _ rfl) (by decide) (by decide) (by decide)
        · rw [if_neg hr] at h
          simp at h
      · by_cases hr : st.research_findings.truthy
        · rw [if_pos hr] at h
          have h2 : x = "Research: " ++ pyStrJ st.research_findings := by
            simpa using h
          subst h2
          exact notHistoryPart_of_head _ ('R')
            (strHead_append _ _ _ rfl) (by decide) (by decide) (by decide)
        · rw [if_neg hr] at h
          simp at h
    · by_cases ha : st.architecture_design.truthy
      · rw [if_pos ha] at h
        rcases List.mem_cons.mp h with h2 | h2
        · subst h2
          exact notHistoryPart_of_head _ ('E')
            (strHead_append _ _ _ rfl) (by decide) (by decide) (by decide)
        · have h3 : x = "IMPORTANT: Enhance and extend the existing architecture, don\x27t create a completely new one." := by
            simpa using h2
          subst h3
          exact notHistoryPart_of_head _ ('I') rfl (by decide) (by decide) (by decide)
      · rw [if_neg ha] at h
        simp at h

/-- Claim C4: for a non-empty conversation history the context prompt
parts contain, as one contiguous block, the header line, then exactly
the last six history entries (all of them when there are at most six)
in original order, each rendered as a dash line with role, an
`[ARCHITECTURE UPDATE]` tag for architecture-update messages, and
content truncated to its first 300 characters plus an ellipsis when
longer than 300 characters, then the fixed build-upon instruction
line; no other context part is a dash line, the header or the note.
For an empty history none of this appears. -/
theorem c4_context_prompt_history_block (st : WorkflowState) :
    (st.conversation_history ≠ [] →
      ∃ pre post,
        contextParts st =
          pre ++ "\nPREVIOUS CONVERSATION CONTEXT:" ::
            ((if st.conversation_history.length > 6
                then st.conversation_history.drop (st.conversation_history.length - 6)
                else st.conversation_history).map (fun m =>
              let content := if m.content.length > 300
                then String.mk (m.content.toList.take 300) ++ "..." else m.content
              if m.messageType == "ARCHITECTURE_UPDATE" then
                "- " ++ m.role ++ ": [ARCHITECTURE UPDATE] " ++ content
              else
                "- " ++ m.role ++ ": " ++ content)
            ++ [historyNoteLine]) ++ post ∧
        ∀ x ∈ pre ++ post, notHistoryPart x) ∧
    (st.conversation_history = [] →
      ∀ x ∈ contextParts st, notHistoryPart x) := by
  constructor
  · intro hne
    have hE : st.conversation_history.isEmpty = false := by
      cases hc : st.conversation_history with
      | nil => exact absurd hc hne
      | cons a l => rfl
    have hd := contextParts_decomp st
    rw [hE] at hd
    simp only [Bool.false_eq_true, if_false] at hd
    refine ⟨contextPre st, contextPost st, ?_, contextPrePost_other st⟩
    rw [hd]
    rfl
  · intro he
    have hE : st.conversation_history.isEmpty = true := by rw [he]; rfl
    have hd := contextParts_decomp st
    rw [hE] at hd
    simp only [if_true] at hd
    intro x hx
    rw [hd] at hx
    exact contextPrePost_other st x (by simpa using hx)

/-- Witness for C4: the seven-message history of `c4State` (one
architecture update, one 320-character content) decomposes as
claimed. -/
theorem c4_context_prompt_history_block_witness :
    c4State.conversation_history ≠ [] ∧
    ∃ pre post,
      contextParts c4State =
        pre ++ "\nPREVIOUS CONVERSATION CONTEXT:" ::
          ((if c4State.conversation_history.length > 6
              then c4State.conversation_history.drop (c4State.conversation_history.length - 6)
              else c4State.conversation_history).map (fun m =>
            let content := if m.content.length > 300
              then String.mk (m.content.toList.take 300) ++ "..." else m.content
            if m.messageType == "ARCHITECTURE_UPDATE" then
              "- " ++ m.role ++ ": [ARCHITECTURE UPDATE] " ++ content
            else
              "- " ++ m.role ++ ": " ++ content)
          ++ [historyNoteLine]) ++ post ∧
      ∀ x ∈ pre ++ post, notHistoryPart x :=
  ⟨List.cons_ne_nil _ _,
   (c4_context_prompt_history_block c4State).1 (List.cons_ne_nil _ _)⟩

/- ## Claim C7 -/

theorem mapM_jsonAsNumber_num (qs : List Rat) :
    (qs.map Json.num).mapM jsonAsNumber = some qs := by
  induction qs with
  | nil => rfl
  | cons q t ih =>
    rw [List.map_cons, List.mapM_cons, ih]
    rfl

/-- Claim C7: the overall confidence of the final aggregate is the
arithmetic mean of the `confidence_score` values found among the eight
per-agent output slots (only slots whose mapping carries the key
contribute), and is exactly 0.85 when no slot carries one. -/
theorem c7_overall_confidence_mean (st : WorkflowState) (qs : List Rat)
    (h : collectConfidenceScores (agentOutputs st) = qs.map Json.num) :
    calculateOverallConfidence (agentOutputs st) =
      .ok (if qs = [] then (85 : Rat)/100 else qs.sum / qs.length) := by
  unfold calculateOverallConfidence
  rw [h]
  cases qs with
  | nil => simp
  | cons q t =>
    dsimp only
    rw [mapM_jsonAsNumber_num]
    simp

/-- Witness for C7: with the seven reported scores 0.9, 0.8, 0.85,
0.9, 0.7, 0.95, 0.85 (and a scoreless orchestrator plan) the overall
confidence is their mean 0.85. -/
theorem c7_overall_confidence_mean_witness :
    collectConfidenceScores (agentOutputs c7State)
      = ([9/10, 8/10, 85/100, 9/10, 7/10, 95/100, 85/100] : List Rat).map Json.num ∧
    calculateOverallConfidence (agentOutputs c7State) = .ok ((17 : Rat)/20) := by
  have h : collectConfidenceScores (agentOutputs c7State)
      = ([9/10, 8/10, 85/100, 9/10, 7/10, 95/100, 85/100] : List Rat).map Json.num := rfl
  refine ⟨h, (c7_overall_confidence_mean c7State _ h).trans ?_⟩
  norm_num

/- ## Claim C8 -/

/-- Counterexample to C8 as stated: a clarification question reported
twice by the requirements analysis appears twice in the final
next-questions list — the pooled lists are not deduplicated. -/
theorem c8_no_dedup_counterexample :
    extractComprehensiveQuestions c8State =
      .ok [Json.str "What is the expected user load?",
           Json.str "What is the expected user load?"] ∧
    ¬ ([Json.str "What is the expected user load?",
        Json.str "What is the expected user load?"] : List Json).Nodup :=
  ⟨rfl, by decide⟩

/-- Claim C8 (amended): `next_questions` pools the requirements
analysis' clarification questions with the question fields of the
first two assessment questions of the educational content, and
`suggested_actions` pools the first two business-value milestones with
the first two implementation phases, each rendered as a fixed
sentence; pooling is plain concatenation WITHOUT deduplication, each
list falls back to its static default exactly when its pool is empty,
and each list is capped at 4 entries. -/
theorem c8_questions_actions_pooled_without_dedup (st : WorkflowState) :
    (∀ cqs aqs exq,
      st.requirements_analysis.truthy = true →
      pyGet st.requirements_analysis "clarification_questions" (Json.arr [])
        = .ok (Json.arr cqs) →
      st.educational_content.truthy = true →
      pyGet st.educational_content "assessment_questions" (Json.arr [])
        = .ok (Json.arr aqs) →
      (aqs.take 2).mapM questionField = Except.ok exq →
      extractComprehensiveQuestions st =
        .ok ((let pool := cqs ++ (if aqs.isEmpty then [] else exq);
              if pool.isEmpty then defaultNextQuestions else pool).take 4)) ∧
    (∀ tl ms mls ps pls,
      st.business_impact.truthy = true →
      pyGet st.business_impact "timeline_impact" (Json.obj []) = .ok tl →
      tl.truthy = true →
      pyGet tl "business_value_realization" (Json.arr []) = .ok (Json.arr ms) →
      (ms.take 2).mapM milestoneLine = Except.ok mls →
      st.architecture_design.truthy = true →
      pyGet st.architecture_design "implementation_phases" (Json.arr [])
        = .ok (Json.arr ps) →
      (ps.take 2).mapM phaseLine = Except.ok pls →
      extractComprehensiveActions st =
        .ok ((let pool := (if ms.isEmpty then [] else mls)
                ++ (if ps.isEmpty then [] else pls);
              if pool.isEmpty then defaultSuggestedActions else pool).take 4)) := by
  constructor
  · intro cqs aqs exq h1 h2 h3 h4 h5
    unfold extractComprehensiveQuestions
    rw [h1]
    by_cases haq : aqs.isEmpty
    · have haqs : aqs = [] := by
        cases aqs with
        | nil => rfl
        | cons a l => simp at haq
      subst haqs
      have ht0 : (Json.arr ([] : List Json)).truthy = false := rfl
      simp [h2, h3, h4, ht0, Bind.bind, Except.bind, pyIter, pure, Except.pure]
    · have htr : (Json.arr aqs).truthy = true := by
        simp [Json.truthy, haq]
      have h5L : List.mapM.loop questionField (aqs.take 2) [] = Except.ok exq := h5
      simp [h2, h3, h4, htr, h5L, haq, Bind.bind, Except.bind, pyIter,
        pySliceTake, pure, Except.pure]
  · intro tl ms mls ps pls g1 g2 g3 g4 g5 g6 g7 g8
    unfold extractComprehensiveActions
    rw [g1]
    have ht0 : (Json.arr ([] : List Json)).truthy = false := rfl
    by_cases hms : ms.isEmpty
    · have hms0 : ms = [] := by
        cases ms with
        | nil => rfl
        | cons a l => simp at hms
      subst hms0
      by_cases hps : ps.isEmpty
      · have hps0 : ps = [] := by
          cases ps with
          | nil => rfl
          | cons a l => simp at hps
        subst hps0
        simp [g2, g3, g4, g6, g7, ht0, Bind.bind, Except.bind, pyIter,
          pySliceTake, pure, Except.pure]
      · have htrp : (Json.arr ps).truthy = true := by
          simp [Json.truthy, hps]
        have g8L : List.mapM.loop phaseLine (ps.take 2) [] = Except.ok pls := g8
        simp [g2, g3, g4, g6, g7, g8L, ht0, htrp, hps, Bind.bind, Except.bind,
          pyIter, pySliceTake, pure, Except.pure]
    · have htrm : (Json.arr ms).truthy = true := by
        simp [Json.truthy, hms]
      have g5L : List.mapM.loop milestoneLine (ms.take 2) [] = Except.ok mls := g5
      by_cases hps : ps.isEmpty
      · have hps0 : ps = [] := by
          cases ps with
          | nil => rfl
          | cons a l => simp at hps
        subst hps0
        simp [g2, g3, g4, g5L, g6, g7, ht0, htrm, hms, Bind.bind, Except.bind,
          pyIter, pySliceTake, pure, Except.pure]
      · have htrp : (Json.arr ps).truthy = true := by
          simp [Json.truthy, hps]
        have g8L : List.mapM.loop phaseLine (ps.take 2) [] = Except.ok pls := g8
        simp [g2, g3, g4, g5L, g6, g7, g8L, htrm, htrp, hms, hps, Bind.bind,
          Except.bind, pyIter, pySliceTake, pure, Except.pure]

/-- Witness for C8 (amended): on a fully populated state the two
duplicate clarification questions and the first two assessment
questions pool (with the duplicate kept), and the milestone and phase
lines pool, without fallback. -/
theorem c8_questions_actions_pooled_without_dedup_witness :
    extractComprehensiveQuestions c8AmState =
      .ok [Json.str "What is the expected user load?",
           Json.str "What is the expected user load?",
           Json.str "Q3?", Json.str "Q4?"] ∧
    extractComprehensiveActions c8AmState =
      .ok [Json.str "Achieve MVP within 3 months",
           Json.str "Phase 1: Foundation (4 weeks)"] := by
  constructor
  · exact ((c8_questions_actions_pooled_without_dedup c8AmState).1
      [Json.str "What is the expected user load?",
       Json.str "What is the expected user load?"]
      [Json.obj [("question", Json.str "Q3?")],
       Json.obj [("question", Json.str "Q4?")],
       Json.obj [("question", Json.str "Q5?")]]
      [Json.str "Q3?", Json.str "Q4?"]
      rfl rfl rfl rfl rfl).trans (by rfl)
  · exact ((c8_questions_actions_pooled_without_dedup c8AmState).2
      (Json.obj [("business_value_realization", Json.arr
        [Json.obj [("milestone", Json.str "MVP"),
                   ("timeline", Json.str "3 months")]])])
      [Json.obj [("milestone", Json.str "MVP"), ("timeline", Json.str "3 months")]]
      [Json.str "Achieve MVP within 3 months"]
      [Json.obj [("phase", Json.str "1"), ("name", Json.str "Foundation"),
                 ("duration", Json.str "4 weeks")]]
      [Json.str "Phase 1: Foundation (4 weeks)"]
      rfl rfl rfl rfl rfl rfl rfl rfl).trans (by rfl)

/- ## Claim C10 -/

/-- Counterexample to C10 as stated: a truthy state-slot architecture
with no component list is accepted as the existing architecture, and
when the model returns the empty object the validator substitutes that
(absent, hence empty) component list — the parse-and-validate path
returns an architecture whose components list is empty. -/
theorem c10_empty_components_counterexample :
    c10Existing.truthy = true ∧
    (parseArchitectureResponse c10Loads c10Existing c10Response).getD "components" Json.null
      = Json.arr [] :=
  ⟨rfl, rfl⟩

theorem fallback_components_shape :
    ∃ c0 cs, pyGet fallbackArchitecture "components" (Json.arr [])
      = .ok (Json.arr (c0 :: cs)) :=
  ⟨_, _, rfl⟩

theorem fallback_connections_shape :
    ∃ w, pyGet fallbackArchitecture "connections" (Json.arr []) = .ok w :=
  ⟨_, rfl⟩

theorem lookupField_archDefaults_components :
    lookupField archDesignDefaults "components" = some (Json.arr []) := rfl

theorem recoverArch_components (existing : Json)
    (hex : existing.truthy = false ∨
      ∃ efs e0 es, existing = Json.obj efs ∧
        lookupField efs "components" = some (Json.arr (e0 :: es))) :
    ∃ ys, ys ≠ [] ∧
      (if existing.truthy then existing else fallbackArchitecture).getD
        "components" Json.null = Json.arr ys := by
  rcases hex with hf | ⟨efs, e0, es, he, hl⟩
  · rw [hf]
    simp only [Bool.false_eq_true, if_false]
    refine ⟨_, ?_, rfl⟩
    simp
  · subst he
    have htr : (Json.obj efs).truthy = true := by
      have hne : efs ≠ [] :=
        ne_nil_of_lookup_isSome efs "components" (by rw [hl]; rfl)
      simp [Json.truthy, hne]
    rw [htr]
    simp only [if_true]
    exact ⟨e0 :: es, List.cons_ne_nil e0 es, by simp [Json.getD, Json.get?, hl]⟩

theorem ensureVizAll_arr_ok {dflt : Json} {xs : List Json} {out : Json}
    (h : ensureVizAll dflt (Json.arr xs) = .ok out) :
    ∃ ys, out = Json.arr ys ∧ ys.length = xs.length := by
  have h2 : Except.map Json.arr (xs.mapM (ensureVizMetadata dflt)) = Except.ok out := h
  cases hm : xs.mapM (ensureVizMetadata dflt) with
  | error e => rw [hm] at h2; simp [Except.map] at h2
  | ok ys =>
    rw [hm] at h2
    simp [Except.map] at h2
    exact ⟨ys, h2.symm, mapM_ok_length hm⟩

theorem lookup_setFields_comp (fs : List (String × Json)) (cv kv : Json) :
    lookupField (setField (setField fs "components" kv) "connections" cv)
      "components" = some kv := by
  rw [lookupField_setField_ne _ _ _ _ (by decide)]
  exact lookupField_setField_self _ _ _

theorem substituteComponents_of_truthy (existing : Json) (fs : List (String × Json))
    (h : ((lookupField fs "components").getD Json.null).truthy = true) :
    substituteComponents existing fs = .ok fs := by
  simp [substituteComponents, h, pure, Except.pure]

theorem substituteComponents_existing (existing : Json) (efs fs : List (String × Json))
    (v : Json)
    (he : existing = Json.obj efs)
    (hl : lookupField efs "components" = some v)
    (hcm : ((lookupField fs "components").getD Json.null).truthy = false) :
    substituteComponents existing fs =
      .ok (setField (setField fs "components" v) "connections"
        ((lookupField efs "connections").getD (Json.arr []))) := by
  subst he
  have htr : (Json.obj efs).truthy = true := by
    have hne : efs ≠ [] :=
      ne_nil_of_lookup_isSome efs "components" (by rw [hl]; rfl)
    simp [Json.truthy, hne]
  simp [substituteComponents, hcm, htr, pyGet, hl, Bind.bind, Except.bind,
    pure, Except.pure]

theorem substituteComponents_fallback (existing : Json) (fs : List (String × Json))
    (hf : existing.truthy = false)
    (hcm : ((lookupField fs "components").getD Json.null).truthy = false) :
    ∃ c0 cs fcon,
      substituteComponents existing fs =
        .ok (setField (setField fs "components" (Json.arr (c0 :: cs)))
          "connections" fcon) := by
  obtain ⟨c0, cs, hfb⟩ := fallback_components_shape
  obtain ⟨w, hfc⟩ := fallback_connections_shape
  refine ⟨c0, cs, w, ?_⟩
  simp [substituteComponents, hcm, hf, hfb, hfc, Bind.bind, Except.bind,
    pure, Except.pure]

theorem attachViz_components (fs : List (String × Json)) (zs : List Json)
    (out : List (String × Json))
    (hc : lookupField fs "components" = some (Json.arr zs))
    (h : attachViz fs = .ok out) :
    ∃ ys, ys.length = zs.length ∧
      lookupField out "components" = some (Json.arr ys) := by
  unfold attachViz at h
  dsimp only at h
  rw [hc] at h
  simp only [Option.getD_some] at h
  cases hm : ensureVizAll vizDefaultComponent (Json.arr zs) with
  | error e => rw [hm] at h; simp [Bind.bind, Except.bind] at h
  | ok c3 =>
    rw [hm] at h
    simp only [Bind.bind, Except.bind] at h
    obtain ⟨ys, hys, hlen⟩ := ensureVizAll_arr_ok hm
    subst hys
    cases hm2 : ensureVizAll vizDefaultConnection
        ((lookupField (setField fs "components" (Json.arr ys)) "connections").getD
          (Json.arr [])) with
    | error e => rw [hm2] at h; simp at h
    | ok c32 =>
      rw [hm2] at h
      simp only [pure, Except.pure, Except.ok.injEq] at h
      refine ⟨ys, hlen, ?_⟩
      rw [← h]
      exact lookup_setFields_comp _ _ _

theorem validateArch_components (existing design out : Json)
    (hex : existing.truthy = false ∨
      ∃ efs e0 es, existing = Json.obj efs ∧
        lookupField efs "components" = some (Json.arr (e0 :: es)))
    (hc : ∀ fs w, design = Json.obj fs → lookupField fs "components" = some w →
      w.truthy = true → ∃ xs, w = Json.arr xs)
    (hv : validateArchitectureDesign existing design = .ok out) :
    ∃ ys, ys ≠ [] ∧ out.getD "components" Json.null = Json.arr ys := by
  cases design with
  | obj fs0 =>
    have hv2 : (substituteComponents existing (setdefaults fs0 archDesignDefaults) >>=
        fun fs => attachViz fs >>= fun fs2 => pure (Json.obj fs2)) = Except.ok out := hv
    obtain ⟨F2, hF2, hrest⟩ := except_bind_ok hv2
    obtain ⟨out2, hviz, hpure⟩ := except_bind_ok hrest
    simp only [pure, Except.pure, Except.ok.injEq] at hpure
    have hfin : ∀ zs : List Json, zs ≠ [] →
        lookupField F2 "components" = some (Json.arr zs) →
        ∃ ys, ys ≠ [] ∧ out.getD "components" Json.null = Json.arr ys := by
      intro zs hzs hlf
      obtain ⟨ys, hlen, hys⟩ := attachViz_components F2 zs out2 hlf hviz
      refine ⟨ys, ?_, ?_⟩
      · intro h0
        rw [h0] at hlen
        cases zs with
        | nil => exact hzs rfl
        | cons a t => simp at hlen
      · rw [← hpure]
        simp [Json.getD, Json.get?, hys]
    by_cases hcm :
        ((lookupField (setdefaults fs0 archDesignDefaults) "components").getD
          Json.null).truthy = true
    · rw [substituteComponents_of_truthy existing _ hcm] at hF2
      simp only [Except.ok.injEq] at hF2
      have hlk := lookupField_setdefaults fs0 archDesignDefaults "components"
      cases hl0 : lookupField fs0 "components" with
      | none =>
        rw [hl0] at hlk
        simp only at hlk
        rw [hlk] at hcm
        simp [lookupField_archDefaults_components, Json.truthy] at hcm
      | some w =>
        rw [hl0] at hlk
        simp only at hlk
        rw [hlk] at hcm
        simp only [Option.getD_some] at hcm
        obtain ⟨xs, hxs⟩ := hc fs0 w rfl hl0 hcm
        subst hxs
        have hxs0 : xs ≠ [] := by
          intro h0
          rw [h0] at hcm
          simp [Json.truthy] at hcm
        exact hfin xs hxs0 (by rw [← hF2, hlk])
    · rw [Bool.not_eq_true] at hcm
      rcases hex with hf | ⟨efs, e0, es, he, hl⟩
      · obtain ⟨c0, cs, fcon, heq⟩ :=
          substituteComponents_fallback existing
            (setdefaults fs0 archDesignDefaults) hf hcm
        rw [heq] at hF2
        simp only [Except.ok.injEq] at hF2
        exact hfin (c0 :: cs) (List.cons_ne_nil c0 cs)
          (by rw [← hF2]; exact lookup_setFields_comp _ _ _)
      · have heq := substituteComponents_existing existing efs
          (setdefaults fs0 archDesignDefaults) (Json.arr (e0 :: es)) he hl hcm
        rw [heq] at hF2
        simp only [Except.ok.injEq] at hF2
        exact hfin (e0 :: es) (List.cons_ne_nil e0 es)
          (by rw [← hF2]; exact lookup_setFields_comp _ _ _)
  | null => exact Except.noConfusion hv
  | bool b => exact Except.noConfusion hv
  | num q => exact Except.noConfusion hv
  | str s => exact Except.noConfusion hv
  | arr xs => exact Except.noConfusion hv

/-- Claim C10 (amended): provided the identified existing architecture
is either absent (falsy) or carries a non-empty components array, and
any truthy components value of the deserialized model output is an
array, every architecture the parse-and-validate path returns carries
a non-empty components array — the validator substitutes the existing
architecture\x27s components (or the static fallback\x27s four) when
the model output\x27s list is missing or empty. Without the proviso on
the existing architecture the property fails (see the
counterexample). -/
theorem c10_parse_validate_components_nonempty
    (loads : String → Option Json) (existing : Json) (response : String)
    (hex : existing.truthy = false ∨
      ∃ efs e0 es, existing = Json.obj efs ∧
        lookupField efs "components" = some (Json.arr (e0 :: es)))
    (hwf : ∀ s fs w, extractJsonStr response = some s →
      loads s = some (Json.obj fs) → lookupField fs "components" = some w →
      w.truthy = true → ∃ xs, w = Json.arr xs) :
    ∃ ys, ys ≠ [] ∧
      (parseArchitectureResponse loads existing response).getD "components" Json.null
        = Json.arr ys := by
  unfold parseArchitectureResponse
  cases hx : extractJsonStr response with
  | none => exact recoverArch_components existing hex
  | some s =>
    dsimp only
    cases hv : loads s with
    | none => exact recoverArch_components existing hex
    | some v =>
      dsimp only
      cases hval : validateArchitectureDesign existing v with
      | error e => exact recoverArch_components existing hex
      | ok d =>
        exact validateArch_components existing v d hex
          (fun fs w hfs hw ht => hwf s fs w hx (by rw [← hfs]; exact hv) hw ht)
          hval

/-- Witness for C10 (amended): with the `c2Existing` architecture (one
component) stored and a completion that deserializes to the empty
object, the parse-and-validate path returns a non-empty components
array. -/
theorem c10_parse_validate_components_nonempty_witness :
    ∃ ys, ys ≠ [] ∧
      (parseArchitectureResponse c10Loads c2Existing c10Response).getD
        "components" Json.null = Json.arr ys :=
  c10_parse_validate_components_nonempty c10Loads c2Existing c10Response
    (Or.inr ⟨_, _, _, rfl, rfl⟩)
    (fun s fs w _ hl => by
      simp [c10Loads] at hl
      rcases hl with ⟨hs, hfs⟩
      rw [hfs]
      intro hw
      simp [lookupField] at hw)

/- ## Claim C6 -/

theorem nonEmptyMapping_obj_cons (kv : String × Json) (fs : List (String × Json)) :
    nonEmptyMapping (Json.obj (kv :: fs)) := ⟨kv :: fs, rfl, by simp⟩

theorem setD_nonEmpty (k : String) (x : Json) {v : Json} (h : nonEmptyMapping v) :
    nonEmptyMapping (v.setD k x) := by
  obtain ⟨fs, rfl, hne⟩ := h
  exact ⟨setField fs k x, rfl, setField_ne_nil fs k x⟩

theorem setdefaults_ne_nil_of_key (fs kvs : List (String × Json)) (k : String)
    (v : Json) (h : lookupField kvs k = some v) : setdefaults fs kvs ≠ [] := by
  apply ne_nil_of_lookup_isSome _ k
  rw [lookupField_setdefaults]
  cases h2 : lookupField fs k with
  | some w => simp
  | none => simp [h]

theorem forceAgent_ok_ne {a : String} {fs fs2 : List (String × Json)}
    (h : forceAgent a fs = .ok fs2) (hne : fs ≠ []) : fs2 ≠ [] := by
  obtain ⟨has, _, h2⟩ := except_bind_ok h
  cases hw : has with
  | true =>
    rw [hw] at h2
    simp only [Bool.not_true, Bool.false_eq_true, if_false, pure, Except.pure,
      Except.ok.injEq] at h2
    rw [← h2]
    exact hne
  | false =>
    rw [hw] at h2
    simp only [Bool.not_false, if_true] at h2
    obtain ⟨ag2, _, hpu⟩ := except_bind_ok h2
    simp only [pure, Except.pure, Except.ok.injEq] at hpu
    rw [← hpu]
    exact setField_ne_nil _ _ _

theorem normalizeWorkflowType_ne (fs : List (String × Json)) (hne : fs ≠ []) :
    normalizeWorkflowType fs ≠ [] := by
  unfold normalizeWorkflowType
  try dsimp only
  split
  · exact hne
  · exact setField_ne_nil _ _ _

theorem validateOrchestrationPlan_ok_nonEmpty {fs : List (String × Json)} {p : Json}
    (h : validateOrchestrationPlan fs = .ok p) : nonEmptyMapping p := by
  obtain ⟨fs1, hf1, h2⟩ := except_bind_ok h
  obtain ⟨fs2, hf2, h3⟩ := except_bind_ok h2
  simp only [pure, Except.pure, Except.ok.injEq] at h3
  have hF0 : setdefaults fs orchestratorPlanDefaults ≠ [] :=
    setdefaults_ne_nil_of_key _ _ "workflow_type" (Json.str "SEQUENTIAL") rfl
  have hfs1 := forceAgent_ok_ne hf1 hF0
  have hfs2 := forceAgent_ok_ne hf2 hfs1
  rw [← h3]
  exact ⟨_, rfl, normalizeWorkflowType_ne fs2 hfs2⟩

theorem parseOrchestration_nonEmpty (loads : String → Option Json)
    (response : String) :
    nonEmptyMapping (parseOrchestrationResponse loads response) := by
  unfold parseOrchestrationResponse
  cases hg : regexBraceSpan response with
  | none => exact nonEmptyMapping_obj_cons _ _
  | some g =>
    try dsimp only
    cases hv : loads g with
    | none => exact nonEmptyMapping_obj_cons _ _
    | some v =>
      try dsimp only
      cases v with
      | obj fs =>
        try dsimp only
        cases hval : validateOrchestrationPlan fs with
        | ok p => exact validateOrchestrationPlan_ok_nonEmpty hval
        | error e => exact nonEmptyMapping_obj_cons _ _
      | null => exact nonEmptyMapping_obj_cons _ _
      | bool b => exact nonEmptyMapping_obj_cons _ _
      | num q => exact nonEmptyMapping_obj_cons _ _
      | str s => exact nonEmptyMapping_obj_cons _ _
      | arr xs => exact nonEmptyMapping_obj_cons _ _

theorem validateRequirementsAnalysis_nonEmpty (plan : List (String × Json)) :
    nonEmptyMapping (validateRequirementsAnalysis plan) := by
  have gen : ∀ fs1 : List (String × Json), fs1 ≠ [] →
      (match lookupField fs1 "non_functional_requirements" with
       | some (Json.arr _) => fs1
       | _ => setField fs1 "non_functional_requirements" (Json.arr [])) ≠ [] := by
    intro fs1 h1
    split
    · exact h1
    · exact setField_ne_nil _ _ _
  have gen2 : ∀ fs1 : List (String × Json), fs1 ≠ [] →
      (match lookupField fs1 "functional_requirements" with
       | some (Json.arr _) => fs1
       | _ => setField fs1 "functional_requirements" (Json.arr [])) ≠ [] := by
    intro fs1 h1
    split
    · exact h1
    · exact setField_ne_nil _ _ _
  have hF0 : setdefaults plan
      [("functional_requirements", Json.arr []),
       ("non_functional_requirements", Json.arr []),
       ("business_requirements", Json.arr []),
       ("constraints", Json.arr []),
       ("risks", Json.arr []),
       ("clarification_questions", Json.arr []),
       ("priority_matrix", Json.obj [])] ≠ [] :=
    setdefaults_ne_nil_of_key _ _ "functional_requirements" (Json.arr []) rfl
  exact ⟨_, rfl, gen _ (gen2 _ hF0)⟩

theorem parseRequirements_nonEmpty (loads : String → Option Json)
    (response : String) :
    nonEmptyMapping (parseRequirementsResponse loads response) := by
  unfold parseRequirementsResponse
  cases hg : regexBraceSpan response with
  | none => exact nonEmptyMapping_obj_cons _ _
  | some g =>
    try dsimp only
    cases hv : loads g with
    | none => exact nonEmptyMapping_obj_cons _ _
    | some v =>
      try dsimp only
      cases v with
      | obj fs => exact validateRequirementsAnalysis_nonEmpty fs
      | null => exact nonEmptyMapping_obj_cons _ _
      | bool b => exact nonEmptyMapping_obj_cons _ _
      | num q => exact nonEmptyMapping_obj_cons _ _
      | str s => exact nonEmptyMapping_obj_cons _ _
      | arr xs => exact nonEmptyMapping_obj_cons _ _

theorem parseResearch_nonEmpty (loads : String → Option Json) (response : String) :
    nonEmptyMapping (parseResearchResponse loads response) := by
  unfold parseResearchResponse
  cases hx : extractJsonStr response with
  | none => exact nonEmptyMapping_obj_cons _ _
  | some s =>
    try dsimp only
    cases hv : loads s with
    | none => exact nonEmptyMapping_obj_cons _ _
    | some v =>
      try dsimp only
      cases v with
      | obj fs =>
        refine ⟨_, rfl, ?_⟩
        exact setdefaults_ne_nil_of_key _ _ "confidence_score" (Json.num (8/10)) rfl
      | null => exact nonEmptyMapping_obj_cons _ _
      | bool b => exact nonEmptyMapping_obj_cons _ _
      | num q => exact nonEmptyMapping_obj_cons _ _
      | str s2 => exact nonEmptyMapping_obj_cons _ _
      | arr xs => exact nonEmptyMapping_obj_cons _ _

theorem orchestratorProcess_slot (o : Oracles) (st : WorkflowState) :
    nonEmptyMapping ((orchestratorProcess o st).getD "orchestrator_plan" (Json.obj [])) := by
  unfold orchestratorProcess
  split
  · exact parseOrchestration_nonEmpty o.loads _
  · exact nonEmptyMapping_obj_cons _ _

theorem requirementsProcess_slot (o : Oracles) (st : WorkflowState) :
    nonEmptyMapping ((requirementsProcess o st).getD "requirements_analysis" (Json.obj [])) := by
  unfold requirementsProcess
  split
  · exact parseRequirements_nonEmpty o.loads _
  · exact nonEmptyMapping_obj_cons _ _

theorem researchProcess_slot (o : Oracles) (st : WorkflowState) :
    nonEmptyMapping ((researchProcess o st).getD "research_data" (Json.obj [])) := by
  unfold researchProcess
  split
  case _ r heq =>
    obtain ⟨prompt, _, h2⟩ := except_bind_ok heq
    obtain ⟨resp, _, h3⟩ := except_bind_ok h2
    obtain ⟨rd2, hrd2, h5⟩ := except_bind_ok h3
    obtain ⟨conf, _, h6⟩ := except_bind_ok h5
    simp only [pure, Except.pure, Except.ok.injEq] at h6
    rw [← h6]
    have hbase : nonEmptyMapping (parseResearchResponse o.loads resp) :=
      parseResearch_nonEmpty o.loads resp
    obtain ⟨sq, _, g1⟩ := except_bind_ok hrd2
    by_cases hsq : sq.truthy = true
    · rw [if_pos hsq] at g1
      obtain ⟨sq3, _, g2⟩ := except_bind_ok g1
      obtain ⟨queries, _, g3⟩ := except_bind_ok g2
      obtain ⟨searchResults, _, g4⟩ := except_bind_ok g3
      simp only [pure, Except.pure, Except.ok.injEq] at g4
      rw [← g4]
      exact setD_nonEmpty _ _ hbase
    · rw [if_neg hsq] at g1
      simp only [pure, Except.pure, Except.ok.injEq] at g1
      rw [← g1]
      exact hbase
  case _ e heq => exact nonEmptyMapping_obj_cons _ _

theorem architectureProcess_slot (o : Oracles) (st : WorkflowState) :
    nonEmptyMapping ((architectureProcess o st).getD "architecture_design" (Json.obj [])) := by
  unfold architectureProcess
  split
  case _ r heq =>
    obtain ⟨existing, _, h2⟩ := except_bind_ok heq
    obtain ⟨ca, _, h3⟩ := except_bind_ok h2
    obtain ⟨prompt, _, h4⟩ := except_bind_ok h3
    obtain ⟨resp, _, h5⟩ := except_bind_ok h4
    obtain ⟨viz, _, h6⟩ := except_bind_ok h5
    obtain ⟨design2, hdes, h7⟩ := except_bind_ok h6
    obtain ⟨conf, _, h8⟩ := except_bind_ok h7
    simp only [pure, Except.pure, Except.ok.injEq] at h8
    rw [← h8]
    obtain ⟨gs, hgs, hne⟩ := pySetItem_ok_shape hdes
    exact ⟨gs, by rw [hgs]; rfl, hne⟩
  case _ e heq => exact nonEmptyMapping_obj_cons _ _

theorem whyReasoningProcess_slot (o : Oracles) (st : WorkflowState) :
    nonEmptyMapping ((whyReasoningProcess o st).getD "why_reasoning" (Json.obj [])) := by
  unfold whyReasoningProcess
  split
  case _ r heq =>
    obtain ⟨prompt, _, h2⟩ := except_bind_ok heq
    obtain ⟨resp, _, h3⟩ := except_bind_ok h2
    obtain ⟨rationale, _, h4⟩ := except_bind_ok h3
    obtain ⟨whyData2, hdes, h5⟩ := except_bind_ok h4
    obtain ⟨conf, _, h6⟩ := except_bind_ok h5
    simp only [pure, Except.pure, Except.ok.injEq] at h6
    rw [← h6]
    obtain ⟨gs, hgs, hne⟩ := pySetItem_ok_shape hdes
    exact ⟨gs, by rw [hgs]; rfl, hne⟩
  case _ e heq => exact nonEmptyMapping_obj_cons _ _

theorem businessImpactProcess_slot (o : Oracles) (st : WorkflowState) :
    nonEmptyMapping ((businessImpactProcess o st).getD "business_impact" (Json.obj [])) := by
  unfold businessImpactProcess
  split
  case _ r heq =>
    obtain ⟨prompt, _, h2⟩ := except_bind_ok heq
    obtain ⟨resp, _, h3⟩ := except_bind_ok h2
    obtain ⟨impact2, hdes, h4⟩ := except_bind_ok h3
    obtain ⟨conf, _, h5⟩ := except_bind_ok h4
    simp only [pure, Except.pure, Except.ok.injEq] at h5
    rw [← h5]
    obtain ⟨gs, hgs, hne⟩ := pySetItem_ok_shape hdes
    exact ⟨gs, by rw [hgs]; rfl, hne⟩
  case _ e heq => exact nonEmptyMapping_obj_cons _ _

theorem educationalProcess_slot (o : Oracles) (st : WorkflowState) :
    nonEmptyMapping ((educationalProcess o st).getD "educational_content" (Json.obj [])) := by
  unfold educationalProcess
  split
  case _ r heq =>
    obtain ⟨prompt, _, h2⟩ := except_bind_ok heq
    obtain ⟨resp, _, h3⟩ := except_bind_ok h2
    obtain ⟨path, _, h4⟩ := except_bind_ok h3
    obtain ⟨content2, hdes, h5⟩ := except_bind_ok h4
    obtain ⟨conf, _, h6⟩ := except_bind_ok h5
    simp only [pure, Except.pure, Except.ok.injEq] at h6
    rw [← h6]
    obtain ⟨gs, hgs, hne⟩ := pySetItem_ok_shape hdes
    exact ⟨gs, by rw [hgs]; rfl, hne⟩
  case _ e heq => exact nonEmptyMapping_obj_cons _ _

theorem documentationProcess_slot (o : Oracles) (st : WorkflowState) :
    nonEmptyMapping ((documentationProcess o st).getD "documentation" (Json.obj [])) := by
  unfold documentationProcess
  split
  case _ r heq =>
    obtain ⟨prompt, _, h2⟩ := except_bind_ok heq
    obtain ⟨resp, _, h3⟩ := except_bind_ok h2
    obtain ⟨exports, _, h4⟩ := except_bind_ok h3
    obtain ⟨docData2, hdes, h5⟩ := except_bind_ok h4
    obtain ⟨conf, _, h6⟩ := except_bind_ok h5
    simp only [pure, Except.pure, Except.ok.injEq] at h6
    rw [← h6]
    obtain ⟨gs, hgs, hne⟩ := pySetItem_ok_shape hdes
    exact ⟨gs, by rw [hgs]; rfl, hne⟩
  case _ e heq => exact nonEmptyMapping_obj_cons _ _

/- ## Claim C6: step preservation and the invariant -/

theorem slotOf_stepOrchestrator (o : Oracles) (st : WorkflowState) (name : String)
    (hn : name ≠ "orchestrator") :
    slotOf (stepOrchestrator o st) name = slotOf st name := by
  unfold stepOrchestrator slotOf
  split <;> first | rfl | exact absurd rfl hn

theorem stepOrchestrator_preserves (o : Oracles) (st : WorkflowState)
    (h : slotsInv st) : slotsInv (stepOrchestrator o st) := by
  intro name hmem
  have hmem2 : name ∈ st.completed_steps ∨ name = "orchestrator" := by
    simpa [stepOrchestrator] using hmem
  by_cases hn : name = "orchestrator"
  · subst hn
    exact orchestratorProcess_slot o st
  · rw [slotOf_stepOrchestrator o st name hn]
    rcases hmem2 with hm | hm
    · exact h name hm
    · exact absurd hm hn

theorem slotOf_stepRequirements (o : Oracles) (st : WorkflowState) (name : String)
    (hn : name ≠ "requirements") :
    slotOf (stepRequirements o st) name = slotOf st name := by
  unfold stepRequirements slotOf
  split <;> first | rfl | exact absurd rfl hn

theorem stepRequirements_preserves (o : Oracles) (st : WorkflowState)
    (h : slotsInv st) : slotsInv (stepRequirements o st) := by
  intro name hmem
  have hmem2 : name ∈ st.completed_steps ∨ name = "requirements" := by
    simpa [stepRequirements] using hmem
  by_cases hn : name = "requirements"
  · subst hn
    exact requirementsProcess_slot o st
  · rw [slotOf_stepRequirements o st name hn]
    rcases hmem2 with hm | hm
    · exact h name hm
    · exact absurd hm hn

theorem slotOf_stepResearch (o : Oracles) (st : WorkflowState) (name : String)
    (hn : name ≠ "research") :
    slotOf (stepResearch o st) name = slotOf st name := by
  unfold stepResearch slotOf
  split <;> first | rfl | exact absurd rfl hn

theorem stepResearch_preserves (o : Oracles) (st : WorkflowState)
    (h : slotsInv st) : slotsInv (stepResearch o st) := by
  intro name hmem
  have hmem2 : name ∈ st.completed_steps ∨ name = "research" := by
    simpa [stepResearch] using hmem
  by_cases hn : name = "research"
  · subst hn
    exact researchProcess_slot o st
  · rw [slotOf_stepResearch o st name hn]
    rcases hmem2 with hm | hm
    · exact h name hm
    · exact absurd hm hn

theorem slotOf_stepArchitecture (o : Oracles) (st : WorkflowState) (name : String)
    (hn : name ≠ "architecture") :
    slotOf (stepArchitecture o st) name = slotOf st name := by
  unfold stepArchitecture slotOf
  split <;> first | rfl | exact absurd rfl hn

theorem stepArchitecture_preserves (o : Oracles) (st : WorkflowState)
    (h : slotsInv st) : slotsInv (stepArchitecture o st) := by
  intro name hmem
  have hmem2 : name ∈ st.completed_steps ∨ name = "architecture" := by
    simpa [stepArchitecture] using hmem
  by_cases hn : name = "architecture"
  · subst hn
    exact architectureProcess_slot o st
  · rw [slotOf_stepArchitecture o st name hn]
    rcases hmem2 with hm | hm
    · exact h name hm
    · exact absurd hm hn

theorem slotOf_stepWhyReasoning (o : Oracles) (st : WorkflowState) (name : String)
    (hn : name ≠ "why_reasoning") :
    slotOf (stepWhyReasoning o st) name = slotOf st name := by
  unfold stepWhyReasoning slotOf
  split <;> first | rfl | exact absurd rfl hn

theorem stepWhyReasoning_preserves (o : Oracles) (st : WorkflowState)
    (h : slotsInv st) : slotsInv (stepWhyReasoning o st) := by
  intro name hmem
  have hmem2 : name ∈ st.completed_steps ∨ name = "why_reasoning" := by
    simpa [stepWhyReasoning] using hmem
  by_cases hn : name = "why_reasoning"
  · subst hn
    exact whyReasoningProcess_slot o st
  · rw [slotOf_stepWhyReasoning o st name hn]
    rcases hmem2 with hm | hm
    · exact h name hm
    · exact absurd hm hn

theorem slotOf_stepBusinessImpact (o : Oracles) (st : WorkflowState) (name : String)
    (hn : name ≠ "business_impact") :
    slotOf (stepBusinessImpact o st) name = slotOf st name := by
  unfold stepBusinessImpact slotOf
  split <;> first | rfl | exact absurd rfl hn

theorem stepBusinessImpact_preserves (o : Oracles) (st : WorkflowState)
    (h : slotsInv st) : slotsInv (stepBusinessImpact o st) := by
  intro name hmem
  have hmem2 : name ∈ st.completed_steps ∨ name = "business_impact" := by
    simpa [stepBusinessImpact] using hmem
  by_cases hn : name = "business_impact"
  · subst hn
    exact businessImpactProcess_slot o st
  · rw [slotOf_stepBusinessImpact o st name hn]
    rcases hmem2 with hm | hm
    · exact h name hm
    · exact absurd hm hn

theorem slotOf_stepEducational (o : Oracles) (st : WorkflowState) (name : String)
    (hn : name ≠ "educational") :
    slotOf (stepEducational o st) name = slotOf st name := by
  unfold stepEducational slotOf
  split <;> first | rfl | exact absurd rfl hn

theorem stepEducational_preserves (o : Oracles) (st : WorkflowState)
    (h : slotsInv st) : slotsInv (stepEducational o st) := by
  intro name hmem
  have hmem2 : name ∈ st.completed_steps ∨ name = "educational" := by
    simpa [stepEducational] using hmem
  by_cases hn : name = "educational"
  · subst hn
    exact educationalProcess_slot o st
  · rw [slotOf_stepEducational o st name hn]
    rcases hmem2 with hm | hm
    · exact h name hm
    · exact absurd hm hn

theorem slotOf_stepDocumentation (o : Oracles) (st : WorkflowState) (name : String)
    (hn : name ≠ "documentation") :
    slotOf (stepDocumentation o st) name = slotOf st name := by
  unfold stepDocumentation slotOf
  split <;> first | rfl | exact absurd rfl hn

theorem stepDocumentation_preserves (o : Oracles) (st : WorkflowState)
    (h : slotsInv st) : slotsInv (stepDocumentation o st) := by
  intro name hmem
  have hmem2 : name ∈ st.completed_steps ∨ name = "documentation" := by
    simpa [stepDocumentation] using hmem
  by_cases hn : name = "documentation"
  · subst hn
    exact documentationProcess_slot o st
  · rw [slotOf_stepDocumentation o st name hn]
    rcases hmem2 with hm | hm
    · exact h name hm
    · exact absurd hm hn

/-- Claim C6: along the whole execution — the initial state and the
state after each of the eight steps — every step name recorded in
`completed_steps` has a non-empty mapping in its output slot, for
every oracle (so also under total completion-client or parsing
failure). -/
theorem c6_completed_steps_slots_nonempty (o : Oracles) (st : WorkflowState)
    (hinit : st.completed_steps = []) :
    ∀ s ∈ workflowStates o st, slotsInv s := by
  have h0 : slotsInv st := by
    intro name hmem
    rw [hinit] at hmem
    simp at hmem
  have h1 := stepOrchestrator_preserves o st h0
  have h2 := stepRequirements_preserves o _ h1
  have h3 := stepResearch_preserves o _ h2
  have h4 := stepArchitecture_preserves o _ h3
  have h5 := stepWhyReasoning_preserves o _ h4
  have h6 := stepBusinessImpact_preserves o _ h5
  have h7 := stepEducational_preserves o _ h6
  have h8 := stepDocumentation_preserves o _ h7
  intro s hs
  unfold workflowStates at hs
  simp only [List.mem_cons, List.not_mem_nil, or_false] at hs
  rcases hs with rfl | rfl | rfl | rfl | rfl | rfl | rfl | rfl | rfl
  · exact h0
  · exact h1
  · exact h2
  · exact h3
  · exact h4
  · exact h5
  · exact h6
  · exact h7
  · exact h8

/-- Witness for C6: the invariant holds along a concrete run under a
total outage oracle. -/
theorem c6_completed_steps_slots_nonempty_witness :
    c6State.completed_steps = [] ∧
    ∀ s ∈ workflowStates outageOracles c6State, slotsInv s :=
  ⟨rfl, c6_completed_steps_slots_nonempty outageOracles c6State rfl⟩

/- ## Claim C5 -/

/-- Counterexample to C5 as stated: under a total completion-client
outage the workflow still returns an aggregate response, and the final
state records all eight steps as completed — no exception reaches the
caller and `completed_steps` is not a strict prefix. -/
theorem c5_step_failure_propagation_counterexample :
    (executeWorkflow outageOracles c5State).isOk = true ∧
    ((workflowStates outageOracles c5State).getLast?.map
      (fun s => s.completed_steps)) = some allStepNames :=
  ⟨rfl, rfl⟩

theorem orchestratorProcess_outage (e : PyErr) (loads : String → Option Json)
    (search : Json → Except PyErr (List Json)) (st : WorkflowState) :
    (orchestratorProcess (outageOraclesWith e loads search) st).getD
      "orchestrator_plan" (Json.obj []) = orchestratorFallbackPlan := rfl

theorem requirementsProcess_outage (e : PyErr) (loads : String → Option Json)
    (search : Json → Except PyErr (List Json)) (st : WorkflowState) :
    (requirementsProcess (outageOraclesWith e loads search) st).getD
      "requirements_analysis" (Json.obj []) = requirementsFallbackAnalysis := rfl

theorem researchProcess_outage (e : PyErr) (loads : String → Option Json)
    (search : Json → Except PyErr (List Json)) (st : WorkflowState) :
    (researchProcess (outageOraclesWith e loads search) st).getD
      "research_data" (Json.obj []) = fallbackResearch := by
  unfold researchProcess
  cases hb : buildResearchPrompt st st.requirements_analysis with
  | error e2 => simp [hb, Bind.bind, Except.bind]; rfl
  | ok p => simp [hb, Bind.bind, Except.bind, outageOraclesWith]; rfl

theorem architectureProcess_outage (e : PyErr) (loads : String → Option Json)
    (search : Json → Except PyErr (List Json)) (st : WorkflowState) :
    (architectureProcess (outageOraclesWith e loads search) st).getD
      "architecture_design" (Json.obj []) = fallbackArchitecture := by
  unfold architectureProcess
  cases hx : extractExistingArchitecture st with
  | error e2 => simp [hx, Bind.bind, Except.bind]; rfl
  | ok existing =>
    cases hca : analyzeSystemComplexity (outageOraclesWith e loads search)
        st.user_query existing with
    | error e3 => simp [hx, hca, Bind.bind, Except.bind]; rfl
    | ok ca =>
      simp only [outageOraclesWith] at hca
      cases hp : buildArchitecturePromptWithAnalysis st st.requirements_analysis
          st.research_data ca existing with
      | error e4 => simp [outageOraclesWith, hx, hca, hp, Bind.bind, Except.bind]; rfl
      | ok prompt => simp [outageOraclesWith, hx, hca, hp, Bind.bind, Except.bind]; rfl

theorem whyReasoningProcess_outage (e : PyErr) (loads : String → Option Json)
    (search : Json → Except PyErr (List Json)) (st : WorkflowState) :
    (whyReasoningProcess (outageOraclesWith e loads search) st).getD
      "why_reasoning" (Json.obj []) = fallbackReasoning := by
  unfold whyReasoningProcess
  cases hb : buildReasoningPrompt st st.requirements_analysis st.research_data
      st.architecture_design with
  | error e2 => simp [hb, Bind.bind, Except.bind]; rfl
  | ok p => simp [hb, Bind.bind, Except.bind, outageOraclesWith]; rfl

theorem businessImpactProcess_outage (e : PyErr) (loads : String → Option Json)
    (search : Json → Except PyErr (List Json)) (st : WorkflowState) :
    (businessImpactProcess (outageOraclesWith e loads search) st).getD
      "business_impact" (Json.obj []) = fallbackImpact := by
  unfold businessImpactProcess
  cases hb : buildImpactPrompt st st.requirements_analysis st.architecture_design
      st.why_reasoning with
  | error e2 => simp [hb, Bind.bind, Except.bind]; rfl
  | ok p => simp [hb, Bind.bind, Except.bind, outageOraclesWith]; rfl

theorem educationalProcess_outage (e : PyErr) (loads : String → Option Json)
    (search : Json → Except PyErr (List Json)) (st : WorkflowState) :
    (educationalProcess (outageOraclesWith e loads search) st).getD
      "educational_content" (Json.obj []) = fallbackEducationalContent := by
  unfold educationalProcess
  cases hb : buildEducationalPrompt st st.architecture_design st.why_reasoning with
  | error e2 => simp [hb, Bind.bind, Except.bind]; rfl
  | ok p => simp [hb, Bind.bind, Except.bind, outageOraclesWith]; rfl

theorem documentationProcess_outage (e : PyErr) (loads : String → Option Json)
    (search : Json → Except PyErr (List Json)) (st : WorkflowState) :
    (documentationProcess (outageOraclesWith e loads search) st).getD
      "documentation" (Json.obj []) = fallbackDocumentation := by
  unfold documentationProcess
  cases hb : buildDocumentationPrompt st st.requirements_analysis
      st.architecture_design st.why_reasoning st.business_impact with
  | error e2 => simp [hb, Bind.bind, Except.bind]; rfl
  | ok p => simp [hb, Bind.bind, Except.bind, outageOraclesWith]; rfl

/-- Claim C5 (amended): a completion-client failure is NOT fatal to
any step — every agent catches it. Under a client that raises on
every call, a run from an empty `completed_steps` still walks all
eight steps (the recorded step lists grow one name per step up to all
eight), every output slot of the final state holds the agent\x27s
deterministic fallback, and for a valid initial state the driver
proceeds to compile the aggregate response from that final state
instead of re-raising the client\x27s exception. -/
theorem c5_completion_failures_never_abort_steps (e : PyErr)
    (loads : String → Option Json) (search : Json → Except PyErr (List Json))
    (st : WorkflowState) (hinit : st.completed_steps = []) :
    ((workflowStates (outageOraclesWith e loads search) st).map
      (fun s => s.completed_steps)) = completedPrefixes ∧
    ∃ final, (workflowStates (outageOraclesWith e loads search) st).getLast?
        = some final ∧
      allFallbackSlots final ∧
      (validateState st = true →
        executeWorkflow (outageOraclesWith e loads search) st
          = compileComprehensiveResponse final) := by
  constructor
  · simp [workflowStates, stepOrchestrator, stepRequirements, stepResearch,
      stepArchitecture, stepWhyReasoning, stepBusinessImpact, stepEducational,
      stepDocumentation, hinit, completedPrefixes]
  · refine ⟨_, rfl, ?_, ?_⟩
    · refine ⟨?_, ?_, ?_, ?_, ?_, ?_, ?_, ?_⟩
      · exact orchestratorProcess_outage e loads search
          st
      · exact requirementsProcess_outage e loads search
          (stepOrchestrator (outageOraclesWith e loads search) st)
      · exact researchProcess_outage e loads search
          (stepRequirements (outageOraclesWith e loads search) (stepOrchestrator (outageOraclesWith e loads search) st))
      · exact architectureProcess_outage e loads search
          (stepResearch (outageOraclesWith e loads search) (stepRequirements (outageOraclesWith e loads search) (stepOrchestrator (outageOraclesWith e loads search) st)))
      · exact whyReasoningProcess_outage e loads search
          (stepArchitecture (outageOraclesWith e loads search) (stepResearch (outageOraclesWith e loads search) (stepRequirements (outageOraclesWith e loads search) (stepOrchestrator (outageOraclesWith e loads search) st))))
      · exact businessImpactProcess_outage e loads search
          (stepWhyReasoning (outageOraclesWith e loads search) (stepArchitecture (outageOraclesWith e loads search) (stepResearch (outageOraclesWith e loads search) (stepRequirements (outageOraclesWith e loads search) (stepOrchestrator (outageOraclesWith e loads search) st)))))
      · exact educationalProcess_outage e loads search
          (stepBusinessImpact (outageOraclesWith e loads search) (stepWhyReasoning (outageOraclesWith e loads search) (stepArchitecture (outageOraclesWith e loads search) (stepResearch (outageOraclesWith e loads search) (stepRequirements (outageOraclesWith e loads search) (stepOrchestrator (outageOraclesWith e loads search) st))))))
      · exact documentationProcess_outage e loads search
          (stepEducational (outageOraclesWith e loads search) (stepBusinessImpact (outageOraclesWith e loads search) (stepWhyReasoning (outageOraclesWith e loads search) (stepArchitecture (outageOraclesWith e loads search) (stepResearch (outageOraclesWith e loads search) (stepRequirements (outageOraclesWith e loads search) (stepOrchestrator (outageOraclesWith e loads search) st)))))))
    · intro hvs
      unfold executeWorkflow
      rw [hvs]
      rfl

/-- Witness for C5 (amended): the concrete outage run from `c5State`
walks all eight steps and ends with every slot on its fallback. -/
theorem c5_completion_failures_never_abort_steps_witness :
    c5State.completed_steps = [] ∧
    ((workflowStates (outageOraclesWith PyErr.typeError loadsAlwaysFails
        (fun _ => .error PyErr.typeError)) c5State).map
      (fun s => s.completed_steps)) = completedPrefixes ∧
    ∃ final, (workflowStates (outageOraclesWith PyErr.typeError loadsAlwaysFails
        (fun _ => .error PyErr.typeError)) c5State).getLast? = some final ∧
      allFallbackSlots final ∧
      (validateState c5State = true →
        executeWorkflow (outageOraclesWith PyErr.typeError loadsAlwaysFails
          (fun _ => .error PyErr.typeError)) c5State
          = compileComprehensiveResponse final) :=
  ⟨rfl, c5_completion_failures_never_abort_steps PyErr.typeError loadsAlwaysFails
    (fun _ => .error PyErr.typeError) c5State rfl⟩

/- ## Claim C9 -/

/-- Claim C9 (code bug): the workflow's research step stores its
output in the state's `research_data` slot, but the context builder
tests and renders `research_findings`; on the state as the workflow
produces it (truthy `research_data`, default-empty
`research_findings`) the context prompt carries no Research section,
while mirroring the same output into `research_findings` — the field
the builder actually reads — yields exactly the labeled section the
spec describes. -/
theorem c9_research_section_dropped :
    c9State.research_data.truthy = true ∧
    c9State.research_findings.truthy = false ∧
    contextParts c9State =
      ["User Query: I need a blog platform",
       "User Expertise: ExpertiseLevel.INTERMEDIATE",
       "Requirements: " ++ pyStrJ c9State.requirements_analysis] ∧
    contextParts c9StateMirrored =
      ["User Query: I need a blog platform",
       "User Expertise: ExpertiseLevel.INTERMEDIATE",
       "Requirements: " ++ pyStrJ c9StateMirrored.requirements_analysis,
       "Research: " ++ pyStrJ c9StateMirrored.research_findings] :=
  ⟨rfl, rfl, rfl, rfl⟩

end AgentService
